import Mathlib

/-!
Verification development for the Imperium intent-based IoT controller.

The repository is a Python system that turns free-text operator directives
into network-plane enforcement (Linux tc: HTB classes, u32 filters, netem
qdiscs) and device-plane enforcement (MQTT control messages).  This file is
a shallow embedding of the core pipeline:

  * `src/src/intent_manager/parser.py`  — `IntentParser` (regex catalogue,
    type disambiguation, target-device extraction, validation),
  * `src/src/policy_engine/engine.py`   — `PolicyEngine.generate_policies`
    and the per-type generators,
  * `src/src/enforcement/network.py`    — `NetworkEnforcer` (apply_policy,
    clear_device, collect_tc_stats and the tc helper layer) over an abstract
    kernel-state model with explicit command outcomes,
  * `src/src/enforcement/device.py`     — `DeviceEnforcer` (MQTT control
    message construction, topic routing).

Python regular expressions used by the parser are embedded via a small
backtracking regex engine (`RE`, `reMatch`, `reSearch`) that mirrors
`re.search` / `re.match` semantics (leftmost position, greedy priority,
capture groups); the full pattern catalogue is encoded as data.

Python runtime values that flow through the pipeline (capture-group tuples,
strings, ints, bools, floats, None) are modelled by `PyVal`, so that value
conversions and comparisons (`int(...)`, `x in [1, 2]`, truthiness) keep
their Python semantics.  Floats are modelled as rationals.
-/

namespace Imperium

/-! ## Python value model -/

/-- Model of the Python values that flow through the pipeline: `None`,
strings, ints, bools, floats (as rationals) and tuples of optional strings
(the shape of `re.Match.groups()`). -/
inductive PyVal where
  | pnone
  | pstr (s : String)
  | pint (n : Int)
  | pbool (b : Bool)
  | prat (q : Rat)
  | ptup (gs : List (Option String))
deriving DecidableEq, Repr

/-- Python truthiness of a `PyVal`. -/
def pyTruthy : PyVal → Bool
  | .pnone => false
  | .pstr s => s ≠ ""
  | .pint n => n ≠ 0
  | .pbool b => b
  | .prat q => q ≠ 0
  | .ptup gs => gs ≠ []

/-- Does a character count as a Python decimal digit. -/
def isDig (c : Char) : Bool := '0' ≤ c ∧ c ≤ '9'

/-- Numeric value of a digit list (most significant first). -/
def natOfDig (l : List Char) : Nat :=
  l.foldl (fun a c => a * 10 + (c.toNat - '0'.toNat)) 0

/-- Python `int(...)` on a string: optional sign followed by one or more
digits; `none` models a raised `ValueError`. -/
def intOfStr (s : String) : Option Int :=
  match s.toList with
  | [] => none
  | '-' :: t => if t ≠ [] ∧ t.all isDig then some (-(natOfDig t : Int)) else none
  | l => if l.all isDig then some ((natOfDig l : Int)) else none

/-- Python `int(x)` for the values the engine converts; `none` models a
raised `TypeError`/`ValueError`. -/
def pyToInt : PyVal → Option Int
  | .pint n => some n
  | .pbool b => some (if b then 1 else 0)
  | .pstr s => intOfStr s
  | .prat q => some q.floor
  | _ => none

/-- Python `==` on the modelled values (numeric cross-type equality between
ints and bools, strings never equal numbers). -/
def pyEq : PyVal → PyVal → Bool
  | .pint n, .pint m => n = m
  | .pint n, .pbool b => n = (if b then 1 else 0)
  | .pbool b, .pint n => (if b then (1 : Int) else 0) = n
  | .pbool b, .pbool c => b = c
  | .pstr s, .pstr t => s = t
  | .prat q, .prat r => q = r
  | .prat q, .pint n => q = (n : Rat)
  | .pint n, .prat q => (n : Rat) = q
  | .pnone, .pnone => true
  | .ptup g, .ptup h => g = h
  | _, _ => false

/-- Python tuple indexing `t[i]` on a groups tuple (out-of-range collapses
to `None`; all uses in the source are in range). -/
def pyIndex (v : PyVal) (i : Nat) : PyVal :=
  match v with
  | .ptup gs =>
      match gs.get? i with
      | some (some s) => .pstr s
      | some none => .pnone
      | none => .pnone
  | _ => v

/-- Render a `PyVal` the way Python string interpolation does (only the
cases the source feeds into f-strings). -/
def pyFmt : PyVal → String
  | .pnone => "None"
  | .pstr s => s
  | .pint n => toString n
  | .pbool b => if b then "True" else "False"
  | .prat q => toString q
  | .ptup _ => "tuple"

/-! ## Keyed association lists (Python dicts and kernel-state tables) -/

/-- Key-membership in a keyed list. -/
def hasKey {κ α : Type} [DecidableEq κ] (l : List (κ × α)) (k : κ) : Bool :=
  l.any (fun p => p.1 = k)

/-- Replace in place when present, else append — this is Python 3.7+ dict
assignment (insertion order preserved) and the write discipline of the
kernel-state tables. -/
def putKey {κ α : Type} [DecidableEq κ] (l : List (κ × α)) (k : κ) (v : α) :
    List (κ × α) :=
  if l.any (fun p => p.1 = k) then
    l.map (fun p => if p.1 = k then (k, v) else p)
  else
    l ++ [(k, v)]

/-- Remove every binding of a key. -/
def delKey {κ α : Type} [DecidableEq κ] (l : List (κ × α)) (k : κ) :
    List (κ × α) :=
  l.filter (fun p => p.1 ≠ k)

/-- Look a key up (first binding). -/
def getKey {κ α : Type} [DecidableEq κ] (l : List (κ × α)) (k : κ) :
    Option α :=
  (l.find? (fun p => p.1 = k)).map (fun p => p.2)

/-- Python `d[k] = v`. -/
def ior {α : Type} (m : List (String × α)) (k : String) (v : α) :
    List (String × α) :=
  putKey m k v

/-- Python `d.get(k)` as an `Option`. -/
def dget {α : Type} (m : List (String × α)) (k : String) : Option α :=
  getKey m k

/-- Python `d.get(k, dflt)`. -/
def dgetD {α : Type} (m : List (String × α)) (k : String) (dflt : α) : α :=
  (dget m k).getD dflt

/-- Python `k in d`. -/
def dmem {α : Type} (m : List (String × α)) (k : String) : Bool :=
  hasKey m k

/-- Python `dst.update(src)` (left-to-right overlay of `src` onto `dst`). -/
def dupdate {α : Type} (dst src : List (String × α)) : List (String × α) :=
  src.foldl (fun m p => ior m p.1 p.2) dst

/-! ## String helpers -/

/-- Is a character Python regex whitespace (`\s`, ASCII subset). -/
def isWs (c : Char) : Bool :=
  c = ' ' ∨ c = '\t' ∨ c = '\n' ∨ c = '\x0d' ∨ c = '\x0b' ∨ c = '\x0c'

/-- Is a character a Python regex word character (`\w`, ASCII subset). -/
def isWord (c : Char) : Bool :=
  c.isAlpha ∨ isDig c ∨ c = '_'

/-- ASCII lowercase of a character. -/
def chLower (c : Char) : Char :=
  if 'A' ≤ c ∧ c ≤ 'Z' then Char.ofNat (c.toNat + 32) else c

/-- ASCII uppercase of a character. -/
def chUpper (c : Char) : Char :=
  if 'a' ≤ c ∧ c ≤ 'z' then Char.ofNat (c.toNat - 32) else c

/-- ASCII lowercase of a string (Python `str.lower` on the inputs used). -/
def strLower (s : String) : String := String.mk (s.toList.map chLower)

/-- ASCII uppercase of a string (Python `str.upper` on the inputs used). -/
def strUpper (s : String) : String := String.mk (s.toList.map chUpper)

/-- Does `needle` occur as a contiguous run inside `hay` (Python `in`). -/
def containsSub (needle hay : List Char) : Bool :=
  match hay with
  | [] => needle = []
  | _ :: t => needle.isPrefixOf hay ∨ containsSub needle t

/-- String-level `needle in hay` (Python substring membership). -/
def strIn (needle hay : String) : Bool := containsSub needle.toList hay.toList

/-- Python `s.endswith(t)`. -/
def strEndsWith (s t : String) : Bool := t.toList.isSuffixOf s.toList

/-- Python `s.replace(old, new)` (replace every occurrence). -/
def replaceSub : List Char → List Char → List Char → List Char
  | [], _, _ => []
  | c :: t, old, new =>
      if h : old ≠ [] ∧ old.isPrefixOf (c :: t) then
        new ++ replaceSub ((c :: t).drop old.length) old new
      else
        c :: replaceSub t old new
termination_by l _ _ => l.length
decreasing_by
  · have hpos : 0 < old.length := List.length_pos.mpr h.1
    simp only [List.length_drop, List.length_cons]
    omega
  · simp

/-- String-level `s.replace(old, new)`. -/
def strReplace (s old new : String) : String :=
  String.mk (replaceSub s.toList old.toList new.toList)

/-! ## A small regex engine

Python patterns used by the source are encoded into this AST and run with
`re.search` / `re.match` semantics: try the leftmost start position, and
within a position explore alternatives in backtracking priority order
(greedy repetition longest-first, left alternative first, optional piece
present-first).  Repetition (`*`, `+`) only ever occurs over single
character classes in the source's catalogue, which the AST makes
structural. -/

/-- Character classes occurring in the source's patterns. -/
inductive CC where
  | d            -- `\d`
  | w            -- `\w`
  | s            -- `\s`
  | S            -- `\S`
  | wd           -- `[-\w]`
  | chars (cs : List Char)   -- explicit sets such as `[-_]` or `[x%]`
deriving Repr

/-- Does a character match a character class. -/
def ccMatch : CC → Char → Bool
  | .d, c => isDig c
  | .w, c => isWord c
  | .s, c => isWs c
  | .S, c => ¬ isWs c
  | .wd, c => c = '-' ∨ isWord c
  | .chars cs, c => c ∈ cs

/-- Regex AST: literals, character classes, greedy repetition over a class,
greedy option, sequencing, prioritised alternation and capture groups. -/
inductive RE where
  | lit (s : List Char)
  | cls (c : CC)
  | star (c : CC)
  | plus (c : CC)
  | opt (r : RE)
  | seq (a b : RE)
  | alt (a b : RE)
  | grp (n : Nat) (r : RE)
deriving Repr

/-- All ways a greedy repetition can split the input, longest first:
`(consumed-prefix options as remaining suffixes)`. -/
def greedySplits (c : CC) (cs : List Char) (minOne : Bool) : List (List Char) :=
  let run := cs.takeWhile (ccMatch c)
  let maxLen := run.length
  let lens := (List.range (maxLen + 1)).map (fun k => maxLen - k)
  let lens := if minOne then lens.filter (fun k => k ≠ 0) else lens
  lens.map (fun k => cs.drop k)

/-- Backtracking matcher: all matches of `r` against a prefix of `cs`, in
Python priority order; each result is the remaining suffix paired with the
captures made so far. -/
def reMatch : RE → List Char → List (List Char × List (Nat × List Char))
  | .lit s, cs => if s.isPrefixOf cs then [(cs.drop s.length, [])] else []
  | .cls c, cs =>
      match cs with
      | [] => []
      | ch :: t => if ccMatch c ch then [(t, [])] else []
  | .star c, cs => (greedySplits c cs false).map (fun rest => (rest, []))
  | .plus c, cs => (greedySplits c cs true).map (fun rest => (rest, []))
  | .opt r, cs => reMatch r cs ++ [(cs, [])]
  | .seq a b, cs =>
      (reMatch a cs).flatMap (fun p =>
        (reMatch b p.1).map (fun q => (q.1, p.2 ++ q.2)))
  | .alt a b, cs => reMatch a cs ++ reMatch b cs
  | .grp n r, cs =>
      (reMatch r cs).map (fun p =>
        (p.1, (n, cs.take (cs.length - p.1.length)) :: p.2))

/-- The `re.match`: match anchored at the start; yields the highest-priority
match's captures. -/
def reMatchAt0 (r : RE) (cs : List Char) :
    Option (List (Nat × List Char)) :=
  (reMatch r cs).head?.map (fun p => p.2)

/-- The `re.search`: try each start position left to right, take the first
position that matches and its highest-priority captures. -/
def reSearch (r : RE) (cs : List Char) :
    Option (List (Nat × List Char)) :=
  match cs with
  | [] => reMatchAt0 r []
  | _ :: t =>
      match reMatchAt0 r cs with
      | some caps => some caps
      | none => reSearch r t

/-- The `match.groups()` for a pattern with `n` capture groups: group `i` is the
first capture recorded for index `i`, `None` when the group did not
participate. -/
def groupsOf (n : Nat) (caps : List (Nat × List Char)) :
    List (Option String) :=
  (List.range n).map (fun i =>
    (caps.find? (fun p => p.1 = i + 1)).map (fun p => String.mk p.2))

/-- The `re.search` returning `match.groups()` (with `n` the pattern's group
count), or `none` when the pattern does not occur. -/
def searchGroups (r : RE) (n : Nat) (s : String) :
    Option (List (Option String)) :=
  (reSearch r s.toList).map (groupsOf n)

/-- Group 1 of a `re.search`, `None` modelled as `none`. -/
def searchGrp1 (r : RE) (s : String) : Option (Option String) :=
  (reSearch r s.toList).map (fun caps =>
    (caps.find? (fun p => p.1 = 1)).map (fun p => String.mk p.2))

/-! Concrete pattern-building helpers. -/

/-- Literal regex piece from a string. -/
def rlit (s : String) : RE := .lit s.toList

/-- Sequence a list of regex pieces. -/
def rcat (l : List RE) : RE :=
  match l with
  | [] => .lit []
  | [r] => r
  | r :: t => .seq r (rcat t)

/-- Two-way prioritised alternation. -/
def ralt2 (a b : RE) : RE := .alt a b

/-- Three-way prioritised alternation. -/
def ralt3 (a b c : RE) : RE := .alt a (.alt b c)

/-- The `\s+`. -/
def ws1 : RE := .plus .s

/-- The `\s*`. -/
def ws0 : RE := .star .s

/-- An optional literal-plus-whitespace piece such as `(?:to\s+)?`. -/
def optWord (s : String) : RE := .opt (.seq (rlit s) ws1)

/-- The `[-_]?`. -/
def dashOpt : RE := .opt (.cls (.chars ['-', '_']))

/-- An optional word chunk `(?:\S+\s+)?` (skipped mid-clause such as a
device name). -/
def optChunk : RE := .opt (.seq (.plus .S) ws1)

/-- The `(?:mbps|kbps|gbps)`. -/
def unitAlt : RE := ralt3 (rlit "mbps") (rlit "kbps") (rlit "gbps")

/-- The `(?:seconds?|s|sec)`. -/
def secAlt : RE := ralt3 (.seq (rlit "second") (.opt (rlit "s"))) (rlit "s") (rlit "sec")

/-- The `(?:ms|seconds?|s)`. -/
def msSecAlt : RE := ralt3 (rlit "ms") (.seq (rlit "second") (.opt (rlit "s"))) (rlit "s")

/-- The `\d+\.?\d*` (a decimal number as captured by the gain patterns). -/
def decNum : RE := rcat [.plus .d, .opt (rlit "."), .star .d]

/-! ## Intent parser (`src/src/intent_manager/parser.py`)

`IntentParser.intent_patterns` encoded as data: each entry is the intent
type paired with its ordered pattern list; each pattern carries its regex,
its parameter name and its capture-group count. -/

/-- The parser's full regex catalogue (`IntentParser.__init__`). -/
def intentPatterns : List (String × List (RE × String × Nat)) :=
  [ ("priority",
     [ (rcat [rlit "prioritize", ws1, ralt2 (rlit "device") (rlit "node"), ws1,
              .grp 1 (.plus .S)], "device_id", 1),
       (rcat [rlit "high", ws1, rlit "priority", ws1, optWord "for",
              .grp 1 (.plus .S)], "device_id", 1),
       (rcat [rlit "priority", ws1, .grp 1 (.plus .d)], "priority_level", 1) ]),
    ("bandwidth",
     [ (rcat [rlit "limit", ws1, rlit "bandwidth", ws1, optWord "for", optChunk,
              optWord "to", .grp 1 (.plus .d), ws0, .opt (.grp 2 unitAlt)],
        "bandwidth_limit", 2),
       (rcat [rlit "bandwidth", ws1, optWord "limit", optWord "to",
              .grp 1 (.plus .d), ws0, .opt (.grp 2 unitAlt)],
        "bandwidth_limit", 2),
       (rcat [rlit "allocate", ws1, .grp 1 (.plus .d), ws0, .opt (.grp 2 unitAlt),
              ws1, ralt2 (rlit "to") (rlit "for"), ws1, .grp 3 (.plus .S)],
        "bandwidth_allocation", 3),
       (rcat [rlit "throttle", ws1, .grp 1 (.plus .S), ws1, optWord "to",
              .grp 2 (.plus .d)], "throttle", 2) ]),
    ("latency",
     [ (rcat [rlit "reduce", ws1, rlit "latency", ws1, optWord "to",
              .grp 1 (.plus .d), ws0, rlit "ms"], "latency_target", 1),
       (rcat [rlit "latency", ws1, ralt2 (rlit "below") (rlit "under"), ws1,
              .grp 1 (.plus .d)], "latency_threshold", 1),
       (rcat [rlit "minimize", ws1, rlit "latency", ws1, optWord "for",
              .opt (.grp 1 (.plus .S))], "low_latency", 1) ]),
    ("qos",
     [ (rcat [rlit "qos", ws1, optWord "level", .grp 1 (.plus .d)],
        "qos_level", 1),
       (rcat [rlit "quality", ws1, rlit "of", ws1, rlit "service", ws1,
              .grp 1 (.plus .d)], "qos_level", 1),
       (rcat [rlit "reliable", ws1, rlit "delivery", ws1, optWord "for",
              .grp 1 (.plus .S)], "reliable_delivery", 1) ]),
    ("sample_rate",
     [ (rcat [optWord "set", rlit "sample", ws0, rlit "rate", ws1, optWord "to",
              .grp 1 (.plus .d), ws0, .opt (ralt2 (rlit "hz") (rlit "khz"))],
        "sample_rate", 1),
       (rcat [ralt3 (rlit "change") (rlit "reduce") (rlit "increase"), ws1,
              rlit "sampling", ws1, optWord "rate", optWord "to",
              .grp 1 (.plus .d)], "sample_rate", 1),
       (rcat [rlit "audio", ws1, .opt (.seq (rlit "sample") ws0), rlit "rate",
              ws1, .grp 1 (.plus .d)], "sample_rate", 1),
       (rcat [.grp 1 (.plus .d), ws0, ralt2 (rlit "hz") (rlit "khz"), ws1,
              ralt3 (rlit "sample") (rlit "sampling") (rlit "audio")],
        "sample_rate", 1) ]),
    ("sampling_interval",
     [ (rcat [optWord "set", rlit "sampling", ws1,
              ralt2 (rlit "rate") (rlit "interval"), ws1, optWord "for",
              optChunk, optWord "to", .grp 1 (.plus .d), ws0, secAlt],
        "interval_seconds", 1),
       (rcat [ralt3 (rlit "read") (rlit "sample") (rlit "measure"), ws1,
              optChunk, rlit "every", ws1, .grp 1 (.plus .d), ws0, .opt secAlt],
        "interval_seconds", 1),
       (rcat [rlit "every", ws1, .grp 1 (.plus .d), ws0, secAlt],
        "interval_seconds", 1),
       (rcat [ralt2 (rlit "co2")
                (ralt3 (rlit "temperature") (rlit "humidity")
                   (.seq (rlit "environmenta") (.opt (rlit "l")))), ws1,
              optWord "sampling", ralt2 (rlit "interval") (rlit "rate"), ws1,
              optWord "to", .grp 1 (.plus .d)], "interval_seconds", 1),
       (rcat [.grp 1 (.plus .d), ws0,
              ralt3 (rlit "second") (rlit "sec") (rlit "s"), ws1,
              ralt3 (rlit "sampling") (rlit "interval") (rlit "reading")],
        "interval_seconds", 1),
       (rcat [ralt2 (rlit "interval") (rlit "rate"), ws1, optWord "of",
              .grp 1 (.plus .d), ws0, .opt secAlt], "interval_seconds", 1) ]),
    ("device_control",
     [ (rcat [ralt3 (rlit "enable") (rlit "start") (rlit "activate"), ws1,
              optWord "device", .grp 1 (.plus .S)], "enable_device", 1),
       (rcat [ralt3 (rlit "disable") (rlit "stop") (rlit "deactivate"), ws1,
              optWord "device", .grp 1 (.plus .S)], "disable_device", 1),
       (rcat [rlit "reset", ws1, optWord "device", .grp 1 (.plus .S)],
        "reset_device", 1) ]),
    ("publish_interval",
     [ (rcat [optWord "set",
              ralt3 (rlit "publish") (rlit "telemetry") (rlit "reporting"), ws1,
              ralt2 (rlit "interval") (rlit "rate"), ws1, optWord "to",
              .grp 1 (.plus .d), ws0, .opt msSecAlt], "interval_value", 1),
       (rcat [ralt2 (rlit "send") (rlit "report"), ws1,
              ralt2 (rlit "data") (rlit "telemetry"), ws1, rlit "every", ws1,
              .grp 1 (.plus .d), ws0, .opt msSecAlt], "interval_value", 1),
       (rcat [ralt2 (rlit "reduce") (rlit "increase"), ws1,
              ralt2 (rlit "publish") (rlit "telemetry"), ws1,
              .opt (ralt2 (rlit "frequency") (rlit "rate")), ws0, optWord "to",
              .grp 1 (.plus .d)], "interval_value", 1) ]),
    ("audio_gain",
     [ (rcat [optWord "set", optWord "audio", rlit "gain", ws1, optWord "to",
              .grp 1 decNum, .opt (.cls (.chars ['x', '%']))], "gain_value", 1),
       (rcat [ralt2 (rlit "amplify") (rlit "boost"), ws1, optWord "audio",
              optWord "by", .grp 1 decNum, .opt (.cls (.chars ['x', '%']))],
        "gain_value", 1),
       (rcat [ralt3 (rlit "reduce") (rlit "lower") (rlit "decrease"), ws1,
              optWord "audio", ralt3 (rlit "volume") (rlit "level") (rlit "gain"),
              ws1, optWord "to", .grp 1 decNum], "gain_value", 1),
       (rcat [optWord "set", rlit "audio", ws1,
              ralt2 (rlit "volume") (rlit "level"), ws1, optWord "to",
              .grp 1 decNum], "gain_value", 1) ]),
    ("camera_resolution",
     [ (rcat [optWord "set", optWord "camera", rlit "resolution", ws1,
              optWord "to", .grp 1 (.plus .w)], "resolution_value", 1),
       (rcat [ralt2 (rlit "change") (rlit "switch"), ws1, optWord "to",
              .grp 1 (.plus .w), ws1, rlit "resolution"], "resolution_value", 1),
       (rcat [rlit "capture", ws1, ralt2 (rlit "at") (rlit "in"), ws1,
              .grp 1 (.plus .w)], "resolution_value", 1),
       (.grp 1 (rcat [.plus .d, rlit "x", .plus .d]), "resolution_value", 1) ]),
    ("camera_quality",
     [ (rcat [optWord "set", optWord "camera", optWord "image", rlit "quality",
              ws1, optWord "to", .grp 1 (.plus .d)], "quality_value", 1),
       (rcat [ralt2 (rlit "jpeg") (rlit "image"), ws1, rlit "quality", ws1,
              .grp 1 (.plus .d)], "quality_value", 1),
       (rcat [ralt3 (rlit "high") (rlit "low") (rlit "medium"), ws1,
              rlit "quality"], "quality_preset", 0) ]),
    ("camera_brightness",
     [ (rcat [optWord "set", optWord "camera", rlit "brightness", ws1,
              optWord "to", .grp 1 (.seq (.opt (rlit "-")) (.plus .d))],
        "brightness_value", 1),
       (rcat [ralt3 (rlit "increase") (rlit "decrease") (rlit "adjust"), ws1,
              rlit "brightness", ws1, optWord "by",
              .grp 1 (.seq (.opt (rlit "-")) (.plus .d))], "brightness_value", 1),
       (rcat [ralt2 (rlit "brighter") (rlit "darker"), ws1, optWord "by",
              .grp 1 (.plus .d)], "brightness_adjust", 1) ]),
    ("camera_framerate",
     [ (rcat [optWord "set", optWord "camera",
              ralt2 (rcat [rlit "frame", ws0, rlit "rate"]) (rlit "fps"), ws1,
              optWord "to", .grp 1 (.plus .d)], "framerate_value", 1),
       (rcat [rlit "capture", ws1, rlit "every", ws1, .grp 1 (.plus .d), ws0,
              .opt msSecAlt], "capture_interval", 1),
       (rcat [ralt2 (rlit "capture") (rlit "frame"), ws1, rlit "interval", ws1,
              optWord "of", .grp 1 (.plus .d)], "capture_interval", 1) ]),
    ("camera_control",
     [ (rcat [ralt3 (rlit "enable") (rlit "start") (rlit "activate"), ws1,
              rlit "camera"], "enable_camera", 0),
       (rcat [ralt3 (rlit "disable") (rlit "stop") (rlit "deactivate"), ws1,
              rlit "camera"], "disable_camera", 0),
       (rcat [ralt2 (rlit "pause") (rlit "resume"), ws1, optWord "camera",
              ralt2 (rlit "capture") (rlit "recording")], "camera_action", 0) ]) ]

/-- Does any word of the list occur in the description (the source's
`any(word in intent_description for word in [...])`). -/
def anyIn (ws : List String) (s : String) : Bool := ws.any (fun w => strIn w s)

/-- The `IntentParser._determine_type` — the type-disambiguation cascade over
the lowercased description; first match wins. -/
def determine_type (s : String) : String :=
  if strIn "resolution" s ∨
     anyIn ["qvga", "vga", "svga", "xga", "hd", "sxga", "uxga"] s then
    "camera_resolution"
  else if strIn "brightness" s ∧ (strIn "camera" s ∨ strIn "cam" s) then
    "camera_brightness"
  else if anyIn ["frame rate", "fps", "capture interval", "capture every"] s then
    "camera_framerate"
  else if (strIn "quality" s ∧ (strIn "camera" s ∨ strIn "cam" s)) ∨
          strIn "jpeg quality" s ∨ strIn "image quality" s then
    "camera_quality"
  else if (strIn "camera" s ∨ strIn "cam" s) ∧
          anyIn ["enable", "disable", "start", "stop", "pause", "resume"] s then
    "camera_control"
  else if anyIn ["mhz19", "co2", "carbon dioxide", "environmental", "esp32-env"] s ∧
          anyIn ["sampling", "interval", "rate", "every"] s then
    "sampling_interval"
  else if strIn "seconds" s ∧ strIn "sampling" s then
    "sampling_interval"
  else if anyIn ["sample rate", "sampling", "audio rate", "khz", " hz"] s then
    "sample_rate"
  else if anyIn ["gain", "amplify", "boost", "audio volume", "audio level"] s then
    "audio_gain"
  else if anyIn ["publish interval", "telemetry rate", "telemetry", "reporting",
                 "send data", "report every", "report telemetry"] s then
    "publish_interval"
  else if anyIn ["enable", "disable", "start", "stop", "activate", "deactivate",
                 "reset"] s then
    "device_control"
  else if anyIn ["priority", "prioritize", "critical"] s then
    "priority"
  else if anyIn ["bandwidth", "throttle", "limit"] s then
    "bandwidth"
  else if anyIn ["latency", "delay", "response"] s then
    "latency"
  else if anyIn ["qos", "quality of service", "reliable delivery"] s then
    "qos"
  else
    "general"

/-- Result of `IntentParser.parse`: the original text, the determined type,
the captured parameters (insertion-ordered) and the per-catalogue-type flag
keys the source drops into the top-level dict. -/
structure ParsedIntent where
  original : String
  intentType : String
  parameters : List (String × PyVal)
  flags : List String
deriving DecidableEq, Repr

/-- The pattern sweep of `parse`: every catalogue pattern is tried against
the lowercased description; a match stores `match.groups()` under the
pattern's parameter name (later same-named matches overwrite) and flags the
catalogue type. -/
def sweepPat (low : String) (tname : String)
    (acc : List (String × PyVal) × List String) (pat : RE × String × Nat) :
    List (String × PyVal) × List String :=
  match searchGroups pat.1 pat.2.2 low with
  | some gs =>
      (ior acc.1 pat.2.1 (.ptup gs),
       if tname ∈ acc.2 then acc.2 else acc.2 ++ [tname])
  | none => acc

/-- One catalogue entry of the sweep. -/
def sweepEntry (low : String) (acc : List (String × PyVal) × List String)
    (entry : String × List (RE × String × Nat)) :
    List (String × PyVal) × List String :=
  entry.2.foldl (sweepPat low entry.1) acc

/-- The whole catalogue sweep. -/
def sweepPatterns (low : String)
    (acc : List (String × PyVal) × List String) :
    List (String × PyVal) × List String :=
  intentPatterns.foldl (sweepEntry low) acc

/-- The `(?:device|node)[-_]?(\w+)`. -/
def nodeTargetRE : RE :=
  rcat [ralt2 (rlit "device") (rlit "node"), dashOpt, .grp 1 (.plus .w)]

/-- The `esp32[-_]?audio[-_]?(\d*)`. -/
def espAudioRE : RE :=
  rcat [rlit "esp32", dashOpt, rlit "audio", dashOpt, .grp 1 (.star .d)]

/-- The `esp32[-_]?cam[-_]?(\d*)`. -/
def espCamRE : RE :=
  rcat [rlit "esp32", dashOpt, rlit "cam", dashOpt, .grp 1 (.star .d)]

/-- The `esp32[-_]?mhz19[-_]?(\d*)`. -/
def espMhz19RE : RE :=
  rcat [rlit "esp32", dashOpt, rlit "mhz19", dashOpt, .grp 1 (.star .d)]

/-- The `esp32[-_]?env[-_]?(\d*)`. -/
def espEnvRE : RE :=
  rcat [rlit "esp32", dashOpt, rlit "env", dashOpt, .grp 1 (.star .d)]

/-- The `mhz19[-_]?(\d*)`. -/
def mhz19RE : RE := rcat [rlit "mhz19", dashOpt, .grp 1 (.star .d)]

/-- The `for\s+(esp32[-\w]*|node[-\w]*|\S+[-_]\d+)`. -/
def forClauseRE : RE :=
  rcat [rlit "for", ws1,
        .grp 1 (ralt3 (.seq (rlit "esp32") (.star .wd))
                  (.seq (rlit "node") (.star .wd))
                  (rcat [.plus .S, .cls (.chars ['-', '_']), .plus .d]))]

/-- The `match.group(1) or dflt` for the device-number groups (an empty capture
is falsy and replaced by the default). -/
def grpOr (g : Option (Option String)) (dflt : String) : Option String :=
  g.map (fun o =>
    match o with
    | some s => if s = "" then dflt else s
    | none => dflt)

/-- The `node`/`device` fallback target. -/
def nodeTarget (low : String) : Option String :=
  (searchGrp1 nodeTargetRE low).map (fun g => (g.getD ""))

/-- The `esp32-audio-N` explicit target. -/
def audioTarget (low : String) : Option String :=
  (grpOr (searchGrp1 espAudioRE low) "1").map (fun n => "esp32-audio-" ++ n)

/-- The `esp32-cam-N` explicit target. -/
def camTarget (low : String) : Option String :=
  (grpOr (searchGrp1 espCamRE low) "1").map (fun n => "esp32-cam-" ++ n)

/-- The `esp32-mhz19-N` explicit target. -/
def espMhz19Target (low : String) : Option String :=
  (grpOr (searchGrp1 espMhz19RE low) "1").map (fun n => "esp32-mhz19-" ++ n)

/-- The `esp32-env-N` explicit target. -/
def espEnvTarget (low : String) : Option String :=
  (grpOr (searchGrp1 espEnvRE low) "1").map (fun n => "esp32-env-" ++ n)

/-- The generic `mhz19-NN` fallback target. -/
def mhz19Target (low : String) : Option String :=
  (grpOr (searchGrp1 mhz19RE low) "01").map (fun n => "mhz19-" ++ n)

/-- The trailing `for X` clause target. -/
def forTarget (low : String) : Option String :=
  (searchGrp1 forClauseRE low).map (fun g => (g.getD ""))

/-- Store a target device into the parameters map. -/
def setTarget (m : List (String × PyVal)) (v : String) :
    List (String × PyVal) :=
  ior m "target_device" (.pstr v)

/-- The `IntentParser.parse` — lowercase, determine the type, sweep the pattern
catalogue, then run the sequential target-extraction assignments (each of
which overwrites `target_device`, except the final `for X` clause, which
only fills an absent target). -/
def parse (intent_description : String) : ParsedIntent :=
  let low := strLower intent_description
  let t := determine_type low
  let (params, flags) := sweepPatterns low ([], [])
  let params :=
    match nodeTarget low with
    | some v => setTarget params v
    | none => params
  let params :=
    match audioTarget low with
    | some v => setTarget params v
    | none => params
  let params :=
    match camTarget low with
    | some v => setTarget params v
    | none => params
  let params :=
    match espMhz19Target low with
    | some v => setTarget params v
    | none =>
        match espEnvTarget low with
        | some v => setTarget params v
        | none =>
            match mhz19Target low with
            | some v => setTarget params v
            | none => params
  let params :=
    match forTarget low with
    | some v => if dmem params "target_device" then params else setTarget params v
    | none => params
  { original := intent_description, intentType := t,
    parameters := params, flags := flags }

/-- The `IntentParser.validate` — reject when the type is missing (falsy) or no
parameters were extracted. -/
def validate (p : ParsedIntent) : Bool × String :=
  if p.intentType = "" then (false, "Unable to determine intent type")
  else if p.parameters = [] then (false, "No actionable parameters extracted")
  else (true, "Valid")

/-! ## Policy engine (`src/src/policy_engine/engine.py`) -/

/-- The `PolicyType` — the closed enumeration of generated policy types. -/
inductive PolicyType where
  | traffic_shaping | qos_control | routing_priority | device_config
  | bandwidth_limit | latency_control | sample_rate | sampling_interval
  | device_control | publish_interval | audio_gain | camera_resolution
  | camera_quality | camera_brightness | camera_framerate | camera_control
deriving DecidableEq, Repr

/-- The enum's `.value` strings. -/
def PolicyType.val : PolicyType → String
  | .traffic_shaping => "traffic_shaping"
  | .qos_control => "qos_control"
  | .routing_priority => "routing_priority"
  | .device_config => "device_config"
  | .bandwidth_limit => "bandwidth_limit"
  | .latency_control => "latency_control"
  | .sample_rate => "sample_rate"
  | .sampling_interval => "sampling_interval"
  | .device_control => "device_control"
  | .publish_interval => "publish_interval"
  | .audio_gain => "audio_gain"
  | .camera_resolution => "camera_resolution"
  | .camera_quality => "camera_quality"
  | .camera_brightness => "camera_brightness"
  | .camera_framerate => "camera_framerate"
  | .camera_control => "camera_control"

/-- The `Policy` — one generated policy record.  `policy_id` in the source is
`policy-` plus a uuid4 hex run; randomness has no shallow embedding, so ids
are drawn from a fresh-id counter threaded through generation (claims never
depend on id values). -/
structure Policy where
  policy_id : String
  policy_type : PolicyType
  target : String
  parameters : List (String × PyVal)
  priority : Nat
deriving DecidableEq, Repr

/-- The `PolicyEngine._get_next_policy_id`, with the uuid modelled by a counter. -/
def nextPolicyId (n : Nat) : String × Nat := ("policy-" ++ toString n, n + 1)

/-- A helper: parsed parameter maps store `match.groups()` tuples; the
generators index into them. -/
def tupIdx (m : List (String × PyVal)) (k : String) (i : Nat) : PyVal :=
  pyIndex (dgetD m k (.ptup [])) i

/-- The `PolicyEngine._generate_priority_policies`. -/
def generate_priority_policies (params : List (String × PyVal)) (n : Nat) :
    List Policy × Nat :=
  let target :=
    match dget params "target_device" with
    | some (.pstr s) => s
    | some v => pyFmt v
    | none =>
        match dget params "device_id" with
        | some v => pyFmt (pyIndex v 0)
        | none => "unknown"
  let (id1, n) := nextPolicyId n
  let p1 : Policy :=
    { policy_id := id1, policy_type := .traffic_shaping, target := target,
      parameters := [("class", .pstr "high_priority"), ("rate", .pstr "100mbit"),
                     ("ceil", .pstr "200mbit"), ("burst", .pstr "32k")],
      priority := 9 }
  let (id2, n) := nextPolicyId n
  let p2 : Policy :=
    { policy_id := id2, policy_type := .routing_priority, target := target,
      parameters := [("tos", .pstr "0x10"), ("priority", .pstr "high")],
      priority := 8 }
  ([p1, p2], n)

/-- The `PolicyEngine._generate_bandwidth_policies`. -/
def generate_bandwidth_policies (params : List (String × PyVal)) (n : Nat) :
    List Policy × Nat :=
  let target :=
    match dget params "target_device" with
    | some (.pstr s) => s
    | some v => pyFmt v
    | none => "all"
  let bandwidth_limit : Option String :=
    if dmem params "bandwidth_limit" then
      let gs := dgetD params "bandwidth_limit" (.ptup [])
      let value := pyIndex gs 0
      let len := match gs with | .ptup l => l.length | _ => 0
      let u1 := pyIndex gs 1
      let unit := if len > 1 ∧ pyTruthy u1 then pyFmt u1 else "mbit"
      let unit := if strEndsWith unit "bps" then strReplace unit "bps" "bit"
                  else unit
      some (pyFmt value ++ unit)
    else if dmem params "throttle" then
      some (pyFmt (tupIdx params "throttle" 1) ++ "mbit")
    else
      none
  match bandwidth_limit with
  | some bl =>
      let (id1, n) := nextPolicyId n
      ([{ policy_id := id1, policy_type := .bandwidth_limit, target := target,
          parameters := [("rate", .pstr bl), ("ceil", .pstr bl),
                         ("burst", .pstr "15k")],
          priority := 7 }], n)
  | none => ([], n)

/-- The `PolicyEngine._generate_latency_policies` — mode 1 fires only when the
parameters carry a `latency_inject` key; otherwise mode 2 emits a
low-latency `traffic_shaping` policy. -/
def generate_latency_policies (params : List (String × PyVal)) (n : Nat) :
    List Policy × Nat :=
  let target :=
    match dget params "target_device" with
    | some (.pstr s) => s
    | some v => pyFmt v
    | none => "all"
  if dmem params "latency_inject" then
    let raw := dgetD params "latency_inject" .pnone
    let raw := match raw with
               | .ptup _ => pyIndex raw 0
               | v => v
    match pyToInt raw with
    | some d =>
        let delay := d.toNat
        let (id1, n) := nextPolicyId n
        ([{ policy_id := id1, policy_type := .latency_control, target := target,
            parameters :=
              [("delay", .pstr (toString delay ++ "ms")),
               ("jitter", .pstr (toString (max 1 (delay / 10)) ++ "ms"))],
            priority := 8 }], n)
    | none => ([], n)
  else
    let (id1, n) := nextPolicyId n
    ([{ policy_id := id1, policy_type := .traffic_shaping, target := target,
        parameters := [("class", .pstr "low_latency"),
                       ("netem_delay", .pstr "0ms"),
                       ("priority", .pstr "express"),
                       ("queue", .pstr "fq_codel")],
        priority := 9 }], n)

/-- The `PolicyEngine._generate_qos_policies` — note that `qos_level` is the
raw captured value (a string for parsed intents) and the membership test
`qos_level in [1, 2]` uses Python equality. -/
def generate_qos_policies (params : List (String × PyVal)) (n : Nat) :
    List Policy × Nat :=
  let target :=
    match dget params "target_device" with
    | some (.pstr s) => s
    | some v => pyFmt v
    | none => "all"
  let qos_level :=
    match dget params "qos_level" with
    | some v => pyIndex v 0
    | none => .pint 1
  let (id1, n) := nextPolicyId n
  ([{ policy_id := id1, policy_type := .qos_control, target := target,
      parameters :=
        [("mqtt_qos", qos_level),
         ("reliable_delivery",
          .pbool (pyEq qos_level (.pint 1) ∨ pyEq qos_level (.pint 2))),
         ("retain", .pbool true)],
      priority := 6 }], n)

/-- The `PolicyEngine._generate_sample_rate_policies`. -/
def generate_sample_rate_policies (params : List (String × PyVal)) (n : Nat) :
    List Policy × Nat :=
  let target :=
    match dget params "target_device" with
    | some (.pstr s) => s
    | some v => pyFmt v
    | none => "esp32-audio-1"
  let sample_rate : Int :=
    match dget params "sample_rate" with
    | some v =>
        let rate_val := (pyToInt (pyIndex v 0)).getD 16000
        if rate_val < 1000 then rate_val * 1000 else rate_val
    | none => 16000
  let valid : List Int := [8000, 16000, 44100, 48000]
  let snapped :=
    (valid.foldl (fun best r =>
      match best with
      | none => some r
      | some b => if (r - sample_rate).natAbs < (b - sample_rate).natAbs
                  then some r else some b) none).getD 16000
  let snapped := if sample_rate ∈ valid then sample_rate else snapped
  let (id1, n) := nextPolicyId n
  ([{ policy_id := id1, policy_type := .sample_rate, target := target,
      parameters := [("sample_rate", .pint snapped),
                     ("command", .pstr "SET_SAMPLE_RATE")],
      priority := 7 }], n)

/-- The `PolicyEngine._generate_sampling_interval_policies`. -/
def generate_sampling_interval_policies (params : List (String × PyVal))
    (n : Nat) : List Policy × Nat :=
  let target :=
    match dget params "target_device" with
    | some (.pstr s) => s
    | some v => pyFmt v
    | none => "mhz19-01"
  let interval : Int :=
    match dget params "interval_seconds" with
    | some v => (pyToInt (pyIndex v 0)).getD 10
    | none => 10
  let interval := max 2 (min 3600 interval)
  let (id1, n) := nextPolicyId n
  ([{ policy_id := id1, policy_type := .sampling_interval, target := target,
      parameters := [("interval_seconds", .pint interval),
                     ("command", .pstr "SET_SAMPLING_INTERVAL")],
      priority := 7 }], n)

/-- The `PolicyEngine._generate_device_control_policies`. -/
def generate_device_control_policies (params : List (String × PyVal))
    (n : Nat) : List Policy × Nat :=
  let fallbackTarget :=
    match dget params "target_device" with
    | some (.pstr s) => s
    | some v => pyFmt v
    | none => "unknown"
  let (command, target) :=
    if dmem params "enable_device" then
      ("ENABLE", pyFmt (tupIdx params "enable_device" 0))
    else if dmem params "disable_device" then
      ("DISABLE", pyFmt (tupIdx params "disable_device" 0))
    else if dmem params "reset_device" then
      ("RESET", pyFmt (tupIdx params "reset_device" 0))
    else
      ("ENABLE", fallbackTarget)
  let (id1, n) := nextPolicyId n
  ([{ policy_id := id1, policy_type := .device_control, target := target,
      parameters := [("command", .pstr command)],
      priority := 8 }], n)

/-- The `PolicyEngine._generate_publish_interval_policies`. -/
def generate_publish_interval_policies (params : List (String × PyVal))
    (n : Nat) : List Policy × Nat :=
  let target :=
    match dget params "target_device" with
    | some (.pstr s) => s
    | some v => pyFmt v
    | none => "esp32-audio-1"
  let raw := dgetD params "interval_value" (.ptup [some "10"])
  let raw := match raw with
             | .ptup _ => pyIndex raw 0
             | v => v
  let interval_ms : Int :=
    match pyToInt raw with
    | some i =>
        let i := if i ≤ 60 then i * 1000 else i
        max 1000 (min 60000 i)
    | none => 10000
  let (id1, n) := nextPolicyId n
  ([{ policy_id := id1, policy_type := .publish_interval, target := target,
      parameters := [("interval_ms", .pint interval_ms),
                     ("command", .pstr "SET_PUBLISH_INTERVAL")],
      priority := 5 }], n)

/-- Python `float(...)` on the decimal strings matched by the gain
patterns: digits, optional point, digits. -/
def ratOfDecStr (s : String) : Option Rat :=
  match s.toList.splitOn '.' with
  | [w] => if w ≠ [] ∧ w.all isDig then some ((natOfDig w : Int) : Rat) else none
  | [w, f] =>
      if w ≠ [] ∧ w.all isDig ∧ f.all isDig then
        some (((natOfDig w : Int) : Rat) +
          ((natOfDig f : Int) : Rat) / ((10 ^ f.length : Int) : Rat))
      else none
  | _ => none

/-- The `PolicyEngine._generate_audio_gain_policies` (floats as rationals). -/
def generate_audio_gain_policies (params : List (String × PyVal)) (n : Nat) :
    List Policy × Nat :=
  let target :=
    match dget params "target_device" with
    | some (.pstr s) => s
    | some v => pyFmt v
    | none => "esp32-audio-1"
  let raw := dgetD params "gain_value" (.ptup [some "1.0"])
  let raw := match raw with
             | .ptup _ => pyIndex raw 0
             | v => v
  let gain : Rat :=
    match raw with
    | .pstr s => match ratOfDecStr s with
                 | some q => max (1/10 : Rat) (min 10 q)
                 | none => 1
    | .pint i => max (1/10 : Rat) (min 10 (i : Rat))
    | .prat q => max (1/10 : Rat) (min 10 q)
    | _ => 1
  let (id1, n) := nextPolicyId n
  ([{ policy_id := id1, policy_type := .audio_gain, target := target,
      parameters := [("gain", .prat gain),
                     ("command", .pstr "SET_AUDIO_GAIN")],
      priority := 5 }], n)

/-- The engine's resolution normalisation table. -/
def resolution_map : List (String × String) :=
  [("qvga", "QVGA"), ("320x240", "QVGA"), ("vga", "VGA"), ("640x480", "VGA"),
   ("svga", "SVGA"), ("800x600", "SVGA"), ("xga", "XGA"), ("1024x768", "XGA"),
   ("hd", "HD"), ("1280x720", "HD"), ("sxga", "SXGA"), ("1280x1024", "SXGA"),
   ("uxga", "UXGA"), ("1600x1200", "UXGA")]

/-- The `PolicyEngine._generate_camera_resolution_policies`. -/
def generate_camera_resolution_policies (params : List (String × PyVal))
    (n : Nat) : List Policy × Nat :=
  let target :=
    match dget params "target_device" with
    | some (.pstr s) => s
    | some v => pyFmt v
    | none => "esp32-cam-1"
  let raw :=
    match dget params "resolution_value" with
    | some v => if pyTruthy v then pyFmt (pyIndex v 0) else "SVGA"
    | none => "SVGA"
  let resolution := dgetD resolution_map (strLower raw) (strUpper raw)
  let (id1, n) := nextPolicyId n
  ([{ policy_id := id1, policy_type := .camera_resolution, target := target,
      parameters := [("resolution", .pstr resolution),
                     ("command", .pstr "SET_RESOLUTION")],
      priority := 5 }], n)

/-- The `PolicyEngine._generate_camera_quality_policies`. -/
def generate_camera_quality_policies (params : List (String × PyVal))
    (n : Nat) : List Policy × Nat :=
  let target :=
    match dget params "target_device" with
    | some (.pstr s) => s
    | some v => pyFmt v
    | none => "esp32-cam-1"
  let quality_value : PyVal :=
    match dget params "quality_value" with
    | some v => if pyTruthy v then pyIndex v 0 else .pint 10
    | none => .pint 10
  let quality_value :=
    if dmem params "quality_preset" then
      let preset := strLower (pyFmt (tupIdx params "quality_preset" 0))
      .pint (dgetD [("high", (5 : Int)), ("medium", 15), ("low", 30)] preset 10)
    else quality_value
  let quality : Int :=
    match pyToInt quality_value with
    | some q => max 0 (min 63 q)
    | none => 10
  let (id1, n) := nextPolicyId n
  ([{ policy_id := id1, policy_type := .camera_quality, target := target,
      parameters := [("quality", .pint quality),
                     ("command", .pstr "SET_QUALITY")],
      priority := 5 }], n)

/-- The `PolicyEngine._generate_camera_brightness_policies`. -/
def generate_camera_brightness_policies (params : List (String × PyVal))
    (n : Nat) : List Policy × Nat :=
  let target :=
    match dget params "target_device" with
    | some (.pstr s) => s
    | some v => pyFmt v
    | none => "esp32-cam-1"
  let raw : PyVal :=
    match dget params "brightness_value" with
    | some v => if pyTruthy v then pyIndex v 0 else .pint 0
    | none => .pint 0
  let brightness : Int :=
    match pyToInt raw with
    | some b => max (-2) (min 2 b)
    | none => 0
  let (id1, n) := nextPolicyId n
  ([{ policy_id := id1, policy_type := .camera_brightness, target := target,
      parameters := [("brightness", .pint brightness),
                     ("command", .pstr "SET_BRIGHTNESS")],
      priority := 5 }], n)

/-- Python `round(x, 2)` with banker's rounding, on rationals. -/
def round2 (x : Rat) : Rat :=
  let y := x * 100
  let f := y.floor
  let d := y - (f : Rat)
  let r : Int :=
    if d < 1/2 then f
    else if d > 1/2 then f + 1
    else if f % 2 = 0 then f else f + 1
  ((r : Rat) / 100)

/-- The `PolicyEngine._generate_camera_framerate_policies`. -/
def generate_camera_framerate_policies (params : List (String × PyVal))
    (n : Nat) : List Policy × Nat :=
  let target :=
    match dget params "target_device" with
    | some (.pstr s) => s
    | some v => pyFmt v
    | none => "esp32-cam-1"
  let interval_ms : Int :=
    if dmem params "framerate_value" then
      let fps := (pyToInt (tupIdx params "framerate_value" 0)).getD 0
      if fps > 0 then (1000 / fps) else 5000
    else if dmem params "capture_interval" then
      let i := (pyToInt (tupIdx params "capture_interval" 0)).getD 0
      if i < 100 then i * 1000 else i
    else 5000
  let interval_ms := max 100 (min 60000 interval_ms)
  let (id1, n) := nextPolicyId n
  ([{ policy_id := id1, policy_type := .camera_framerate, target := target,
      parameters := [("capture_interval_ms", .pint interval_ms),
                     ("fps", .prat (round2 ((1000 : Rat) / (interval_ms : Rat)))),
                     ("command", .pstr "SET_FRAMERATE")],
      priority := 5 }], n)

/-- The `PolicyEngine._generate_camera_control_policies`. -/
def generate_camera_control_policies (params : List (String × PyVal))
    (n : Nat) : List Policy × Nat :=
  let target :=
    match dget params "target_device" with
    | some (.pstr s) => s
    | some v => pyFmt v
    | none => "esp32-cam-1"
  let (enabled, action) :=
    if dmem params "enable_camera" then (true, "ENABLE_CAMERA")
    else if dmem params "disable_camera" then (false, "DISABLE_CAMERA")
    else if dmem params "camera_action" then
      let a := strLower (pyFmt (tupIdx params "camera_action" 0))
      let e := strIn "resume" a ∨ strIn "start" a
      (e, if e then "ENABLE_CAMERA" else "DISABLE_CAMERA")
    else (true, "ENABLE_CAMERA")
  let (id1, n) := nextPolicyId n
  ([{ policy_id := id1, policy_type := .camera_control, target := target,
      parameters := [("enabled", .pbool enabled), ("command", .pstr action)],
      priority := 7 }], n)

/-- The `PolicyEngine.generate_policies` — dispatch on the parsed intent type
(the engine's accumulated `self.policies` list is irrelevant to the claims
and omitted; the returned list is what callers consume). -/
def generate_policies (p : ParsedIntent) (n : Nat) : List Policy × Nat :=
  let params := p.parameters
  if p.intentType = "priority" then generate_priority_policies params n
  else if p.intentType = "bandwidth" then generate_bandwidth_policies params n
  else if p.intentType = "latency" then generate_latency_policies params n
  else if p.intentType = "qos" then generate_qos_policies params n
  else if p.intentType = "sample_rate" then
    generate_sample_rate_policies params n
  else if p.intentType = "sampling_interval" then
    generate_sampling_interval_policies params n
  else if p.intentType = "device_control" then
    generate_device_control_policies params n
  else if p.intentType = "publish_interval" then
    generate_publish_interval_policies params n
  else if p.intentType = "audio_gain" then
    generate_audio_gain_policies params n
  else if p.intentType = "camera_resolution" then
    generate_camera_resolution_policies params n
  else if p.intentType = "camera_quality" then
    generate_camera_quality_policies params n
  else if p.intentType = "camera_brightness" then
    generate_camera_brightness_policies params n
  else if p.intentType = "camera_framerate" then
    generate_camera_framerate_policies params n
  else if p.intentType = "camera_control" then
    generate_camera_control_policies params n
  else ([], n)

/-! ## Network enforcer (`src/src/enforcement/network.py`)

The enforcer drives the kernel's tc state through `subprocess` calls.  The
embedding models the kernel state abstractly (HTB roots per interface,
classes keyed by interface and classid, u32 filters keyed by interface and
destination IP, netem qdiscs keyed by interface and classid) and every
`_tc` invocation as a step that

  * has a semantic precondition (the kernel's own failure conditions, e.g.
    `class change` on an absent class or `class add` on an existing one),
  * consumes one entry of a fault-injection oracle (`[]` means every
    command the kernel accepts succeeds; a `false` entry forces an
    unexpected non-zero exit),
  * applies its effect only on success, and
  * either returns an exit code or raises (models the `RuntimeError` of
    `_tc` for non-`ok_fail` failures), which `apply_policy` catches.

`tc ... show` reads have no oracle entry (`subprocess.run` without a check
cannot raise) and are modelled as direct reads of the kernel state; the
textual presence checks of the source (`"htb 1:" in out`, `"1:<cid> " in
out`, dotted-quad or 8-hex IP in the filter listing) are modelled as the
corresponding state-membership tests. -/

/-- One device-registry entry. -/
structure DevInfo where
  ip : String
  classid : Nat
  iface : String
deriving DecidableEq, Repr

/-- The `DEVICE_REGISTRY` — the static physical-device table.  The Docker
sim-node augmentation (`_register_docker_sim_nodes`) queries the container
runtime at import time and is environment-dependent, so the registry is
modelled by its static seed. -/
def DEVICE_REGISTRY : List (String × DevInfo) :=
  [("esp32-cam-1",   ⟨"10.218.189.80",  10, "wlan0"⟩),
   ("esp32-mhz19-1", ⟨"10.218.189.218", 20, "wlan0"⟩),
   ("esp32-audio-1", ⟨"10.218.189.218", 20, "wlan0"⟩)]

/-- The `PRIORITY_MAP` — HTB prio values per priority word. -/
def PRIORITY_MAP : List (String × Int) :=
  [("critical", 0), ("high", 1), ("medium", 4), ("low", 7), ("default", 4)]

/-- Defaults from the module head. -/
def DEFAULT_LINK_RATE : String := "50mbit"

/-- Per-device default rate. -/
def DEFAULT_DEV_RATE : String := "10mbit"

/-- Per-device default ceiling. -/
def DEFAULT_DEV_CEIL : String := "50mbit"

/-- Default burst. -/
def DEFAULT_BURST : String := "32k"

/-- Configuration of one HTB class (rate/ceil/burst as passed to tc, prio). -/
structure ClassCfg where
  rate : PyVal
  ceil : PyVal
  burst : PyVal
  prio : Int
deriving DecidableEq, Repr

/-- Configuration of one netem qdisc (delay, optional jitter, optional loss
as passed to tc). -/
structure NetemCfg where
  delay : PyVal
  jitter : Option PyVal
  loss : Option PyVal
deriving DecidableEq, Repr

/-- Abstract kernel traffic-control state. -/
structure Kern where
  roots : List String
  classes : List ((String × Nat) × ClassCfg)
  filters : List ((String × String) × Nat)
  netems : List ((String × Nat) × NetemCfg)
deriving DecidableEq, Repr

/-- One recorded active policy (`_record` stores the policy type and the
merged parameter dict; the wall-clock `applied_at` stamp has no shallow
embedding and is omitted — no claim observes it). -/
structure ApRecord where
  policy_type : String
  params : List (String × PyVal)
deriving DecidableEq, Repr

/-- Enforcer execution state: kernel state, the in-memory active-policy
map, the fault-injection oracle and a count of tc commands run. -/
structure St where
  kern : Kern
  aps : List (String × ApRecord)
  oracle : List Bool
  ran : Nat
deriving DecidableEq, Repr

/-- Run one `_tc` mutation: check the semantic precondition and the oracle,
apply the effect on success.  Returns `some rc` (0 success, 1 failure with
`ok_fail`) or `none` for a raised `RuntimeError`. -/
def tcStep (precond : Kern → Bool) (eff : Kern → Kern) (okFail : Bool)
    (s : St) : Option Nat × St :=
  let (ok, rest) :=
    match s.oracle with
    | [] => (true, ([] : List Bool))
    | b :: r => (b, r)
  let s' : St := { s with oracle := rest, ran := s.ran + 1 }
  if ok ∧ precond s.kern then
    (some 0, { s' with kern := eff s'.kern })
  else if okFail then
    (some 1, s')
  else
    (none, s')

/-- The `tc qdisc replace dev IFACE root handle 1: htb default 99` — replacing
the root qdisc installs HTB and drops the previous tree on the interface. -/
def effRootReplace (iface : String) (k : Kern) : Kern :=
  { roots := if iface ∈ k.roots then k.roots else k.roots ++ [iface],
    classes := k.classes.filter (fun p => p.1.1 ≠ iface),
    filters := k.filters.filter (fun p => p.1.1 ≠ iface),
    netems := k.netems.filter (fun p => p.1.1 ≠ iface) }

/-- The `tc class add/change` effect: write the class configuration. -/
def effClassPut (iface : String) (cid : Nat) (cfg : ClassCfg) (k : Kern) :
    Kern :=
  { k with classes := putKey k.classes (iface, cid) cfg }

/-- The `tc class del` effect. -/
def effClassDel (iface : String) (cid : Nat) (k : Kern) : Kern :=
  { k with classes := delKey k.classes (iface, cid) }

/-- The `tc filter add` effect (filters are listed in addition order). -/
def effFilterAdd (iface ip : String) (cid : Nat) (k : Kern) : Kern :=
  { k with filters := k.filters ++ [((iface, ip), cid)] }

/-- The `tc filter del dev IFACE parent 1:0` effect: flush every filter on the
interface. -/
def effFilterFlush (iface : String) (k : Kern) : Kern :=
  { k with filters := k.filters.filter (fun p => p.1.1 ≠ iface) }

/-- The `tc qdisc add ... netem ...` effect. -/
def effNetemAdd (iface : String) (cid : Nat) (cfg : NetemCfg) (k : Kern) :
    Kern :=
  { k with netems := delKey k.netems (iface, cid) ++ [((iface, cid), cfg)] }

/-- The `tc qdisc del ... handle cid:` effect. -/
def effNetemDel (iface : String) (cid : Nat) (k : Kern) : Kern :=
  { k with netems := delKey k.netems (iface, cid) }

/-- The `NetworkEnforcer._replace_class` — `class change` first (fails when the
class does not exist), fall back to `class add` (not `ok_fail`: an
unexpected failure raises). -/
def replace_class (iface : String) (cid : Nat) (rate ceil burst : PyVal)
    (prio : Int) (s : St) : Option Unit × St :=
  let cfg : ClassCfg := ⟨rate, ceil, burst, prio⟩
  match tcStep (fun k => hasKey k.classes (iface, cid))
      (effClassPut iface cid cfg) true s with
  | (some 0, s) => (some (), s)
  | (_, s) =>
      match tcStep
          (fun k => iface ∈ k.roots ∧ ¬ hasKey k.classes (iface, cid))
          (effClassPut iface cid cfg) false s with
      | (some _, s) => (some (), s)
      | (none, s) => (none, s)

/-- The `NetworkEnforcer._ensure_class` — skip when the class listing already
shows `1:<cid>`, else create it with the defaults. -/
def ensure_class (iface : String) (cid : Nat) (s : St) : Option Unit × St :=
  if hasKey s.kern.classes (iface, cid) then (some (), s)
  else replace_class iface cid (.pstr DEFAULT_DEV_RATE)
    (.pstr DEFAULT_DEV_CEIL) (.pstr DEFAULT_BURST) 4 s

/-- The `NetworkEnforcer._ensure_filter` — check the filter listing for the IP
(dotted-quad or kernel hex rendering), add a u32 filter when absent. -/
def ensure_filter (iface ip : String) (cid : Nat) (s : St) :
    Option Unit × St :=
  if hasKey s.kern.filters (iface, ip) then (some (), s)
  else
    match tcStep (fun k => iface ∈ k.roots) (effFilterAdd iface ip cid)
        false s with
    | (some _, s) => (some (), s)
    | (none, s) => (none, s)

/-- The `NetworkEnforcer._del_netem` (`ok_fail`, absent netem is benign). -/
def del_netem (iface : String) (cid : Nat) (s : St) : St :=
  (tcStep (fun k => hasKey k.netems (iface, cid)) (effNetemDel iface cid)
    true s).2

/-- The `NetworkEnforcer._del_class` (`ok_fail`). -/
def del_class (iface : String) (cid : Nat) (s : St) : St :=
  (tcStep (fun k => hasKey k.classes (iface, cid)) (effClassDel iface cid)
    true s).2

/-- The `NetworkEnforcer._ensure_device_classes` — walk the registry, create a
class and filter for every device of this interface, skipping classids
already seen (shared-endpoint devices). -/
def ensure_device_classes_go (iface : String)
    (regs : List (String × DevInfo)) (seen : List Nat) (s : St) :
    Option Unit × St :=
  match regs with
  | [] => (some (), s)
  | (_, info) :: rest =>
      if info.iface ≠ iface then ensure_device_classes_go iface rest seen s
      else if info.classid ∈ seen then
        ensure_device_classes_go iface rest seen s
      else
        match ensure_class iface info.classid s with
        | (none, s) => (none, s)
        | (some _, s) =>
            match ensure_filter iface info.ip info.classid s with
            | (none, s) => (none, s)
            | (some _, s) =>
                ensure_device_classes_go iface rest (info.classid :: seen) s

/-- The `NetworkEnforcer._ensure_device_classes` over the registry. -/
def ensure_device_classes (iface : String) (s : St) : Option Unit × St :=
  ensure_device_classes_go iface DEVICE_REGISTRY [] s

/-- The `NetworkEnforcer._ensure_root_qdisc` — if the qdisc listing already
shows an HTB root, only ensure the per-device classes; otherwise replace
the root, add the umbrella `1:1` and default `1:99` classes (all
`ok_fail`), then ensure the per-device classes. -/
def ensure_root_qdisc (iface : String) (s : St) : Option Unit × St :=
  if iface ∈ s.kern.roots then ensure_device_classes iface s
  else
    let s := (tcStep (fun _ => true) (effRootReplace iface) true s).2
    let s := (tcStep
      (fun k => iface ∈ k.roots ∧ ¬ hasKey k.classes (iface, 1))
      (effClassPut iface 1
        ⟨.pstr DEFAULT_LINK_RATE, .pstr DEFAULT_LINK_RATE, .pnone, 4⟩)
      true s).2
    let s := (tcStep
      (fun k => iface ∈ k.roots ∧ ¬ hasKey k.classes (iface, 99))
      (effClassPut iface 99
        ⟨.pstr DEFAULT_DEV_RATE, .pstr DEFAULT_LINK_RATE, .pnone, 4⟩)
      true s).2
    ensure_device_classes iface s

/-- The `NetworkEnforcer._resolve_device`. -/
def resolve_device (target : String) : Option DevInfo :=
  getKey DEVICE_REGISTRY target

/-- The `NetworkEnforcer._record` — merge the new parameters over any existing
record's parameters and store the union. -/
def record (device_id : String) (policy_type : String)
    (params : List (String × PyVal)) (s : St) : St :=
  let existing := (getKey s.aps device_id).map (fun r => r.params) |>.getD []
  let merged := dupdate existing params
  { s with aps := putKey s.aps device_id ⟨policy_type, merged⟩ }

/-- A policy as the dict an enforcer receives (the fields the enforcers
read from `Policy.to_dict()`). -/
structure PolicyDict where
  policy_type : String
  target : String
  parameters : List (String × PyVal)
deriving DecidableEq, Repr

/-- The `NetworkEnforcer._apply_bandwidth`. -/
def apply_bandwidth (pol : PolicyDict) (s : St) : Option Bool × St :=
  match resolve_device pol.target with
  | none => (some false, s)
  | some info =>
      let rate := dgetD pol.parameters "rate" (.pstr DEFAULT_DEV_RATE)
      let ceil := dgetD pol.parameters "ceil" (.pstr DEFAULT_DEV_CEIL)
      let burst := dgetD pol.parameters "burst" (.pstr DEFAULT_BURST)
      match ensure_root_qdisc info.iface s with
      | (none, s) => (none, s)
      | (some _, s) =>
          match replace_class info.iface info.classid rate ceil burst 4 s with
          | (none, s) => (none, s)
          | (some _, s) =>
              match ensure_filter info.iface info.ip info.classid s with
              | (none, s) => (none, s)
              | (some _, s) =>
                  (some true,
                   record pol.target "bandwidth_limit"
                     [("rate", rate), ("ceil", ceil)] s)

/-- The `NetworkEnforcer._apply_latency` — ensure root, class and filter, then
delete-and-re-add the netem qdisc under `1:<cid>`. -/
def apply_latency (pol : PolicyDict) (s : St) : Option Bool × St :=
  match resolve_device pol.target with
  | none => (some false, s)
  | some info =>
      let delay := dgetD pol.parameters "delay"
        (dgetD pol.parameters "netem_delay" (.pstr "0ms"))
      let jitter := dgetD pol.parameters "jitter" (.pstr "0ms")
      let loss := dgetD pol.parameters "loss" (.pstr "")
      match ensure_root_qdisc info.iface s with
      | (none, s) => (none, s)
      | (some _, s) =>
          match ensure_class info.iface info.classid s with
          | (none, s) => (none, s)
          | (some _, s) =>
              match ensure_filter info.iface info.ip info.classid s with
              | (none, s) => (none, s)
              | (some _, s) =>
                  let s := del_netem info.iface info.classid s
                  let cfg : NetemCfg :=
                    ⟨delay,
                     if pyTruthy jitter ∧ ¬ pyEq jitter (.pstr "0ms")
                     then some jitter else none,
                     if pyTruthy loss then some loss else none⟩
                  match tcStep
                      (fun k => hasKey k.classes (info.iface, info.classid) ∧
                        ¬ hasKey k.netems (info.iface, info.classid))
                      (effNetemAdd info.iface info.classid cfg) false s with
                  | (none, s) => (none, s)
                  | (some _, s) =>
                      (some true,
                       record pol.target "latency_control"
                         [("delay", delay), ("jitter", jitter),
                          ("loss", loss)] s)

/-- The `NetworkEnforcer._apply_priority` — derive the HTB prio from the
policy's `priority`/`level` word via `PRIORITY_MAP`, take `rate`/`ceil`
from the policy or from the device's existing active-policy record, then
re-shape the class and ensure the filter. -/
def apply_priority (pol : PolicyDict) (s : St) : Option Bool × St :=
  match resolve_device pol.target with
  | none => (some false, s)
  | some info =>
      let level := dgetD pol.parameters "priority"
        (dgetD pol.parameters "level" (.pstr "medium"))
      let prioOpt : Option Int :=
        match level with
        | .pstr w => some (dgetD PRIORITY_MAP (strLower w) 4)
        | v => pyToInt v
      match prioOpt with
      | none => (some false, s)
      | some prio =>
          let existing :=
            (getKey s.aps pol.target).map (fun r => r.params) |>.getD []
          let rate := dgetD pol.parameters "rate"
            (dgetD existing "rate" (.pstr DEFAULT_DEV_RATE))
          let ceil := dgetD pol.parameters "ceil"
            (dgetD existing "ceil" (.pstr DEFAULT_DEV_CEIL))
          match ensure_root_qdisc info.iface s with
          | (none, s) => (none, s)
          | (some _, s) =>
              match replace_class info.iface info.classid rate ceil
                  (.pstr DEFAULT_BURST) prio s with
              | (none, s) => (none, s)
              | (some _, s) =>
                  match ensure_filter info.iface info.ip info.classid s with
                  | (none, s) => (none, s)
                  | (some _, s) =>
                      (some true,
                       record pol.target "priority"
                         [("priority", level), ("prio", .pint prio),
                          ("rate", rate), ("ceil", ceil)] s)

/-- The `NetworkEnforcer.apply_policy` — dispatch on `policy_type`; unknown
types return `False`; every raised error is caught and reported as
`False`. -/
def apply_policy (pol : PolicyDict) (s : St) : Bool × St :=
  let run : Option Bool × St :=
    if pol.policy_type = "bandwidth_limit" ∨ pol.policy_type = "bandwidth" then
      apply_bandwidth pol s
    else if pol.policy_type = "latency_control" ∨ pol.policy_type = "latency"
    then
      apply_latency pol s
    else if pol.policy_type = "traffic_shaping" ∨
            pol.policy_type = "routing_priority" ∨
            pol.policy_type = "priority" then
      apply_priority pol s
    else
      (some false, s)
  match run with
  | (some b, s) => (b, s)
  | (none, s) => (false, s)

/-- The `NetworkEnforcer._del_filter` — when the listing shows the IP, flush
every filter on the interface and re-add filters for the other devices of
that interface that currently have an active-policy record. -/
def del_filter (iface ip : String) (s : St) : Option Unit × St :=
  if ¬ hasKey s.kern.filters (iface, ip) then (some (), s)
  else
    let s := (tcStep (fun k => iface ∈ k.roots) (effFilterFlush iface)
      true s).2
    let rec go (regs : List (String × DevInfo)) (s : St) :
        Option Unit × St :=
      match regs with
      | [] => (some (), s)
      | (dev_id, info) :: rest =>
          if info.ip = ip then go rest s
          else if info.iface ≠ iface then go rest s
          else if hasKey s.aps dev_id then
            match ensure_filter iface info.ip info.classid s with
            | (none, s) => (none, s)
            | (some _, s) => go rest s
          else go rest s
    go DEVICE_REGISTRY s

/-- The `NetworkEnforcer.clear_device` — remove the device's netem, filter and
class, then forget its active-policy record. -/
def clear_device (device_id : String) (s : St) : Option Bool × St :=
  match getKey DEVICE_REGISTRY device_id with
  | none => (some false, s)
  | some info =>
      let s := del_netem info.iface info.classid s
      match del_filter info.iface info.ip s with
      | (none, s) => (none, s)
      | (some _, s) =>
          let s := del_class info.iface info.classid s
          (some true, { s with aps := delKey s.aps device_id })

/-- The interface list computed in `NetworkEnforcer.__init__` (all distinct
registry interfaces plus the primary). -/
def enforcer_interfaces (primary : String) : List String :=
  let l := (DEVICE_REGISTRY.map (fun p => p.2.iface)).dedup
  if primary ∈ l then l else l ++ [primary]

/-- The `NetworkEnforcer.__init__` — start from the given kernel state and
ensure an HTB root on every managed interface. -/
def enforcer_init (primary : String) (k : Kern) : St :=
  (enforcer_interfaces primary).foldl
    (fun s iface => (ensure_root_qdisc iface s).2)
    { kern := k, aps := [], oracle := [], ran := 0 }

/-- The fresh enforcer state used by the concrete scenarios: empty kernel,
primary interface `wlan0`, no injected faults. -/
def initSt : St := enforcer_init "wlan0" ⟨[], [], [], []⟩

/-! ## tc statistics collection (`NetworkEnforcer.collect_tc_stats`) -/

/-- The `re.match(r"class htb 1:(\d+)", line)`. -/
def classHeaderRE : RE := .seq (rlit "class htb 1:") (.grp 1 (.plus .d))

/-- The `re.match(r"\s+Sent (\d+) bytes (\d+) pkt \(dropped (\d+),\s*overlimits (\d+)", line)`. -/
def sentLineRE : RE :=
  rcat [ws1, rlit "Sent ", .grp 1 (.plus .d), rlit " bytes ",
        .grp 2 (.plus .d), rlit " pkt (dropped ", .grp 3 (.plus .d),
        rlit ",", ws0, rlit "overlimits ", .grp 4 (.plus .d)]

/-- The `re.match(r"\s+rate (\S+) (\S+)", line)`. -/
def rateLineRE : RE :=
  rcat [ws1, rlit "rate ", .grp 1 (.plus .S), rlit " ", .grp 2 (.plus .S)]

/-- Numeric value of a capture group of an anchored match. -/
def capNat (caps : List (Nat × List Char)) (i : Nat) : Nat :=
  ((caps.find? (fun p => p.1 = i)).map (fun p => natOfDig p.2)).getD 0

/-- String value of a capture group of an anchored match. -/
def capStr (caps : List (Nat × List Char)) (i : Nat) : String :=
  ((caps.find? (fun p => p.1 = i)).map (fun p => String.mk p.2)).getD ""

/-- Recognise a `class htb 1:<cid>` block header. -/
def matchClassHeader (line : String) : Option Nat :=
  (reMatchAt0 classHeaderRE line.toList).map (fun caps => capNat caps 1)

/-- Recognise a `Sent <bytes> bytes <pkt> pkt (dropped <d>, overlimits <o>`
statistics line. -/
def matchSent (line : String) : Option (Nat × Nat × Nat × Nat) :=
  (reMatchAt0 sentLineRE line.toList).map (fun caps =>
    (capNat caps 1, capNat caps 2, capNat caps 3, capNat caps 4))

/-- Recognise a `rate <r> <pps>` line. -/
def matchRate (line : String) : Option (String × String) :=
  (reMatchAt0 rateLineRE line.toList).map (fun caps =>
    (capStr caps 1, capStr caps 2))

/-- One per-device statistics record. -/
structure DevStats where
  bytes_sent : Nat
  packets_sent : Nat
  dropped : Nat
  overlimits : Nat
  classid : Nat
  current_rate : Option String
  current_pps : Option String
deriving DecidableEq, Repr

/-- The devices of an interface grouped by classid (the
`iface_groups` structure of `collect_tc_stats`). -/
def cid_to_devs (iface : String) (cid : Nat) : List String :=
  (DEVICE_REGISTRY.filter
    (fun p => p.2.iface = iface ∧ p.2.classid = cid)).map (fun p => p.1)

/-- One line of the `collect_tc_stats` loop: a block header switches the
current classid; inside a block a `Sent` line fills a fresh entry for every
device of the classid and a `rate` line completes those entries and closes
the block. -/
def statsStep (devsOf : Nat → List String)
    (st : Option Nat × List (String × DevStats)) (line : String) :
    Option Nat × List (String × DevStats) :=
  match matchClassHeader line with
  | some cid => (some cid, st.2)
  | none =>
      match st.1 with
      | none => st
      | some cid =>
          let stats :=
            match matchSent line with
            | some (b, p, dr, ov) =>
                (devsOf cid).foldl
                  (fun m dev => putKey m dev ⟨b, p, dr, ov, cid, none, none⟩)
                  st.2
            | none => st.2
          match matchRate line with
          | some (r, pps) =>
              (none,
               (devsOf cid).foldl
                 (fun m dev =>
                   match getKey m dev with
                   | some e =>
                       putKey m dev
                         { e with current_rate := some r,
                                  current_pps := some pps }
                   | none => m)
                 stats)
          | none => (some cid, stats)

/-- Parse one interface's `tc -s class show` output into the running stats
map. -/
def collect_lines (devsOf : Nat → List String) (lines : List String)
    (stats0 : List (String × DevStats)) : List (String × DevStats) :=
  (lines.foldl (statsStep devsOf) (none, stats0)).2

/-- The `NetworkEnforcer.collect_tc_stats` — walk every managed interface,
parse its listing, and merge per-device stats (`raw` supplies the listing
each `_tc_output` read returns, split into lines). -/
def collect_tc_stats (raw : String → List String) :
    List (String × DevStats) :=
  ((DEVICE_REGISTRY.map (fun p => p.2.iface)).dedup).foldl
    (fun stats iface => collect_lines (cid_to_devs iface) (raw iface) stats)
    []

/-! ## Device enforcer (`src/src/enforcement/device.py`)

The MQTT session is modelled by a connected flag and the list of published
`(topic, payload)` pairs; `json.dumps` of the control dicts is rendered
with Python's default separators.  Metric-exporter side effects are
observability-only and omitted. -/

/-- Device enforcer state. -/
structure DevSt where
  connected : Bool
  published : List (String × String)
deriving DecidableEq, Repr

/-- JSON string literal (the rendered payload strings contain no characters
needing escapes). -/
def jsonStr (s : String) : String := "\"" ++ s ++ "\""

/-- The `json.dumps` of one value. -/
def pyJsonVal : PyVal → String
  | .pstr s => jsonStr s
  | .pint n => toString n
  | .pbool b => if b then "true" else "false"
  | .pnone => "null"
  | .prat q => toString q.num ++ "/" ++ toString q.den
  | .ptup gs =>
      "[" ++ String.intercalate ", "
        (gs.map (fun o => match o with
          | some s => jsonStr s
          | none => "null")) ++ "]"

/-- The `json.dumps` of a control dict (insertion order, default separators). -/
def pyJson (m : List (String × PyVal)) : String :=
  "\x7b" ++
    String.intercalate ", "
      (m.map (fun p => jsonStr p.1 ++ ": " ++ pyJsonVal p.2)) ++
  "\x7d"

/-- The `DeviceEnforcer._send_control_message` — topic routing: mhz19/env
families publish on `imperium/devices/<id>/control`, everything else on
`iot/<id>/control`. -/
def send_control_message (target : String) (msg : List (String × PyVal))
    (d : DevSt) : Bool × DevSt :=
  if ¬ d.connected then (false, d)
  else
    let tl := strLower target
    let topic :=
      if strIn "mhz19" tl ∨ strIn "env" tl then
        "imperium/devices/" ++ target ++ "/control"
      else
        "iot/" ++ target ++ "/control"
    (true, { d with published := d.published ++ [(topic, pyJson msg)] })

/-- The `DeviceEnforcer._apply_qos_policy` — ESP32 devices get `SET_QOS` with
an integer qos; other targets get the legacy `qos_update` message carrying
the raw `mqtt_qos` value. -/
def apply_qos_policy (pol : PolicyDict) (d : DevSt) : Bool × DevSt :=
  let params := pol.parameters
  if strIn "esp32" (strLower pol.target) then
    let q := (pyToInt (dgetD params "mqtt_qos" (.pint 1))).getD 1
    send_control_message pol.target
      [("command", .pstr "SET_QOS"), ("qos", .pint q)] d
  else
    send_control_message pol.target
      [("type", .pstr "qos_update"),
       ("qos", dgetD params "mqtt_qos" (.pint 0)),
       ("reliable_delivery", dgetD params "reliable_delivery" (.pbool false))]
      d

/-- The `DeviceEnforcer._apply_sample_rate_policy`. -/
def apply_sample_rate_policy (pol : PolicyDict) (d : DevSt) : Bool × DevSt :=
  let sr := (pyToInt (dgetD pol.parameters "sample_rate" (.pint 16000))).getD
    16000
  send_control_message pol.target
    [("command", .pstr "SET_SAMPLE_RATE"), ("sample_rate", .pint sr)] d

/-- The `DeviceEnforcer._apply_sampling_interval_policy`. -/
def apply_sampling_interval_policy (pol : PolicyDict) (d : DevSt) :
    Bool × DevSt :=
  let iv := (pyToInt (dgetD pol.parameters "interval_seconds" (.pint 10))).getD
    10
  let tl := strLower pol.target
  if strIn "esp32" tl ∨ strIn "mhz19" tl then
    send_control_message pol.target
      [("command", .pstr "SET_PUBLISH_INTERVAL"),
       ("interval_ms", .pint (iv * 1000))] d
  else
    send_control_message pol.target
      [("command", .pstr "SET_SAMPLING_INTERVAL"),
       ("interval_seconds", .pint iv)] d

/-- The `DeviceEnforcer._apply_device_control_policy`. -/
def apply_device_control_policy (pol : PolicyDict) (d : DevSt) :
    Bool × DevSt :=
  send_control_message pol.target
    [("command", dgetD pol.parameters "command" (.pstr "ENABLE"))] d

/-- The `DeviceEnforcer._apply_publish_interval_policy`. -/
def apply_publish_interval_policy (pol : PolicyDict) (d : DevSt) :
    Bool × DevSt :=
  let iv := (pyToInt (dgetD pol.parameters "interval_ms" (.pint 10000))).getD
    10000
  send_control_message pol.target
    [("command", .pstr "SET_PUBLISH_INTERVAL"), ("interval_ms", .pint iv)] d

/-- The `DeviceEnforcer._apply_audio_gain_policy`. -/
def apply_audio_gain_policy (pol : PolicyDict) (d : DevSt) : Bool × DevSt :=
  let g : PyVal :=
    match dgetD pol.parameters "gain" (.prat 1) with
    | .prat q => .prat q
    | .pint n => .prat (n : Rat)
    | .pstr s => .prat ((ratOfDecStr s).getD 1)
    | _ => .prat 1
  send_control_message pol.target
    [("command", .pstr "SET_AUDIO_GAIN"), ("gain", g)] d

/-- The `DeviceEnforcer._apply_device_config`. -/
def apply_device_config (pol : PolicyDict) (d : DevSt) : Bool × DevSt :=
  send_control_message pol.target
    [("type", .pstr "config_update"),
     ("sampling_rate", dgetD pol.parameters "sampling_rate" .pnone),
     ("enabled", dgetD pol.parameters "enabled" (.pbool true)),
     ("priority", dgetD pol.parameters "priority" (.pstr "normal"))] d

/-- The device enforcer's resolution normalisation table. -/
def DEV_RESOLUTION_MAP : List (String × String) :=
  [("qvga", "QVGA"), ("240p", "QVGA"), ("vga", "VGA"), ("480p", "VGA"),
   ("svga", "SVGA"), ("600p", "SVGA"), ("xga", "XGA"), ("768p", "XGA"),
   ("hd", "HD"), ("720p", "HD"), ("sxga", "SXGA"), ("960p", "SXGA"),
   ("uxga", "UXGA"), ("1080p", "UXGA"), ("full hd", "UXGA")]

/-- Python `str.strip()`. -/
def strStrip (s : String) : String :=
  String.mk ((s.toList.dropWhile isWs).reverse.dropWhile isWs).reverse

/-- First element when the value is a groups tuple, else the value itself
(the device enforcer's `v[0] if isinstance(v, (list, tuple)) else v`). -/
def firstOrSelf (v : PyVal) : PyVal :=
  match v with
  | .ptup _ => pyIndex v 0
  | v => v

/-- The `DeviceEnforcer._apply_camera_policy` — build the bare-key control dict
per camera policy type and publish it on `iot/<id>/control`. -/
def apply_camera_policy (pol : PolicyDict) (d : DevSt) : Bool × DevSt :=
  let params := pol.parameters
  let control : List (String × PyVal) :=
    if pol.policy_type = "camera_resolution" then
      let raw_val :=
        match dget params "resolution_value" with
        | some v => if pyTruthy v then v else dgetD params "resolution" (.pstr "")
        | none => dgetD params "resolution" (.pstr "")
      let raw := strStrip (strLower (pyFmt (firstOrSelf raw_val)))
      let resolution :=
        if raw ≠ "" then dgetD DEV_RESOLUTION_MAP raw (strUpper raw)
        else "SVGA"
      [("resolution", .pstr resolution)]
    else if pol.policy_type = "camera_quality" then
      let q : Int :=
        if dmem params "quality_preset" then
          let preset := strLower (pyFmt (firstOrSelf
            (dgetD params "quality_preset" (.pstr ""))))
          dgetD [("high", (5 : Int)), ("medium", 15), ("low", 35)] preset 15
        else if dmem params "quality" then
          max 0 (min 63 ((pyToInt (dgetD params "quality" (.pint 15))).getD 15))
        else
          max 0 (min 63
            ((pyToInt (dgetD params "quality_value" (.pint 15))).getD 15))
      [("quality", .pint q)]
    else if pol.policy_type = "camera_brightness" then
      let b := (pyToInt (dgetD params "brightness_value"
        (dgetD params "brightness" (.pint 0)))).getD 0
      [("brightness", .pint (max (-2) (min 2 b)))]
    else if pol.policy_type = "camera_framerate" then
      let i : Int :=
        if dmem params "capture_interval_ms" then
          (pyToInt (dgetD params "capture_interval_ms" (.pint 1000))).getD 1000
        else if dmem params "framerate_value" then
          let fps := (pyToInt (firstOrSelf
            (dgetD params "framerate_value" (.pint 0)))).getD 0
          if fps > 0 then max 33 (1000 / fps) else 1000
        else
          (pyToInt (dgetD params "capture_interval" (.pint 1000))).getD 1000
      [("capture_interval_ms", .pint i)]
    else if pol.policy_type = "camera_control" then
      if dmem params "enabled" then
        [("enabled", .pbool (pyTruthy (dgetD params "enabled" (.pbool false))))]
      else
        let action :=
          match dget params "enable_camera" with
          | some v => if pyTruthy v then v
                      else dgetD params "camera_action" (.pstr "")
          | none => dgetD params "camera_action" (.pstr "")
        let a := pyFmt (firstOrSelf action)
        [("enabled",
          .pbool (strIn "enable" (strLower a) ∨ a = "resume"))]
    else []
  if control = [] then (false, d)
  else if ¬ d.connected then (false, d)
  else
    (true,
     { d with published :=
         d.published ++ [("iot/" ++ pol.target ++ "/control", pyJson control)] })

/-- The `DeviceEnforcer.apply_policy` — dispatch on `policy_type`; unsupported
types return `False`. -/
def device_apply_policy (pol : PolicyDict) (d : DevSt) : Bool × DevSt :=
  if pol.policy_type = "qos_control" then apply_qos_policy pol d
  else if pol.policy_type = "device_config" then apply_device_config pol d
  else if pol.policy_type = "sample_rate" then apply_sample_rate_policy pol d
  else if pol.policy_type = "sampling_interval" then
    apply_sampling_interval_policy pol d
  else if pol.policy_type = "device_control" then
    apply_device_control_policy pol d
  else if pol.policy_type = "publish_interval" then
    apply_publish_interval_policy pol d
  else if pol.policy_type = "audio_gain" then apply_audio_gain_policy pol d
  else if pol.policy_type = "camera_resolution" ∨
          pol.policy_type = "camera_quality" ∨
          pol.policy_type = "camera_brightness" ∨
          pol.policy_type = "camera_framerate" ∨
          pol.policy_type = "camera_control" then
    apply_camera_policy pol d
  else (false, d)

/-! ## Directive-level pipeline -/

/-- The dict the dispatcher hands to an enforcer (`Policy.to_dict()`). -/
def Policy.toDict (p : Policy) : PolicyDict :=
  ⟨p.policy_type.val, p.target, p.parameters⟩

/-- The policy types routed to the network plane (the types
`NetworkEnforcer.apply_policy` handles). -/
def networkPolicyTypes : List String :=
  ["traffic_shaping", "routing_priority", "priority", "bandwidth_limit",
   "bandwidth", "latency_control", "latency"]

/-- Combined system state: network enforcer plus device enforcer. -/
structure SysSt where
  net : St
  dev : DevSt
deriving DecidableEq, Repr

/-- Modelled from the spec: the repository's orchestrating API (the
component that feeds generated policies to the enforcers) is not under
`src/`; per the spec's §2 data flow and §5 ordering guarantees the
dispatcher classifies each policy by `policy_type` — network-class types go
to `NetworkEnforcer.apply_policy`, device-class types to
`DeviceEnforcer.apply_policy` — and applies the policies of one directive
sequentially in list order. -/
def dispatch_policy (p : Policy) (sys : SysSt) : Bool × SysSt :=
  if p.policy_type.val ∈ networkPolicyTypes then
    let (b, s) := apply_policy p.toDict sys.net
    (b, { sys with net := s })
  else
    let (b, d) := device_apply_policy p.toDict sys.dev
    (b, { sys with dev := d })

/-- Modelled from the spec: one directive end to end — parse, validate,
generate policies, then apply each policy in list order (an invalid parse
applies nothing). -/
def submit_directive (text : String) (n : Nat) (sys : SysSt) :
    List Policy × Nat × SysSt :=
  let parsed := parse text
  if (validate parsed).1 = false then ([], n, sys)
  else
    let (pols, n') := generate_policies parsed n
    (pols, n', pols.foldl (fun acc p => (dispatch_policy p acc).2) sys)

/-- Fresh system state: enforcer initialised on `wlan0`, MQTT connected,
nothing published. -/
def initSys : SysSt := ⟨initSt, ⟨true, []⟩⟩

/-! ## Scenario states and statement-level definitions used by the
verification theorems -/

/-- A `ready` interface: HTB root installed and a class and filter present
for every registry device of the interface — exactly what
`_ensure_root_qdisc` leaves behind. -/
def ready (iface : String) (k : Kern) : Bool :=
  iface ∈ k.roots ∧
  DEVICE_REGISTRY.all (fun p =>
    p.2.iface ≠ iface ∨
    (hasKey k.classes (iface, p.2.classid) ∧ hasKey k.filters (iface, p.2.ip)))

/-- System state after `limit bandwidth to 2mbit for esp32-cam-1`. -/
def c1_bw_only : SysSt :=
  (submit_directive "limit bandwidth to 2mbit for esp32-cam-1" 0 initSys).2.2

/-- System state after `limit bandwidth to 2mbit for esp32-cam-1` followed
by `set high priority for esp32-cam-1`. -/
def c1_after_both : SysSt :=
  (submit_directive "set high priority for esp32-cam-1" 10 c1_bw_only).2.2

/-- Enforcer state after applying, on top of the bandwidth directive, only
the `routing_priority` companion policy (which carries no rate/ceil). -/
def c1_rp_only : St :=
  (apply_policy
    ⟨"routing_priority", "esp32-cam-1",
     [("tos", .pstr "0x10"), ("priority", .pstr "high")]⟩
    c1_bw_only.net).2

/-- System state after `add latency of 50ms for esp32-mhz19-1`. -/
def c2_after : SysSt :=
  (submit_directive "add latency of 50ms for esp32-mhz19-1" 0 initSys).2.2

/-- Parse of the qos scenario directive. -/
def c3_parse : ParsedIntent := parse "set qos level 2 for node-1"

/-- Policies generated for the qos scenario directive. -/
def c3_policies : List Policy := (generate_policies c3_parse 0).1

/-- System state after `set qos level 2 for node-1`. -/
def c3_sys : SysSt :=
  (submit_directive "set qos level 2 for node-1" 0 initSys).2.2

/-- The effective precedence of the parser's target-extraction cascade:
because each assignment overwrites `target_device` and only the final
`for X` clause refuses to, the last matching pattern among the
device-specific ones wins (statement definition for the amended claim). -/
def targetPrecedence (low : String) : Option String :=
  match espMhz19Target low with
  | some v => some v
  | none =>
      match espEnvTarget low with
      | some v => some v
      | none =>
          match mhz19Target low with
          | some v => some v
          | none =>
              match camTarget low with
              | some v => some v
              | none =>
                  match audioTarget low with
                  | some v => some v
                  | none =>
                      match nodeTarget low with
                      | some v => some v
                      | none => forTarget low

/-- The C7 counterexample directive: both an `esp32-audio-N` and an
`esp32-cam-N` token occur. -/
def c7_directive : String := "set gain to 2 for esp32-audio-1 and esp32-cam-2"

/-- Enforcer state before the clear-device scenario: a bandwidth policy is
active for the cam, no record exists for the CO₂ sensor. -/
def c9_pre : St := c1_bw_only.net

/-- Result of `clear_device("esp32-cam-1")` in that state. -/
def c9_cleared : St := (clear_device "esp32-cam-1" c9_pre).2

/-- The same pre-state with, additionally, an active-policy record for the
CO₂ sensor (a bandwidth policy applied to `esp32-mhz19-1`). -/
def c9_pre2 : St :=
  (apply_policy
    ⟨"bandwidth_limit", "esp32-mhz19-1", [("rate", .pstr "1mbit")]⟩
    c9_pre).2

/-- Result of `clear_device("esp32-cam-1")` when the CO₂ sensor has an
active-policy record. -/
def c9_cleared2 : St := (clear_device "esp32-cam-1" c9_pre2).2

/-- A well-formed `tc -s class show` listing with junk interleaved: header
block for classid 20, a `Sent` line, a `rate` line, then an unrelated
trailing block. -/
def c6_lines : List String :=
  ["junk line",
   "class htb 1:20 root prio 0 rate 10Mbit",
   "noise here",
   " Sent 1234 bytes 10 pkt (dropped 2, overlimits 3 requeues 0)",
   " lended: 5 borrowed: 0",
   " rate 56bit 7pps backlog 0b 0p",
   "class htb 1:99 prio 0"]

/-- The listing as the per-interface read `collect_tc_stats` performs. -/
def c6_raw : String → List String := fun _ => c6_lines

/-! ## Association-list lemmas -/

section AssocLemmas

variable {κ α : Type} [DecidableEq κ]

/-- Every binding of key `k` in the list carries value `v`. -/
def AllVal (l : List (κ × α)) (k : κ) (v : α) : Prop :=
  ∀ p ∈ l, p.1 = k → p.2 = v

theorem find?_map_repl_self (l : List (κ × α)) (k : κ) (v : α) :
    ((l.map (fun p => if p.1 = k then (k, v) else p)).find?
        (fun p => p.1 = k))
      = if l.any (fun p => decide (p.1 = k)) then some (k, v) else none := by
  induction l with
  | nil => simp
  | cons p t ih =>
      by_cases hp : p.1 = k
      · simp [List.find?_cons, hp]
      · rw [List.map_cons, if_neg hp,
          List.find?_cons_of_neg _ (by simp [hp]), ih, List.any_cons,
          decide_eq_false hp, Bool.false_or]

theorem find?_map_repl_ne (l : List (κ × α)) (k k' : κ) (v : α)
    (h : k' ≠ k) :
    ((l.map (fun p => if p.1 = k then (k, v) else p)).find?
        (fun p => p.1 = k'))
      = l.find? (fun p => p.1 = k') := by
  induction l with
  | nil => simp
  | cons p t ih =>
      by_cases hp : p.1 = k
      · simp [List.find?_cons, hp, Ne.symm h, ih]
      · by_cases hp' : p.1 = k'
        · simp [List.find?_cons, hp, hp', h]
        · simp [List.find?_cons, hp, hp', ih]

theorem getKey_putKey_self (l : List (κ × α)) (k : κ) (v : α) :
    getKey (putKey l k v) k = some v := by
  unfold putKey getKey
  by_cases h : l.any (fun p => decide (p.1 = k)) = true
  · rw [if_pos h, find?_map_repl_self, if_pos h]
    rfl
  · have hnone : l.find? (fun p => decide (p.1 = k)) = none := by
      rw [List.find?_eq_none]
      intro p hp hpk
      exact h (List.any_eq_true.mpr ⟨p, hp, hpk⟩)
    rw [if_neg h, List.find?_append, hnone]
    simp

theorem getKey_putKey_ne (l : List (κ × α)) (k k' : κ) (v : α)
    (h : k' ≠ k) : getKey (putKey l k v) k' = getKey l k' := by
  unfold putKey getKey
  by_cases hk : l.any (fun p => decide (p.1 = k)) = true
  · rw [if_pos hk, find?_map_repl_ne _ _ _ _ h]
  · rw [if_neg hk, List.find?_append]
    cases hf : l.find? (fun p => decide (p.1 = k')) with
    | some q => simp
    | none => simp [List.find?, Ne.symm h]

theorem hasKey_putKey_self (l : List (κ × α)) (k : κ) (v : α) :
    hasKey (putKey l k v) k = true := by
  unfold putKey hasKey
  by_cases h : l.any (fun p => decide (p.1 = k)) = true
  · rw [if_pos h, List.any_map]
    rcases List.any_eq_true.mp h with ⟨p, hp, hpk⟩
    refine List.any_eq_true.mpr ⟨p, hp, ?_⟩
    simp only [decide_eq_true_eq] at hpk
    simp [Function.comp, hpk]
  · rw [if_neg h]
    simp

theorem hasKey_putKey_ne (l : List (κ × α)) (k k' : κ) (v : α)
    (h : k' ≠ k) : hasKey (putKey l k v) k' = hasKey l k' := by
  unfold putKey hasKey
  by_cases hk : l.any (fun p => decide (p.1 = k)) = true
  · rw [if_pos hk, List.any_map]
    congr 1
    funext p
    by_cases hp : p.1 = k <;> simp [Function.comp, hp, Ne.symm h]
  · rw [if_neg hk]
    simp [List.any_append, Ne.symm h]

theorem hasKey_putKey_mono (l : List (κ × α)) (k k' : κ) (w : α)
    (h : hasKey l k = true) : hasKey (putKey l k' w) k = true := by
  by_cases hk : k = k'
  · subst hk
    exact hasKey_putKey_self l k w
  · rw [hasKey_putKey_ne l k' k w hk]
    exact h

theorem putKey_putKey_self (l : List (κ × α)) (k : κ) (v : α) :
    putKey (putKey l k v) k v = putKey l k v := by
  have hh : ((putKey l k v).any fun p => decide (p.1 = k)) = true := by
    have := hasKey_putKey_self l k v
    simpa [hasKey] using this
  conv_lhs => rw [putKey]
  rw [if_pos hh, putKey]
  by_cases h : l.any (fun p => decide (p.1 = k)) = true
  · rw [if_pos h, List.map_map]
    apply List.map_congr_left
    intro p _
    by_cases hp : p.1 = k <;> simp [Function.comp, hp]
  · rw [if_neg h, List.map_append]
    congr 1
    · have : l.map (fun p => if p.1 = k then (k, v) else p) = l.map id := by
        apply List.map_congr_left
        intro p hp
        have hpk : ¬ p.1 = k := fun hpk =>
          h (List.any_eq_true.mpr ⟨p, hp, by simpa using hpk⟩)
        simp [hpk]
      simpa using this
    · simp

theorem getKey_eq_none (l : List (κ × α)) (k : κ) (h : hasKey l k = false) :
    getKey l k = none := by
  unfold getKey
  rw [List.find?_eq_none.mpr]
  · rfl
  · intro p hp hpk
    have hk : hasKey l k = true := by
      unfold hasKey
      exact List.any_eq_true.mpr ⟨p, hp, hpk⟩
    rw [h] at hk
    exact Bool.noConfusion hk

theorem hasKey_of_getKey (l : List (κ × α)) (k : κ) (v : α)
    (h : getKey l k = some v) : hasKey l k = true := by
  by_contra hc
  rw [getKey_eq_none l k (by simpa using hc)] at h
  exact Option.noConfusion h

theorem delKey_append (a b : List (κ × α)) (k : κ) :
    delKey (a ++ b) k = delKey a k ++ delKey b k := by
  simp [delKey, List.filter_append]

theorem delKey_delKey (l : List (κ × α)) (k : κ) :
    delKey (delKey l k) k = delKey l k := by
  unfold delKey
  rw [List.filter_filter]
  apply List.filter_congr
  intro p _
  simp

theorem delKey_single_self (k : κ) (v : α) :
    delKey [(k, v)] k = [] := by
  simp [delKey]

theorem hasKey_delKey_self (l : List (κ × α)) (k : κ) :
    hasKey (delKey l k) k = false := by
  unfold hasKey delKey
  rw [Bool.eq_false_iff]
  intro hc
  rcases List.any_eq_true.mp hc with ⟨p, hp, hpk⟩
  have := List.of_mem_filter hp
  simp at this hpk
  exact this hpk

theorem hasKey_delKey_ne (l : List (κ × α)) (k k' : κ) (h : k' ≠ k) :
    hasKey (delKey l k) k' = hasKey l k' := by
  unfold hasKey delKey
  induction l with
  | nil => simp
  | cons p t ih =>
      by_cases hp : p.1 = k
      · rw [List.filter_cons_of_neg (by simp [hp])]
        simp only [List.any_cons, hp, decide_eq_false (Ne.symm h),
          Bool.false_or]
        exact ih
      · rw [List.filter_cons_of_pos (by simp [hp])]
        simp only [List.any_cons]
        rw [ih]

theorem getKey_delKey_ne (l : List (κ × α)) (k k' : κ) (h : k' ≠ k) :
    getKey (delKey l k) k' = getKey l k' := by
  unfold getKey delKey
  induction l with
  | nil => simp
  | cons p t ih =>
      by_cases hp : p.1 = k
      · rw [List.filter_cons_of_neg (by simp [hp])]
        rw [List.find?_cons_of_neg _ (by simp [hp, Ne.symm h])]
        exact ih
      · by_cases hp' : p.1 = k'
        · rw [List.filter_cons_of_pos (by simp [hp])]
          rw [List.find?_cons_of_pos _ (by simp [hp']),
            List.find?_cons_of_pos _ (by simp [hp'])]
        · rw [List.filter_cons_of_pos (by simp [hp])]
          rw [List.find?_cons_of_neg _ (by simp [hp']),
            List.find?_cons_of_neg _ (by simp [hp'])]
          exact ih

theorem putKey_eq_of_allVal (l : List (κ × α)) (k : κ) (v : α)
    (h1 : hasKey l k = true) (h2 : AllVal l k v) : putKey l k v = l := by
  unfold putKey
  rw [if_pos (by simpa [hasKey] using h1)]
  have : l.map (fun p => if p.1 = k then (k, v) else p) = l.map id := by
    apply List.map_congr_left
    intro p hp
    by_cases hpk : p.1 = k
    · have := h2 p hp hpk
      simp only [if_pos hpk, id]
      cases p
      simp_all
    · simp [hpk]
  simpa using this

theorem allVal_putKey_self (l : List (κ × α)) (k : κ) (v : α) :
    AllVal (putKey l k v) k v := by
  unfold putKey
  split
  · intro p hp _
    rcases List.mem_map.mp hp with ⟨q, _, hq⟩
    by_cases hqk : q.1 = k
    · simp [hqk] at hq
      simp [← hq]
    · simp [hqk] at hq
      subst hq
      simp_all
  · rename_i h
    intro p hp hpk
    rcases List.mem_append.mp hp with hl | hr
    · have : l.any (fun q => decide (q.1 = k)) = true :=
        List.any_eq_true.mpr ⟨p, hl, by simp [hpk]⟩
      exact absurd this h
    · simp at hr
      simp [hr]

theorem allVal_putKey_ne (l : List (κ × α)) (k k' : κ) (v w : α)
    (hne : k' ≠ k) (h : AllVal l k v) : AllVal (putKey l k' w) k v := by
  unfold putKey
  split
  · intro p hp hpk
    rcases List.mem_map.mp hp with ⟨q, hq, hq2⟩
    by_cases hqk : q.1 = k'
    · simp [hqk] at hq2
      subst hq2
      simp at hpk
      exact absurd hpk hne
    · simp [hqk] at hq2
      subst hq2
      exact h q hq hpk
  · intro p hp hpk
    rcases List.mem_append.mp hp with hl | hr
    · exact h p hl hpk
    · simp at hr
      subst hr
      simp at hpk
      exact absurd hpk hne

theorem allVal_dupdate (dst src : List (String × α)) (k : String) (v : α)
    (hsrc : ∀ q ∈ src, q.1 ≠ k) (h : AllVal dst k v) :
    AllVal (dupdate dst src) k v := by
  induction src generalizing dst with
  | nil => exact h
  | cons q t ih =>
      simp only [dupdate, List.foldl_cons]
      exact ih (ior dst q.1 q.2)
        (fun r hr => hsrc r (List.mem_cons_of_mem _ hr))
        (allVal_putKey_ne _ _ _ _ _ (hsrc q (List.mem_cons_self _ _)) h)

theorem hasKey_dupdate_mono (dst src : List (String × α)) (k : String)
    (h : hasKey dst k = true) : hasKey (dupdate dst src) k = true := by
  induction src generalizing dst with
  | nil => exact h
  | cons q t ih =>
      simp only [dupdate, List.foldl_cons]
      exact ih (ior dst q.1 q.2) (hasKey_putKey_mono _ _ _ _ h)

theorem getKey_dupdate_not_mem (dst src : List (String × α)) (k : String)
    (hsrc : ∀ q ∈ src, q.1 ≠ k) :
    getKey (dupdate dst src) k = getKey dst k := by
  induction src generalizing dst with
  | nil => rfl
  | cons q t ih =>
      simp only [dupdate, List.foldl_cons]
      have : getKey (dupdate (ior dst q.1 q.2) t) k = getKey dst k := by
        rw [ih (ior dst q.1 q.2)
          (fun r hr => hsrc r (List.mem_cons_of_mem _ hr))]
        exact getKey_putKey_ne _ _ _ _
          (Ne.symm (hsrc q (List.mem_cons_self _ _)))
      exact this

theorem dupdate_idem (dst src : List (String × α))
    (h : (src.map Prod.fst).Nodup) :
    dupdate (dupdate dst src) src = dupdate dst src := by
  induction src generalizing dst with
  | nil => rfl
  | cons q t ih =>
      rw [List.map_cons] at h
      have hn := List.nodup_cons.mp h
      have hq : ∀ r ∈ t, r.1 ≠ q.1 := by
        intro r hr he
        exact hn.1 (List.mem_map.mpr ⟨r, hr, he⟩)
      have ht : (t.map Prod.fst).Nodup := hn.2
      simp only [dupdate, List.foldl_cons]
      have hXall : AllVal (dupdate (ior dst q.1 q.2) t) q.1 q.2 :=
        allVal_dupdate _ _ _ _ hq (allVal_putKey_self _ _ _)
      have hXhas : hasKey (dupdate (ior dst q.1 q.2) t) q.1 = true :=
        hasKey_dupdate_mono _ _ _ (hasKey_putKey_self _ _ _)
      have hior : ior (dupdate (ior dst q.1 q.2) t) q.1 q.2
          = dupdate (ior dst q.1 q.2) t :=
        putKey_eq_of_allVal _ _ _ hXhas hXall
      calc (t.foldl (fun m p => ior m p.1 p.2)
              (ior (t.foldl (fun m p => ior m p.1 p.2) (ior dst q.1 q.2)) q.1 q.2))
          = dupdate (ior (dupdate (ior dst q.1 q.2) t) q.1 q.2) t := rfl
        _ = dupdate (dupdate (ior dst q.1 q.2) t) t := by rw [hior]
        _ = dupdate (ior dst q.1 q.2) t := ih _ ht

end AssocLemmas


end Imperium

namespace Imperium

/-! ## Enforcer-step lemmas -/

theorem tcStep_aps (pc : Kern → Bool) (eff : Kern → Kern) (ok : Bool)
    (s : St) : ((tcStep pc eff ok s).2).aps = s.aps := by
  unfold tcStep
  rcases s.oracle with _ | ⟨b, r⟩ <;> dsimp <;> split <;> try rfl
  all_goals split <;> rfl

theorem tcStep_nil_pos (pc : Kern → Bool) (eff : Kern → Kern) (ok : Bool)
    (s : St) (hor : s.oracle = []) (hpc : pc s.kern = true) :
    tcStep pc eff ok s =
      (some 0, { s with kern := eff s.kern, oracle := [], ran := s.ran + 1 }) := by
  unfold tcStep
  rw [hor]
  dsimp only
  rw [if_pos ⟨rfl, hpc⟩]

theorem tcStep_nil_negok (pc : Kern → Bool) (eff : Kern → Kern)
    (s : St) (hor : s.oracle = []) (hpc : pc s.kern = false) :
    tcStep pc eff true s =
      (some 1, { s with oracle := [], ran := s.ran + 1 }) := by
  unfold tcStep
  rw [hor]
  dsimp only
  rw [if_neg (by simp [hpc]), if_pos rfl]

theorem tcStep_nil_raise (pc : Kern → Bool) (eff : Kern → Kern)
    (s : St) (hor : s.oracle = []) (hpc : pc s.kern = false) :
    tcStep pc eff false s =
      (none, { s with oracle := [], ran := s.ran + 1 }) := by
  unfold tcStep
  rw [hor]
  dsimp only
  rw [if_neg (by simp [hpc]), if_neg (by simp)]

theorem replace_class_nil (iface : String) (cid : Nat)
    (r c b : PyVal) (p : Int) (s : St) (hor : s.oracle = [])
    (hroot : iface ∈ s.kern.roots) :
    ∃ n, replace_class iface cid r c b p s =
      (some (),
       { s with
           kern := { s.kern with
             classes := putKey s.kern.classes (iface, cid) ⟨r, c, b, p⟩ },
           oracle := [], ran := n }) := by
  unfold replace_class
  dsimp only
  by_cases hc : hasKey s.kern.classes (iface, cid) = true
  · rw [tcStep_nil_pos _ _ _ _ hor hc]
    exact ⟨s.ran + 1, by simp [effClassPut]⟩
  · rw [tcStep_nil_negok _ _ _ hor (by simpa using hc)]
    dsimp only
    rw [tcStep_nil_pos _ _ _ _ rfl (by simp [hroot, hc])]
    exact ⟨s.ran + 1 + 1, by simp [effClassPut]⟩

theorem ensure_class_present (iface : String) (cid : Nat) (s : St)
    (h : hasKey s.kern.classes (iface, cid) = true) :
    ensure_class iface cid s = (some (), s) := by
  unfold ensure_class
  rw [if_pos h]

theorem ensure_class_ok (iface : String) (cid : Nat) (s : St)
    (hor : s.oracle = []) (hroot : iface ∈ s.kern.roots) :
    ∃ s', ensure_class iface cid s = (some (), s') ∧
      s'.aps = s.aps ∧ s'.oracle = [] ∧
      s'.kern.roots = s.kern.roots ∧
      s'.kern.filters = s.kern.filters ∧
      s'.kern.netems = s.kern.netems ∧
      hasKey s'.kern.classes (iface, cid) = true ∧
      (∀ key, hasKey s.kern.classes key = true →
        hasKey s'.kern.classes key = true) := by
  unfold ensure_class
  by_cases h : hasKey s.kern.classes (iface, cid) = true
  · rw [if_pos h]
    exact ⟨s, rfl, rfl, hor, rfl, rfl, rfl, h, fun _ hk => hk⟩
  · rw [if_neg h]
    obtain ⟨n, hrep⟩ := replace_class_nil iface cid
      (.pstr DEFAULT_DEV_RATE) (.pstr DEFAULT_DEV_CEIL) (.pstr DEFAULT_BURST)
      4 s hor hroot
    rw [hrep]
    refine ⟨_, rfl, rfl, rfl, rfl, rfl, rfl, ?_, ?_⟩
    · exact hasKey_putKey_self _ _ _
    · intro key hk
      exact hasKey_putKey_mono _ _ _ _ hk

theorem ensure_filter_present (iface ip : String) (cid : Nat) (s : St)
    (h : hasKey s.kern.filters (iface, ip) = true) :
    ensure_filter iface ip cid s = (some (), s) := by
  unfold ensure_filter
  rw [if_pos h]

theorem ensure_filter_ok (iface ip : String) (cid : Nat) (s : St)
    (hor : s.oracle = []) (hroot : iface ∈ s.kern.roots) :
    ∃ s', ensure_filter iface ip cid s = (some (), s') ∧
      s'.aps = s.aps ∧ s'.oracle = [] ∧
      s'.kern.roots = s.kern.roots ∧
      s'.kern.classes = s.kern.classes ∧
      s'.kern.netems = s.kern.netems ∧
      hasKey s'.kern.filters (iface, ip) = true ∧
      (∀ key, hasKey s.kern.filters key = true →
        hasKey s'.kern.filters key = true) := by
  unfold ensure_filter
  by_cases h : hasKey s.kern.filters (iface, ip) = true
  · rw [if_pos h]
    exact ⟨s, rfl, rfl, hor, rfl, rfl, rfl, h, fun _ hk => hk⟩
  · rw [if_neg h]
    rw [tcStep_nil_pos _ _ _ _ hor (by simpa using hroot)]
    refine ⟨_, rfl, rfl, rfl, rfl, rfl, rfl, ?_, ?_⟩
    · simp [effFilterAdd, hasKey, List.any_append]
    · intro key hk
      simp [effFilterAdd, hasKey, List.any_append]
      left
      simpa [hasKey] using hk

theorem edc_wlan0_unfold (s : St) :
    ensure_device_classes "wlan0" s =
      (match ensure_class "wlan0" 10 s with
       | (none, s) => (none, s)
       | (some _, s) =>
         match ensure_filter "wlan0" "10.218.189.80" 10 s with
         | (none, s) => (none, s)
         | (some _, s) =>
           match ensure_class "wlan0" 20 s with
           | (none, s) => (none, s)
           | (some _, s) =>
             match ensure_filter "wlan0" "10.218.189.218" 20 s with
             | (none, s) => (none, s)
             | (some _, s) => (some (), s)) := rfl

/-- The `ready` facts unpacked for the three concrete registry devices. -/
theorem ready_iff (k : Kern) :
    ready "wlan0" k = true ↔
      ("wlan0" ∈ k.roots ∧
       hasKey k.classes ("wlan0", 10) = true ∧
       hasKey k.filters ("wlan0", "10.218.189.80") = true ∧
       hasKey k.classes ("wlan0", 20) = true ∧
       hasKey k.filters ("wlan0", "10.218.189.218") = true) := by
  unfold ready DEVICE_REGISTRY
  simp [List.all_cons]
  tauto

theorem edc_wlan0_noop (s : St) (h : ready "wlan0" s.kern = true) :
    ensure_device_classes "wlan0" s = (some (), s) := by
  obtain ⟨_, h10, hf80, h20, hf218⟩ := (ready_iff s.kern).mp h
  rw [edc_wlan0_unfold, ensure_class_present _ _ _ h10]
  dsimp only
  rw [ensure_filter_present _ _ _ _ hf80]
  dsimp only
  rw [ensure_class_present _ _ _ h20]
  dsimp only
  rw [ensure_filter_present _ _ _ _ hf218]

theorem edc_wlan0_ok (s : St) (hor : s.oracle = [])
    (hroot : "wlan0" ∈ s.kern.roots) :
    ∃ s', ensure_device_classes "wlan0" s = (some (), s') ∧
      s'.aps = s.aps ∧ s'.oracle = [] ∧
      s'.kern.roots = s.kern.roots ∧
      s'.kern.netems = s.kern.netems ∧
      ready "wlan0" s'.kern = true := by
  obtain ⟨s1, e1, a1, o1, r1, f1, n1, k1, m1⟩ :=
    ensure_class_ok "wlan0" 10 s hor hroot
  obtain ⟨s2, e2, a2, o2, r2, c2, n2, k2, m2⟩ :=
    ensure_filter_ok "wlan0" "10.218.189.80" 10 s1 o1 (by rw [r1]; exact hroot)
  obtain ⟨s3, e3, a3, o3, r3, f3, n3, k3, m3⟩ :=
    ensure_class_ok "wlan0" 20 s2 o2 (by rw [r2, r1]; exact hroot)
  obtain ⟨s4, e4, a4, o4, r4, c4, n4, k4, m4⟩ :=
    ensure_filter_ok "wlan0" "10.218.189.218" 20 s3 o3
      (by rw [r3, r2, r1]; exact hroot)
  refine ⟨s4, ?_, ?_, o4, ?_, ?_, ?_⟩
  · rw [edc_wlan0_unfold, e1]
    dsimp only
    rw [e2]
    dsimp only
    rw [e3]
    dsimp only
    rw [e4]
  · rw [a4, a3, a2, a1]
  · rw [r4, r3, r2, r1]
  · rw [n4, n3, n2, n1]
  · refine (ready_iff s4.kern).mpr ⟨?_, ?_, ?_, ?_, ?_⟩
    · rw [r4, r3, r2, r1]; exact hroot
    · rw [c4]
      exact m3 _ (by rw [c2]; exact k1)
    · exact m4 _ (by rw [f3]; exact k2)
    · rw [c4]; exact k3
    · exact k4

theorem hasKey_wipe' {β γ : Type} [DecidableEq β]
    (l : List ((String × β) × γ)) (i : String) (b : β) :
    hasKey (l.filter (fun p => !decide (p.1.1 = i))) (i, b) = false := by
  rw [Bool.eq_false_iff]
  intro hc
  rcases List.any_eq_true.mp hc with ⟨p, hp, he⟩
  have hm := List.of_mem_filter hp
  simp only [decide_eq_true_eq] at he
  rw [he] at hm
  simp at hm

theorem hasKey_wipe {β γ : Type} [DecidableEq β]
    (l : List ((String × β) × γ)) (i : String) (b : β) :
    hasKey (l.filter (fun p => p.1.1 ≠ i)) (i, b) = false := by
  rw [Bool.eq_false_iff]
  intro hc
  rcases List.any_eq_true.mp hc with ⟨p, hp, he⟩
  have hm := List.of_mem_filter hp
  simp only [decide_eq_true_eq] at he
  rw [he] at hm
  simp at hm

theorem mem_roots_effRootReplace (iface : String) (k : Kern) :
    iface ∈ (effRootReplace iface k).roots := by
  unfold effRootReplace
  dsimp only
  split
  · assumption
  · simp

theorem ensure_root_noop (s : St) (h : ready "wlan0" s.kern = true) :
    ensure_root_qdisc "wlan0" s = (some (), s) := by
  unfold ensure_root_qdisc
  rw [if_pos ((ready_iff s.kern).mp h).1]
  exact edc_wlan0_noop s h

theorem ensure_root_ok (s : St) (hor : s.oracle = []) :
    ∃ s', ensure_root_qdisc "wlan0" s = (some (), s') ∧
      s'.aps = s.aps ∧ s'.oracle = [] ∧ ready "wlan0" s'.kern = true := by
  unfold ensure_root_qdisc
  by_cases hroot : "wlan0" ∈ s.kern.roots
  · rw [if_pos hroot]
    obtain ⟨s', e, a, o, _, _, r⟩ := edc_wlan0_ok s hor hroot
    exact ⟨s', e, a, o, r⟩
  · rw [if_neg hroot]
    dsimp only
    simp only [tcStep_nil_pos (fun _ => true) _ _ _ hor rfl]
    rw [show effRootReplace "wlan0" s.kern =
        { roots := s.kern.roots ++ ["wlan0"],
          classes := s.kern.classes.filter (fun p => p.1.1 ≠ "wlan0"),
          filters := s.kern.filters.filter (fun p => p.1.1 ≠ "wlan0"),
          netems := s.kern.netems.filter (fun p => p.1.1 ≠ "wlan0") }
      from by simp [effRootReplace, hroot]]
    rw [tcStep_nil_pos
      (fun k => decide ("wlan0" ∈ k.roots ∧ ¬ hasKey k.classes ("wlan0", 1) = true))
      _ _ _ rfl (by simp [hasKey_wipe, hasKey_wipe'])]
    dsimp only
    rw [tcStep_nil_pos
      (fun k => decide ("wlan0" ∈ k.roots ∧ ¬ hasKey k.classes ("wlan0", 99) = true))
      _ _ _ rfl
      (by simp [effClassPut, hasKey_putKey_ne, hasKey_wipe, hasKey_wipe'])]
    dsimp only
    obtain ⟨s', e, a, o, _, _, r⟩ := edc_wlan0_ok
      { kern :=
          effClassPut "wlan0" 99
            ⟨.pstr DEFAULT_DEV_RATE, .pstr DEFAULT_LINK_RATE, .pnone, 4⟩
            (effClassPut "wlan0" 1
              ⟨.pstr DEFAULT_LINK_RATE, .pstr DEFAULT_LINK_RATE, .pnone, 4⟩
              { roots := s.kern.roots ++ ["wlan0"],
                classes := s.kern.classes.filter (fun p => p.1.1 ≠ "wlan0"),
                filters := s.kern.filters.filter (fun p => p.1.1 ≠ "wlan0"),
                netems := s.kern.netems.filter (fun p => p.1.1 ≠ "wlan0") }),
        aps := s.aps, oracle := [], ran := s.ran + 1 + 1 + 1 }
      rfl (by simp [effClassPut])
    rw [e]
    exact ⟨s', rfl, a, o, r⟩

theorem delKey_of_hasKey_false {κ α : Type} [DecidableEq κ]
    (l : List (κ × α)) (k : κ) (h : hasKey l k = false) :
    delKey l k = l := by
  unfold delKey
  apply List.filter_eq_self.mpr
  intro p hp
  simp only [hasKey] at h
  by_contra hc
  simp at hc
  have : l.any (fun p => decide (p.1 = k)) = true :=
    List.any_eq_true.mpr ⟨p, hp, by simp [hc]⟩
  rw [h] at this
  exact Bool.noConfusion this

theorem ready_classes_put (k : Kern) (key : String × Nat) (cfg : ClassCfg)
    (h : ready "wlan0" k = true) :
    ready "wlan0" { k with classes := putKey k.classes key cfg } = true := by
  obtain ⟨h1, h2, h3, h4, h5⟩ := (ready_iff k).mp h
  exact (ready_iff _).mpr
    ⟨h1, hasKey_putKey_mono _ _ _ _ h2, h3, hasKey_putKey_mono _ _ _ _ h4, h5⟩

theorem ready_netems_set (k : Kern) (n : List ((String × Nat) × NetemCfg)) :
    ready "wlan0" { k with netems := n } = ready "wlan0" k := rfl

theorem record_kern (d pt : String) (ps : List (String × PyVal)) (s : St) :
    (record d pt ps s).kern = s.kern := rfl

theorem record_oracle (d pt : String) (ps : List (String × PyVal)) (s : St) :
    (record d pt ps s).oracle = s.oracle := rfl

theorem record_record (d pt : String) (ps : List (String × PyVal)) (s : St)
    (h : (ps.map Prod.fst).Nodup) :
    (record d pt ps (record d pt ps s)).aps = (record d pt ps s).aps := by
  unfold record
  dsimp only
  rw [getKey_putKey_self]
  simp only [Option.map_some', Option.getD_some]
  rw [dupdate_idem _ _ h, putKey_putKey_self]

theorem del_netem_nil (iface : String) (cid : Nat) (s : St)
    (hor : s.oracle = []) :
    del_netem iface cid s =
      { s with
          kern := { s.kern with
            netems := delKey s.kern.netems (iface, cid) },
          oracle := [], ran := s.ran + 1 } := by
  unfold del_netem
  by_cases h : hasKey s.kern.netems (iface, cid) = true
  · rw [tcStep_nil_pos _ _ _ _ hor h]
    simp [effNetemDel]
  · rw [tcStep_nil_negok _ _ _ hor (by simpa using h)]
    rw [delKey_of_hasKey_false _ _ (by simpa using h)]

theorem registry_cases (t : String) (i : DevInfo)
    (h : getKey DEVICE_REGISTRY t = some i) :
    i.iface = "wlan0" ∧
    ((i.ip = "10.218.189.80" ∧ i.classid = 10) ∨
     (i.ip = "10.218.189.218" ∧ i.classid = 20)) := by
  unfold DEVICE_REGISTRY getKey at h
  by_cases h1 : t = "esp32-cam-1"
  · rw [List.find?_cons_of_pos _ (by simp [h1])] at h
    simp at h
    rw [← h]
    simp
  · rw [List.find?_cons_of_neg _ (by simp [Ne.symm h1, h1])] at h
    by_cases h2 : t = "esp32-mhz19-1"
    · rw [List.find?_cons_of_pos _ (by simp [h2])] at h
      simp at h
      rw [← h]
      simp
    · rw [List.find?_cons_of_neg _ (by simp [Ne.symm h2, h2])] at h
      by_cases h3 : t = "esp32-audio-1"
      · rw [List.find?_cons_of_pos _ (by simp [h3])] at h
        simp at h
        rw [← h]
        simp
      · rw [List.find?_cons_of_neg _ (by simp [Ne.symm h3, h3])] at h
        simp at h

/-- The registry filter fact a `ready` interface provides for a resolved
device. -/
theorem ready_covers (k : Kern) (i : DevInfo)
    (hr : ready "wlan0" k = true)
    (hcase : (i.ip = "10.218.189.80" ∧ i.classid = 10) ∨
      (i.ip = "10.218.189.218" ∧ i.classid = 20)) :
    hasKey k.classes ("wlan0", i.classid) = true ∧
    hasKey k.filters ("wlan0", i.ip) = true := by
  obtain ⟨_, h2, h3, h4, h5⟩ := (ready_iff k).mp hr
  rcases hcase with ⟨hip, hcid⟩ | ⟨hip, hcid⟩
  · rw [hip, hcid]
    exact ⟨h2, h3⟩
  · rw [hip, hcid]
    exact ⟨h4, h5⟩

/-! ## aps-invariance of the kernel helpers (any oracle) -/

theorem replace_class_aps (iface : String) (cid : Nat) (r c b : PyVal)
    (p : Int) (s : St) : (replace_class iface cid r c b p s).2.aps = s.aps := by
  unfold replace_class
  dsimp only
  rcases htc : tcStep (fun k => hasKey k.classes (iface, cid))
      (effClassPut iface cid ⟨r, c, b, p⟩) true s with ⟨rc, s1⟩
  have ha1 : s1.aps = s.aps := by
    have := tcStep_aps (fun k => hasKey k.classes (iface, cid))
      (effClassPut iface cid ⟨r, c, b, p⟩) true s
    rw [htc] at this
    exact this
  rcases htc2 : tcStep
      (fun k => decide (iface ∈ k.roots ∧ ¬ hasKey k.classes (iface, cid) = true))
      (effClassPut iface cid ⟨r, c, b, p⟩) false s1 with ⟨rc2, s2⟩
  have ha2 : s2.aps = s1.aps := by
    have := tcStep_aps
      (fun k => decide (iface ∈ k.roots ∧ ¬ hasKey k.classes (iface, cid) = true))
      (effClassPut iface cid ⟨r, c, b, p⟩) false s1
    rw [htc2] at this
    exact this
  have hstep : (match tcStep
      (fun k => decide (iface ∈ k.roots ∧ ¬ hasKey k.classes (iface, cid) = true))
      (effClassPut iface cid ⟨r, c, b, p⟩) false s1 with
    | (some _, s) => ((some () : Option Unit), s)
    | (none, s) => ((none : Option Unit), s)).2.aps = s.aps := by
    rw [htc2]
    rcases rc2 with _ | n2 <;> simp [ha2, ha1]
  rcases rc with _ | n
  · exact hstep
  · rcases n with _ | n
    · simpa using ha1
    · exact hstep

theorem ensure_class_aps (iface : String) (cid : Nat) (s : St) :
    (ensure_class iface cid s).2.aps = s.aps := by
  unfold ensure_class
  split
  · rfl
  · exact replace_class_aps _ _ _ _ _ _ _

theorem ensure_filter_aps (iface ip : String) (cid : Nat) (s : St) :
    (ensure_filter iface ip cid s).2.aps = s.aps := by
  unfold ensure_filter
  split
  · rfl
  · rcases htc : tcStep (fun k => iface ∈ k.roots)
        (effFilterAdd iface ip cid) false s with ⟨rc, s1⟩
    have ha1 : s1.aps = s.aps := by
      have := tcStep_aps (fun k => decide (iface ∈ k.roots))
        (effFilterAdd iface ip cid) false s
      rw [htc] at this
      exact this
    rcases rc with _ | n <;> simpa using ha1

theorem edc_go_aps (iface : String) (regs : List (String × DevInfo))
    (seen : List Nat) (s : St) :
    (ensure_device_classes_go iface regs seen s).2.aps = s.aps := by
  induction regs generalizing seen s with
  | nil => rfl
  | cons e rest ih =>
      unfold ensure_device_classes_go
      split
      · exact ih _ _
      · split
        · exact ih _ _
        · rcases hc : ensure_class iface e.2.classid s with ⟨oc, s1⟩
          have ha1 : s1.aps = s.aps := by
            have := ensure_class_aps iface e.2.classid s
            rw [hc] at this
            exact this
          rcases oc with _ | u
          · simpa using ha1
          · dsimp only
            rcases hf : ensure_filter iface e.2.ip e.2.classid s1
              with ⟨of, s2⟩
            have ha2 : s2.aps = s1.aps := by
              have := ensure_filter_aps iface e.2.ip e.2.classid s1
              rw [hf] at this
              exact this
            rcases of with _ | u2
            · simpa [ha1] using ha2
            · dsimp only
              rw [ih _ _, ha2, ha1]

theorem edc_aps (iface : String) (s : St) :
    (ensure_device_classes iface s).2.aps = s.aps :=
  edc_go_aps iface DEVICE_REGISTRY [] s

theorem ensure_root_aps (iface : String) (s : St) :
    (ensure_root_qdisc iface s).2.aps = s.aps := by
  unfold ensure_root_qdisc
  split
  · exact edc_aps _ _
  · dsimp only
    rw [edc_aps]
    rw [tcStep_aps, tcStep_aps, tcStep_aps]

theorem del_netem_aps (iface : String) (cid : Nat) (s : St) :
    (del_netem iface cid s).aps = s.aps := tcStep_aps _ _ _ _

theorem apply_bandwidth_aps (pol : PolicyDict) (s : St) :
    (apply_bandwidth pol s).1 = some true ∨
    (apply_bandwidth pol s).2.aps = s.aps := by
  unfold apply_bandwidth
  rcases resolve_device pol.target with _ | info
  · right; rfl
  · dsimp only
    rcases hr : ensure_root_qdisc info.iface s with ⟨o1, s1⟩
    have ha1 : s1.aps = s.aps := by
      have := ensure_root_aps info.iface s
      rw [hr] at this
      exact this
    rcases o1 with _ | u1
    · right; simpa using ha1
    · dsimp only
      rcases hc : replace_class info.iface info.classid
          (dgetD pol.parameters "rate" (.pstr DEFAULT_DEV_RATE))
          (dgetD pol.parameters "ceil" (.pstr DEFAULT_DEV_CEIL))
          (dgetD pol.parameters "burst" (.pstr DEFAULT_BURST)) 4 s1
        with ⟨o2, s2⟩
      have ha2 : s2.aps = s1.aps := by
        have := replace_class_aps info.iface info.classid
          (dgetD pol.parameters "rate" (.pstr DEFAULT_DEV_RATE))
          (dgetD pol.parameters "ceil" (.pstr DEFAULT_DEV_CEIL))
          (dgetD pol.parameters "burst" (.pstr DEFAULT_BURST)) 4 s1
        rw [hc] at this
        exact this
      rcases o2 with _ | u2
      · right; simp [ha2, ha1]
      · dsimp only
        rcases hf : ensure_filter info.iface info.ip info.classid s2
          with ⟨o3, s3⟩
        rcases o3 with _ | u3
        · have ha3 : s3.aps = s2.aps := by
            have := ensure_filter_aps info.iface info.ip info.classid s2
            rw [hf] at this
            exact this
          right; simp [ha3, ha2, ha1]
        · left; rfl

theorem apply_latency_aps (pol : PolicyDict) (s : St) :
    (apply_latency pol s).1 = some true ∨
    (apply_latency pol s).2.aps = s.aps := by
  unfold apply_latency
  rcases resolve_device pol.target with _ | info
  · right; rfl
  · dsimp only
    rcases hr : ensure_root_qdisc info.iface s with ⟨o1, s1⟩
    have ha1 : s1.aps = s.aps := by
      have := ensure_root_aps info.iface s
      rw [hr] at this
      exact this
    rcases o1 with _ | u1
    · right; simpa using ha1
    · dsimp only
      rcases hc : ensure_class info.iface info.classid s1 with ⟨o2, s2⟩
      have ha2 : s2.aps = s1.aps := by
        have := ensure_class_aps info.iface info.classid s1
        rw [hc] at this
        exact this
      rcases o2 with _ | u2
      · right; simp [ha2, ha1]
      · dsimp only
        rcases hf : ensure_filter info.iface info.ip info.classid s2
          with ⟨o3, s3⟩
        have ha3 : s3.aps = s2.aps := by
          have := ensure_filter_aps info.iface info.ip info.classid s2
          rw [hf] at this
          exact this
        rcases o3 with _ | u3
        · right; simp [ha3, ha2, ha1]
        · dsimp only
          rcases hn : tcStep
              (fun k => decide (hasKey k.classes (info.iface, info.classid) = true ∧
                ¬ hasKey k.netems (info.iface, info.classid) = true))
              (effNetemAdd info.iface info.classid
                ⟨dgetD pol.parameters "delay"
                   (dgetD pol.parameters "netem_delay" (.pstr "0ms")),
                 if pyTruthy (dgetD pol.parameters "jitter" (.pstr "0ms")) = true ∧
                    ¬ pyEq (dgetD pol.parameters "jitter" (.pstr "0ms"))
                        (.pstr "0ms") = true
                 then some (dgetD pol.parameters "jitter" (.pstr "0ms")) else none,
                 if pyTruthy (dgetD pol.parameters "loss" (.pstr "")) = true
                 then some (dgetD pol.parameters "loss" (.pstr "")) else none⟩)
              false (del_netem info.iface info.classid s3)
            with ⟨o4, s4⟩
          have ha4 : s4.aps = s3.aps := by
            have h1 := tcStep_aps
              (fun k => decide (hasKey k.classes (info.iface, info.classid) = true ∧
                ¬ hasKey k.netems (info.iface, info.classid) = true))
              (effNetemAdd info.iface info.classid
                ⟨dgetD pol.parameters "delay"
                   (dgetD pol.parameters "netem_delay" (.pstr "0ms")),
                 if pyTruthy (dgetD pol.parameters "jitter" (.pstr "0ms")) = true ∧
                    ¬ pyEq (dgetD pol.parameters "jitter" (.pstr "0ms"))
                        (.pstr "0ms") = true
                 then some (dgetD pol.parameters "jitter" (.pstr "0ms")) else none,
                 if pyTruthy (dgetD pol.parameters "loss" (.pstr "")) = true
                 then some (dgetD pol.parameters "loss" (.pstr "")) else none⟩)
              false (del_netem info.iface info.classid s3)
            rw [hn] at h1
            rw [h1, del_netem_aps]
          rcases o4 with _ | u4
          · right; simp [ha4, ha3, ha2, ha1]
          · left; rfl

theorem apply_priority_aps (pol : PolicyDict) (s : St) :
    (apply_priority pol s).1 = some true ∨
    (apply_priority pol s).2.aps = s.aps := by
  unfold apply_priority
  rcases resolve_device pol.target with _ | info
  · right; rfl
  · dsimp only
    rcases hpr : (match dgetD pol.parameters "priority"
        (dgetD pol.parameters "level" (.pstr "medium")) with
        | PyVal.pstr w => some (dgetD PRIORITY_MAP (strLower w) 4)
        | v => pyToInt v : Option Int) with _ | prio
    · right; rfl
    · dsimp only
      rcases hr : ensure_root_qdisc info.iface s with ⟨o1, s1⟩
      have ha1 : s1.aps = s.aps := by
        have := ensure_root_aps info.iface s
        rw [hr] at this
        exact this
      rcases o1 with _ | u1
      · right; simpa using ha1
      · dsimp only
        rcases hc : replace_class info.iface info.classid
            (dgetD pol.parameters "rate"
              (dgetD ((getKey s.aps pol.target).map (fun r => r.params) |>.getD [])
                "rate" (.pstr DEFAULT_DEV_RATE)))
            (dgetD pol.parameters "ceil"
              (dgetD ((getKey s.aps pol.target).map (fun r => r.params) |>.getD [])
                "ceil" (.pstr DEFAULT_DEV_CEIL)))
            (.pstr DEFAULT_BURST) prio s1
          with ⟨o2, s2⟩
        have ha2 : s2.aps = s1.aps := by
          have := replace_class_aps info.iface info.classid
            (dgetD pol.parameters "rate"
              (dgetD ((getKey s.aps pol.target).map (fun r => r.params) |>.getD [])
                "rate" (.pstr DEFAULT_DEV_RATE)))
            (dgetD pol.parameters "ceil"
              (dgetD ((getKey s.aps pol.target).map (fun r => r.params) |>.getD [])
                "ceil" (.pstr DEFAULT_DEV_CEIL)))
            (.pstr DEFAULT_BURST) prio s1
          rw [hc] at this
          exact this
        rcases o2 with _ | u2
        · right; rw [hc]; simp [ha2, ha1]
        · rw [hc]
          dsimp only
          rcases hf : ensure_filter info.iface info.ip info.classid s2
            with ⟨o3, s3⟩
          rcases o3 with _ | u3
          · have ha3 : s3.aps = s2.aps := by
              have := ensure_filter_aps info.iface info.ip info.classid s2
              rw [hf] at this
              exact this
            right; simp [ha3, ha2, ha1]
          · left; rfl

theorem handler_run_aps (run : Option Bool × St) (s : St)
    (h : run.1 = some true ∨ run.2.aps = s.aps) :
    (match run with
     | (some b, s) => (b, s)
     | (none, s) => ((false : Bool), s)).1 = true ∨
    (match run with
     | (some b, s) => (b, s)
     | (none, s) => ((false : Bool), s)).2.aps = s.aps := by
  rcases run with ⟨ob, t⟩
  rcases ob with _ | b
  · rcases h with h | h
    · simp at h
    · right; simpa using h
  · rcases b with _ | _
    · rcases h with h | h
      · simp at h
      · right; simpa using h
    · left; rfl

theorem apply_policy_aps (pol : PolicyDict) (s : St) :
    (apply_policy pol s).1 = true ∨ (apply_policy pol s).2.aps = s.aps := by
  unfold apply_policy
  dsimp only
  split_ifs with h1 h2 h3
  · exact handler_run_aps _ s (apply_bandwidth_aps pol s)
  · exact handler_run_aps _ s (apply_latency_aps pol s)
  · exact handler_run_aps _ s (apply_priority_aps pol s)
  · right; rfl

theorem apply_bandwidth_unregistered (pol : PolicyDict) (s : St)
    (h : resolve_device pol.target = none) :
    apply_bandwidth pol s = (some false, s) := by
  unfold apply_bandwidth
  rw [h]

theorem apply_latency_unregistered (pol : PolicyDict) (s : St)
    (h : resolve_device pol.target = none) :
    apply_latency pol s = (some false, s) := by
  unfold apply_latency
  rw [h]

theorem apply_priority_unregistered (pol : PolicyDict) (s : St)
    (h : resolve_device pol.target = none) :
    apply_priority pol s = (some false, s) := by
  unfold apply_priority
  rw [h]

theorem apply_policy_unknown_type (pol : PolicyDict) (s : St)
    (h : ¬ pol.policy_type ∈ networkPolicyTypes) :
    apply_policy pol s = (false, s) := by
  unfold apply_policy
  dsimp only
  simp only [networkPolicyTypes, List.mem_cons, List.not_mem_nil, or_false] at h
  push_neg at h
  obtain ⟨n1, n2, n3, n4, n5, n6, n7⟩ := h
  rw [if_neg (by simp [n4, n5]), if_neg (by simp [n6, n7]),
    if_neg (by simp [n1, n2, n3])]

theorem apply_policy_unregistered (pol : PolicyDict) (s : St)
    (h : resolve_device pol.target = none) :
    apply_policy pol s = (false, s) := by
  unfold apply_policy
  dsimp only
  split_ifs with h1 h2 h3
  · rw [apply_bandwidth_unregistered pol s h]
  · rw [apply_latency_unregistered pol s h]
  · rw [apply_priority_unregistered pol s h]
  · rfl

theorem apply_policy_false_aps (pol : PolicyDict) (s : St)
    (h : (apply_policy pol s).1 = false) :
    (apply_policy pol s).2.aps = s.aps := by
  rcases apply_policy_aps pol s with h1 | h1
  · rw [h] at h1; exact absurd h1 (by simp)
  · exact h1

theorem hasKey_getKey_some {κ α : Type} [DecidableEq κ]
    (l : List (κ × α)) (k : κ) (h : hasKey l k = true) :
    ∃ v, getKey l k = some v := by
  unfold hasKey at h
  obtain ⟨p, hp, hpk⟩ := List.any_eq_true.mp h
  have hs : (l.find? (fun p => p.1 = k)).isSome :=
    List.find?_isSome.mpr ⟨p, hp, hpk⟩
  obtain ⟨q, hq⟩ := Option.isSome_iff_exists.mp hs
  exact ⟨q.2, by unfold getKey; rw [hq]; rfl⟩

theorem getKey_dupdate_src {α : Type} (dst src : List (String × α))
    (k : String) (v : α) (hmem : (k, v) ∈ src)
    (hnodup : (src.map Prod.fst).Nodup) :
    getKey (dupdate dst src) k = some v := by
  induction src generalizing dst with
  | nil => exact absurd hmem (List.not_mem_nil _)
  | cons q t ih =>
      rw [List.map_cons] at hnodup
      have hn := List.nodup_cons.mp hnodup
      simp only [dupdate, List.foldl_cons]
      rcases List.mem_cons.mp hmem with hq | ht
      · have hkt : ∀ r ∈ t, r.1 ≠ k := by
          intro r hr he
          refine hn.1 ?_
          rw [← hq]
          exact List.mem_map.mpr ⟨r, hr, he⟩
        have hnm : getKey (dupdate (ior dst q.1 q.2) t) k
            = getKey (ior dst q.1 q.2) k := getKey_dupdate_not_mem _ _ _ hkt
        rw [show (t.foldl (fun m p => ior m p.1 p.2) (ior dst q.1 q.2))
            = dupdate (ior dst q.1 q.2) t from rfl, hnm, ← hq]
        exact getKey_putKey_self _ _ _
      · exact ih (ior dst q.1 q.2) ht hn.2

theorem record_aps_eq (d pt : String) (ps : List (String × PyVal))
    (s t : St) (h : s.aps = t.aps) :
    (record d pt ps s).aps = (record d pt ps t).aps := by
  unfold record
  rw [h]

theorem dgetD_pos {α : Type} (m : List (String × α)) (k : String) (d v : α)
    (h : getKey m k = some v) : dgetD m k d = v := by
  unfold dgetD dget
  rw [h]
  rfl

theorem dgetD_neg {α : Type} (m : List (String × α)) (k : String) (d : α)
    (h : hasKey m k = false) : dgetD m k d = d := by
  unfold dgetD dget
  rw [getKey_eq_none _ _ h]
  rfl

theorem apply_bandwidth_ready (pol : PolicyDict) (s : St) (info : DevInfo)
    (hor : s.oracle = []) (hres : resolve_device pol.target = some info)
    (hif : info.iface = "wlan0")
    (hcase : (info.ip = "10.218.189.80" ∧ info.classid = 10) ∨
      (info.ip = "10.218.189.218" ∧ info.classid = 20))
    (hrdy : ready "wlan0" s.kern = true) :
    ∃ n, apply_bandwidth pol s =
      (some true,
       record pol.target "bandwidth_limit"
         [("rate", dgetD pol.parameters "rate" (.pstr DEFAULT_DEV_RATE)),
          ("ceil", dgetD pol.parameters "ceil" (.pstr DEFAULT_DEV_CEIL))]
         { s with
             kern := { s.kern with
               classes := putKey s.kern.classes ("wlan0", info.classid)
                 ⟨dgetD pol.parameters "rate" (.pstr DEFAULT_DEV_RATE),
                  dgetD pol.parameters "ceil" (.pstr DEFAULT_DEV_CEIL),
                  dgetD pol.parameters "burst" (.pstr DEFAULT_BURST), 4⟩ },
             oracle := [], ran := n }) := by
  obtain ⟨n, eB⟩ := replace_class_nil "wlan0" info.classid
    (dgetD pol.parameters "rate" (.pstr DEFAULT_DEV_RATE))
    (dgetD pol.parameters "ceil" (.pstr DEFAULT_DEV_CEIL))
    (dgetD pol.parameters "burst" (.pstr DEFAULT_BURST)) 4 s hor
    ((ready_iff s.kern).mp hrdy).1
  refine ⟨n, ?_⟩
  unfold apply_bandwidth
  rw [hres]
  dsimp only
  rw [hif]
  rw [ensure_root_noop s hrdy]
  dsimp only
  rw [eB]
  dsimp only
  rw [ensure_filter_present "wlan0" info.ip info.classid
    { kern :=
        { roots := s.kern.roots,
          classes := putKey s.kern.classes ("wlan0", info.classid)
            ⟨dgetD pol.parameters "rate" (.pstr DEFAULT_DEV_RATE),
             dgetD pol.parameters "ceil" (.pstr DEFAULT_DEV_CEIL),
             dgetD pol.parameters "burst" (.pstr DEFAULT_BURST), 4⟩,
          filters := s.kern.filters, netems := s.kern.netems },
      aps := s.aps, oracle := [], ran := n }
    (ready_covers s.kern info hrdy hcase).2]

theorem apply_bandwidth_via_root (pol : PolicyDict) (s : St)
    (info : DevInfo)
    (hres : resolve_device pol.target = some info)
    (hif : info.iface = "wlan0") (sA : St)
    (e : ensure_root_qdisc "wlan0" s = (some (), sA))
    (hrdy : ready "wlan0" sA.kern = true) :
    apply_bandwidth pol s = apply_bandwidth pol sA := by
  unfold apply_bandwidth
  rw [hres]
  dsimp only
  rw [hif, e, ensure_root_noop sA hrdy]

theorem apply_bandwidth_idem (pol : PolicyDict) (s : St) (info : DevInfo)
    (hor : s.oracle = []) (hres : resolve_device pol.target = some info) :
    (apply_bandwidth pol s).1 = some true ∧
    (apply_bandwidth pol (apply_bandwidth pol s).2).1 = some true ∧
    (apply_bandwidth pol (apply_bandwidth pol s).2).2.kern
      = (apply_bandwidth pol s).2.kern ∧
    (apply_bandwidth pol (apply_bandwidth pol s).2).2.aps
      = (apply_bandwidth pol s).2.aps := by
  obtain ⟨hif, hcase⟩ := registry_cases pol.target info hres
  obtain ⟨sA, eA, aA, oA, rdyA⟩ := ensure_root_ok s hor
  have hviaroot := apply_bandwidth_via_root pol s info hres hif sA eA rdyA
  obtain ⟨n1, e1⟩ := apply_bandwidth_ready pol sA info oA hres hif hcase rdyA
  have hfirst : apply_bandwidth pol s =
      (some true,
       record pol.target "bandwidth_limit"
         [("rate", dgetD pol.parameters "rate" (.pstr DEFAULT_DEV_RATE)),
          ("ceil", dgetD pol.parameters "ceil" (.pstr DEFAULT_DEV_CEIL))]
         { sA with
             kern := { sA.kern with
               classes := putKey sA.kern.classes ("wlan0", info.classid)
                 ⟨dgetD pol.parameters "rate" (.pstr DEFAULT_DEV_RATE),
                  dgetD pol.parameters "ceil" (.pstr DEFAULT_DEV_CEIL),
                  dgetD pol.parameters "burst" (.pstr DEFAULT_BURST), 4⟩ },
             oracle := [], ran := n1 }) := hviaroot.trans e1
  set s1 := record pol.target "bandwidth_limit"
    [("rate", dgetD pol.parameters "rate" (.pstr DEFAULT_DEV_RATE)),
     ("ceil", dgetD pol.parameters "ceil" (.pstr DEFAULT_DEV_CEIL))]
    { sA with
        kern := { sA.kern with
          classes := putKey sA.kern.classes ("wlan0", info.classid)
            ⟨dgetD pol.parameters "rate" (.pstr DEFAULT_DEV_RATE),
             dgetD pol.parameters "ceil" (.pstr DEFAULT_DEV_CEIL),
             dgetD pol.parameters "burst" (.pstr DEFAULT_BURST), 4⟩ },
        oracle := [], ran := n1 } with hs1
  have rdy1 : ready "wlan0" s1.kern = true :=
    ready_classes_put sA.kern ("wlan0", info.classid) _ rdyA
  obtain ⟨n2, e2⟩ := apply_bandwidth_ready pol s1 info rfl hres hif hcase rdy1
  have hcls : putKey s1.kern.classes ("wlan0", info.classid)
      ⟨dgetD pol.parameters "rate" (.pstr DEFAULT_DEV_RATE),
       dgetD pol.parameters "ceil" (.pstr DEFAULT_DEV_CEIL),
       dgetD pol.parameters "burst" (.pstr DEFAULT_BURST), 4⟩
      = s1.kern.classes := putKey_putKey_self _ _ _
  refine ⟨by rw [hfirst], by rw [hfirst, e2], ?_, ?_⟩
  · rw [hfirst, e2]
    rw [record_kern]
    dsimp only
    rw [hcls]
  · rw [hfirst, e2]
    have haps : ({ s1 with
        kern := { s1.kern with
          classes := putKey s1.kern.classes ("wlan0", info.classid)
            ⟨dgetD pol.parameters "rate" (.pstr DEFAULT_DEV_RATE),
             dgetD pol.parameters "ceil" (.pstr DEFAULT_DEV_CEIL),
             dgetD pol.parameters "burst" (.pstr DEFAULT_BURST), 4⟩ },
        oracle := [], ran := n2 } : St).aps = s1.aps := rfl
    rw [record_aps_eq _ _ _ _ _ haps, hs1,
      record_record _ _ _ _ (by simp)]

theorem apply_priority_ready (pol : PolicyDict) (s : St) (info : DevInfo)
    (hor : s.oracle = []) (hres : resolve_device pol.target = some info)
    (hif : info.iface = "wlan0")
    (hcase : (info.ip = "10.218.189.80" ∧ info.classid = 10) ∨
      (info.ip = "10.218.189.218" ∧ info.classid = 20))
    (hrdy : ready "wlan0" s.kern = true) (prio : Int)
    (hpr : (match dgetD pol.parameters "priority"
        (dgetD pol.parameters "level" (.pstr "medium")) with
      | PyVal.pstr w => some (dgetD PRIORITY_MAP (strLower w) 4)
      | v => pyToInt v : Option Int) = some prio) :
    ∃ n, apply_priority pol s =
      (some true,
       record pol.target "priority"
         [("priority", dgetD pol.parameters "priority"
             (dgetD pol.parameters "level" (.pstr "medium"))),
          ("prio", .pint prio),
          ("rate", dgetD pol.parameters "rate"
            (dgetD (((getKey s.aps pol.target).map (fun r => r.params)).getD [])
              "rate" (.pstr DEFAULT_DEV_RATE))),
          ("ceil", dgetD pol.parameters "ceil"
            (dgetD (((getKey s.aps pol.target).map (fun r => r.params)).getD [])
              "ceil" (.pstr DEFAULT_DEV_CEIL)))]
         { s with
             kern := { s.kern with
               classes := putKey s.kern.classes ("wlan0", info.classid)
                 ⟨dgetD pol.parameters "rate"
                    (dgetD (((getKey s.aps pol.target).map
                        (fun r => r.params)).getD [])
                      "rate" (.pstr DEFAULT_DEV_RATE)),
                  dgetD pol.parameters "ceil"
                    (dgetD (((getKey s.aps pol.target).map
                        (fun r => r.params)).getD [])
                      "ceil" (.pstr DEFAULT_DEV_CEIL)),
                  .pstr DEFAULT_BURST, prio⟩ },
             oracle := [], ran := n }) := by
  obtain ⟨n, eB⟩ := replace_class_nil "wlan0" info.classid
    (dgetD pol.parameters "rate"
      (dgetD (((getKey s.aps pol.target).map (fun r => r.params)).getD [])
        "rate" (.pstr DEFAULT_DEV_RATE)))
    (dgetD pol.parameters "ceil"
      (dgetD (((getKey s.aps pol.target).map (fun r => r.params)).getD [])
        "ceil" (.pstr DEFAULT_DEV_CEIL)))
    (.pstr DEFAULT_BURST) prio s hor ((ready_iff s.kern).mp hrdy).1
  refine ⟨n, ?_⟩
  unfold apply_priority
  rw [hres]
  dsimp only
  rw [hpr]
  dsimp only
  rw [hif, ensure_root_noop s hrdy]
  dsimp only
  rw [eB]
  dsimp only
  rw [ensure_filter_present "wlan0" info.ip info.classid
    { kern :=
        { roots := s.kern.roots,
          classes := putKey s.kern.classes ("wlan0", info.classid)
            ⟨dgetD pol.parameters "rate"
               (dgetD (((getKey s.aps pol.target).map
                   (fun r => r.params)).getD [])
                 "rate" (.pstr DEFAULT_DEV_RATE)),
             dgetD pol.parameters "ceil"
               (dgetD (((getKey s.aps pol.target).map
                   (fun r => r.params)).getD [])
                 "ceil" (.pstr DEFAULT_DEV_CEIL)),
             .pstr DEFAULT_BURST, prio⟩,
          filters := s.kern.filters, netems := s.kern.netems },
      aps := s.aps, oracle := [], ran := n }
    (ready_covers s.kern info hrdy hcase).2]

theorem apply_priority_via_root (pol : PolicyDict) (s : St)
    (info : DevInfo)
    (hres : resolve_device pol.target = some info)
    (hif : info.iface = "wlan0") (sA : St)
    (e : ensure_root_qdisc "wlan0" s = (some (), sA))
    (hrdy : ready "wlan0" sA.kern = true) (haps : sA.aps = s.aps)
    (prio : Int)
    (hpr : (match dgetD pol.parameters "priority"
        (dgetD pol.parameters "level" (.pstr "medium")) with
      | PyVal.pstr w => some (dgetD PRIORITY_MAP (strLower w) 4)
      | v => pyToInt v : Option Int) = some prio) :
    apply_priority pol s = apply_priority pol sA := by
  unfold apply_priority
  rw [hres]
  dsimp only
  rw [hpr]
  dsimp only
  rw [hif, e, ensure_root_noop sA hrdy, haps]

theorem apply_priority_noprio (pol : PolicyDict) (s : St) (info : DevInfo)
    (hres : resolve_device pol.target = some info)
    (hpr : (match dgetD pol.parameters "priority"
        (dgetD pol.parameters "level" (.pstr "medium")) with
      | PyVal.pstr w => some (dgetD PRIORITY_MAP (strLower w) 4)
      | v => pyToInt v : Option Int) = none) :
    apply_priority pol s = (some false, s) := by
  unfold apply_priority
  rw [hres]
  dsimp only
  rw [hpr]

theorem apply_priority_idem (pol : PolicyDict) (s : St) (info : DevInfo)
    (hor : s.oracle = []) (hres : resolve_device pol.target = some info) :
    (apply_priority pol (apply_priority pol s).2).1
      = (apply_priority pol s).1 ∧
    (apply_priority pol (apply_priority pol s).2).2.kern
      = (apply_priority pol s).2.kern ∧
    (apply_priority pol (apply_priority pol s).2).2.aps
      = (apply_priority pol s).2.aps := by
  rcases hpr : (match dgetD pol.parameters "priority"
      (dgetD pol.parameters "level" (.pstr "medium")) with
    | PyVal.pstr w => some (dgetD PRIORITY_MAP (strLower w) 4)
    | v => pyToInt v : Option Int) with _ | prio
  · have h1 := apply_priority_noprio pol s info hres hpr
    rw [h1]
    dsimp only
    rw [h1]
    exact ⟨rfl, rfl, rfl⟩
  · obtain ⟨hif, hcase⟩ := registry_cases pol.target info hres
    obtain ⟨sA, eA, aA, oA, rdyA⟩ := ensure_root_ok s hor
    have hviaroot := apply_priority_via_root pol s info hres hif sA eA rdyA
      aA prio hpr
    obtain ⟨n1, e1⟩ := apply_priority_ready pol sA info oA hres hif hcase
      rdyA prio hpr
    have hfirst := hviaroot.trans e1
    set level := dgetD pol.parameters "priority"
      (dgetD pol.parameters "level" (.pstr "medium"))
    set exA := ((getKey sA.aps pol.target).map (fun r => r.params)).getD []
      with hexA
    set rate1 := dgetD pol.parameters "rate"
      (dgetD exA "rate" (.pstr DEFAULT_DEV_RATE)) with hrate1
    set ceil1 := dgetD pol.parameters "ceil"
      (dgetD exA "ceil" (.pstr DEFAULT_DEV_CEIL)) with hceil1
    set ps1 : List (String × PyVal) :=
      [("priority", level), ("prio", .pint prio),
       ("rate", rate1), ("ceil", ceil1)] with hps1
    set sB : St :=
      { sA with
          kern := { sA.kern with
            classes := putKey sA.kern.classes ("wlan0", info.classid)
              ⟨rate1, ceil1, .pstr DEFAULT_BURST, prio⟩ },
          oracle := [], ran := n1 } with hsB
    set s1 := record pol.target "priority" ps1 sB with hs1
    have rdy1 : ready "wlan0" s1.kern = true :=
      ready_classes_put sA.kern ("wlan0", info.classid) _ rdyA
    obtain ⟨n2, e2⟩ := apply_priority_ready pol s1 info rfl hres hif hcase
      rdy1 prio hpr
    have hget : getKey s1.aps pol.target
        = some ⟨"priority", dupdate exA ps1⟩ := getKey_putKey_self _ _ _
    have hex1 : ((getKey s1.aps pol.target).map (fun r => r.params)).getD []
        = dupdate exA ps1 := by rw [hget]; rfl
    have hrate : dgetD pol.parameters "rate"
        (dgetD (((getKey s1.aps pol.target).map (fun r => r.params)).getD [])
          "rate" (.pstr DEFAULT_DEV_RATE)) = rate1 := by
      rw [hex1]
      by_cases hpp : hasKey pol.parameters "rate" = true
      · obtain ⟨v, hv⟩ := hasKey_getKey_some _ _ hpp
        rw [dgetD_pos pol.parameters "rate"
            (dgetD (dupdate exA ps1) "rate" (.pstr DEFAULT_DEV_RATE)) v hv,
          hrate1,
          dgetD_pos pol.parameters "rate"
            (dgetD exA "rate" (.pstr DEFAULT_DEV_RATE)) v hv]
      · have hppf : hasKey pol.parameters "rate" = false := by
          simpa using hpp
        rw [dgetD_neg _ _ _ hppf,
          dgetD_pos (dupdate exA ps1) "rate" (.pstr DEFAULT_DEV_RATE) rate1
            (getKey_dupdate_src exA ps1 "rate" rate1 (by simp [hps1])
              (by simp [hps1])),
          hrate1, dgetD_neg _ _ _ hppf]
    have hceil : dgetD pol.parameters "ceil"
        (dgetD (((getKey s1.aps pol.target).map (fun r => r.params)).getD [])
          "ceil" (.pstr DEFAULT_DEV_CEIL)) = ceil1 := by
      rw [hex1]
      by_cases hpp : hasKey pol.parameters "ceil" = true
      · obtain ⟨v, hv⟩ := hasKey_getKey_some _ _ hpp
        rw [dgetD_pos pol.parameters "ceil"
            (dgetD (dupdate exA ps1) "ceil" (.pstr DEFAULT_DEV_CEIL)) v hv,
          hceil1,
          dgetD_pos pol.parameters "ceil"
            (dgetD exA "ceil" (.pstr DEFAULT_DEV_CEIL)) v hv]
      · have hppf : hasKey pol.parameters "ceil" = false := by
          simpa using hpp
        rw [dgetD_neg _ _ _ hppf,
          dgetD_pos (dupdate exA ps1) "ceil" (.pstr DEFAULT_DEV_CEIL) ceil1
            (getKey_dupdate_src exA ps1 "ceil" ceil1 (by simp [hps1])
              (by simp [hps1])),
          hceil1, dgetD_neg _ _ _ hppf]
    rw [hrate, hceil] at e2
    have hcls : putKey s1.kern.classes ("wlan0", info.classid)
        ⟨rate1, ceil1, .pstr DEFAULT_BURST, prio⟩ = s1.kern.classes :=
      putKey_putKey_self _ _ _
    refine ⟨by rw [hfirst, e2], ?_, ?_⟩
    · rw [hfirst, e2]
      rw [record_kern]
      dsimp only
      rw [hcls]
    · rw [hfirst, e2]
      have haps : ({ s1 with
          kern := { s1.kern with
            classes := putKey s1.kern.classes ("wlan0", info.classid)
              ⟨rate1, ceil1, .pstr DEFAULT_BURST, prio⟩ },
          oracle := [], ran := n2 } : St).aps = s1.aps := rfl
      rw [record_aps_eq _ _ _ _ _ haps, hs1,
        record_record _ _ _ _ (by simp [hps1])]

theorem apply_latency_ready (pol : PolicyDict) (s : St) (info : DevInfo)
    (hor : s.oracle = []) (hres : resolve_device pol.target = some info)
    (hif : info.iface = "wlan0")
    (hcase : (info.ip = "10.218.189.80" ∧ info.classid = 10) ∨
      (info.ip = "10.218.189.218" ∧ info.classid = 20))
    (hrdy : ready "wlan0" s.kern = true) :
    apply_latency pol s =
      (some true,
       record pol.target "latency_control"
         [("delay", dgetD pol.parameters "delay"
             (dgetD pol.parameters "netem_delay" (.pstr "0ms"))),
          ("jitter", dgetD pol.parameters "jitter" (.pstr "0ms")),
          ("loss", dgetD pol.parameters "loss" (.pstr ""))]
         { s with
             kern := { s.kern with
               netems :=
                 delKey (delKey s.kern.netems ("wlan0", info.classid))
                     ("wlan0", info.classid)
                   ++ [(("wlan0", info.classid),
                        ⟨dgetD pol.parameters "delay"
                           (dgetD pol.parameters "netem_delay" (.pstr "0ms")),
                         if pyTruthy (dgetD pol.parameters "jitter"
                               (.pstr "0ms")) = true ∧
                             ¬ pyEq (dgetD pol.parameters "jitter"
                               (.pstr "0ms")) (.pstr "0ms") = true
                         then some (dgetD pol.parameters "jitter"
                           (.pstr "0ms")) else none,
                         if pyTruthy (dgetD pol.parameters "loss"
                             (.pstr "")) = true
                         then some (dgetD pol.parameters "loss" (.pstr ""))
                         else none⟩)] },
             oracle := [], ran := s.ran + 1 + 1 }) := by
  unfold apply_latency
  rw [hres]
  dsimp only
  rw [hif, ensure_root_noop s hrdy]
  dsimp only
  rw [ensure_class_present "wlan0" info.classid s
    (ready_covers s.kern info hrdy hcase).1]
  dsimp only
  rw [ensure_filter_present "wlan0" info.ip info.classid s
    (ready_covers s.kern info hrdy hcase).2]
  dsimp only
  rw [del_netem_nil "wlan0" info.classid s hor]
  rw [tcStep_nil_pos
    (fun k => decide (hasKey k.classes ("wlan0", info.classid) = true ∧
      ¬ hasKey k.netems ("wlan0", info.classid) = true))
    (effNetemAdd "wlan0" info.classid
      ⟨dgetD pol.parameters "delay"
         (dgetD pol.parameters "netem_delay" (.pstr "0ms")),
       if pyTruthy (dgetD pol.parameters "jitter" (.pstr "0ms")) = true ∧
           ¬ pyEq (dgetD pol.parameters "jitter" (.pstr "0ms"))
             (.pstr "0ms") = true
       then some (dgetD pol.parameters "jitter" (.pstr "0ms")) else none,
       if pyTruthy (dgetD pol.parameters "loss" (.pstr "")) = true
       then some (dgetD pol.parameters "loss" (.pstr "")) else none⟩)
    false
    { s with
        kern := { s.kern with
          netems := delKey s.kern.netems ("wlan0", info.classid) },
        oracle := [], ran := s.ran + 1 }
    rfl
    (by
      simp [hasKey_delKey_self]
      exact (ready_covers s.kern info hrdy hcase).1)]
  dsimp only
  rfl

theorem apply_latency_via_root (pol : PolicyDict) (s : St)
    (info : DevInfo)
    (hres : resolve_device pol.target = some info)
    (hif : info.iface = "wlan0") (sA : St)
    (e : ensure_root_qdisc "wlan0" s = (some (), sA))
    (hrdy : ready "wlan0" sA.kern = true) :
    apply_latency pol s = apply_latency pol sA := by
  unfold apply_latency
  rw [hres]
  dsimp only
  rw [hif, e, ensure_root_noop sA hrdy]

theorem apply_latency_idem (pol : PolicyDict) (s : St) (info : DevInfo)
    (hor : s.oracle = []) (hres : resolve_device pol.target = some info) :
    (apply_latency pol (apply_latency pol s).2).1
      = (apply_latency pol s).1 ∧
    (apply_latency pol (apply_latency pol s).2).2.kern
      = (apply_latency pol s).2.kern ∧
    (apply_latency pol (apply_latency pol s).2).2.aps
      = (apply_latency pol s).2.aps := by
  obtain ⟨hif, hcase⟩ := registry_cases pol.target info hres
  obtain ⟨sA, eA, aA, oA, rdyA⟩ := ensure_root_ok s hor
  have hviaroot := apply_latency_via_root pol s info hres hif sA eA rdyA
  have e1 := apply_latency_ready pol sA info oA hres hif hcase rdyA
  have hfirst := hviaroot.trans e1
  set cfgT : NetemCfg :=
    ⟨dgetD pol.parameters "delay"
       (dgetD pol.parameters "netem_delay" (.pstr "0ms")),
     if pyTruthy (dgetD pol.parameters "jitter" (.pstr "0ms")) = true ∧
         ¬ pyEq (dgetD pol.parameters "jitter" (.pstr "0ms"))
           (.pstr "0ms") = true
     then some (dgetD pol.parameters "jitter" (.pstr "0ms")) else none,
     if pyTruthy (dgetD pol.parameters "loss" (.pstr "")) = true
     then some (dgetD pol.parameters "loss" (.pstr "")) else none⟩
    with hcfgT
  set psL : List (String × PyVal) :=
    [("delay", dgetD pol.parameters "delay"
        (dgetD pol.parameters "netem_delay" (.pstr "0ms"))),
     ("jitter", dgetD pol.parameters "jitter" (.pstr "0ms")),
     ("loss", dgetD pol.parameters "loss" (.pstr ""))] with hpsL
  set sE : St :=
    { sA with
        kern := { sA.kern with
          netems :=
            delKey (delKey sA.kern.netems ("wlan0", info.classid))
                ("wlan0", info.classid)
              ++ [(("wlan0", info.classid), cfgT)] },
        oracle := [], ran := sA.ran + 1 + 1 } with hsE
  set s1 := record pol.target "latency_control" psL sE with hs1
  have rdy1 : ready "wlan0" s1.kern = true := by
    show ready "wlan0"
      { sA.kern with
        netems :=
          delKey (delKey sA.kern.netems ("wlan0", info.classid))
              ("wlan0", info.classid)
            ++ [(("wlan0", info.classid), cfgT)] } = true
    rw [ready_netems_set]
    exact rdyA
  have e2 := apply_latency_ready pol s1 info rfl hres hif hcase rdy1
  have hnet : delKey (delKey s1.kern.netems ("wlan0", info.classid))
        ("wlan0", info.classid) ++ [(("wlan0", info.classid), cfgT)]
      = s1.kern.netems := by
    show delKey (delKey
        (delKey (delKey sA.kern.netems ("wlan0", info.classid))
            ("wlan0", info.classid)
          ++ [(("wlan0", info.classid), cfgT)]) ("wlan0", info.classid))
        ("wlan0", info.classid) ++ [(("wlan0", info.classid), cfgT)]
      = delKey (delKey sA.kern.netems ("wlan0", info.classid))
          ("wlan0", info.classid) ++ [(("wlan0", info.classid), cfgT)]
    simp only [delKey_append, delKey_single_self, List.append_nil,
      delKey_delKey]
  refine ⟨by rw [hfirst, e2], ?_, ?_⟩
  · rw [hfirst, e2]
    rw [record_kern]
    dsimp only
    rw [hnet]
  · rw [hfirst, e2]
    have haps : ({ s1 with
        kern := { s1.kern with
          netems :=
            delKey (delKey s1.kern.netems ("wlan0", info.classid))
                ("wlan0", info.classid)
              ++ [(("wlan0", info.classid), cfgT)] },
        oracle := [], ran := s1.ran + 1 + 1 } : St).aps = s1.aps := rfl
    rw [record_aps_eq _ _ _ _ _ haps, hs1,
      record_record _ _ _ _ (by simp [hpsL])]

theorem runWrap_eq (r : Option Bool × St) :
    (match r with
     | (some b, s) => (b, s)
     | (none, s) => ((false : Bool), s)) = (r.1.getD false, r.2) := by
  rcases r with ⟨ob, t⟩
  rcases ob with _ | b <;> rfl

/-- C4: applying any network policy twice in sequence is observationally
indistinguishable from applying it once — starting from any enforcer state
with a fault-free kernel (empty oracle) and a target present in the device
registry, the second `apply_policy` returns the same result and leaves the
kernel tc state and the active-policy map exactly as the first left them
(class updates are change-then-add, the filter is added only when absent,
netem is delete-then-re-add). -/
theorem claim_C4 (pol : PolicyDict) (s : St) (hor : s.oracle = [])
    (hreg : resolve_device pol.target ≠ none) :
    (apply_policy pol (apply_policy pol s).2).1 = (apply_policy pol s).1 ∧
    (apply_policy pol (apply_policy pol s).2).2.kern
      = (apply_policy pol s).2.kern ∧
    (apply_policy pol (apply_policy pol s).2).2.aps
      = (apply_policy pol s).2.aps := by
  rcases hri : resolve_device pol.target with _ | info
  · exact absurd hri hreg
  unfold apply_policy
  dsimp only
  simp only [runWrap_eq]
  split_ifs with h1 h2 h3
  · obtain ⟨hb1, hb2, hk, ha⟩ := apply_bandwidth_idem pol s info hor hri
    exact ⟨by rw [hb1, hb2], hk, ha⟩
  · obtain ⟨hl1, hk, ha⟩ := apply_latency_idem pol s info hor hri
    exact ⟨by rw [hl1], hk, ha⟩
  · obtain ⟨hp1, hk, ha⟩ := apply_priority_idem pol s info hor hri
    exact ⟨by rw [hp1], hk, ha⟩
  · exact ⟨rfl, rfl, rfl⟩

/-! ## Parser cascade lemmas -/

theorem sweepPat_no_td (low tname : String)
    (acc : List (String × PyVal) × List String) (pat : RE × String × Nat)
    (hname : pat.2.1 ≠ "target_device")
    (h : getKey acc.1 "target_device" = none) :
    getKey (sweepPat low tname acc pat).1 "target_device" = none := by
  unfold sweepPat
  rcases searchGroups pat.1 pat.2.2 low with _ | gs
  · exact h
  · dsimp only
    rw [show ior acc.1 pat.2.1 (.ptup gs)
        = putKey acc.1 pat.2.1 (.ptup gs) from rfl]
    rw [getKey_putKey_ne _ _ _ _ (Ne.symm hname)]
    exact h

theorem sweepFold_no_td (low tname : String)
    (pats : List (RE × String × Nat))
    (acc : List (String × PyVal) × List String)
    (hall : ∀ p ∈ pats, p.2.1 ≠ "target_device")
    (h : getKey acc.1 "target_device" = none) :
    getKey (pats.foldl (sweepPat low tname) acc).1 "target_device"
      = none := by
  induction pats generalizing acc with
  | nil => exact h
  | cons p t ih =>
      rw [List.foldl_cons]
      exact ih _ (fun q hq => hall q (List.mem_cons_of_mem _ hq))
        (sweepPat_no_td low tname acc p
          (hall p (List.mem_cons_self _ _)) h)

theorem sweepEntries_no_td (low : String)
    (entries : List (String × List (RE × String × Nat)))
    (acc : List (String × PyVal) × List String)
    (hall : ∀ e ∈ entries, ∀ p ∈ e.2, p.2.1 ≠ "target_device")
    (h : getKey acc.1 "target_device" = none) :
    getKey (entries.foldl (sweepEntry low) acc).1 "target_device"
      = none := by
  induction entries generalizing acc with
  | nil => exact h
  | cons e t ih =>
      rw [List.foldl_cons]
      exact ih _ (fun q hq => hall q (List.mem_cons_of_mem _ hq))
        (sweepFold_no_td low e.1 e.2 acc
          (hall e (List.mem_cons_self _ _)) h)

theorem sweepPatterns_no_td (low : String) :
    getKey (sweepPatterns low ([], [])).1 "target_device" = none := by
  unfold sweepPatterns
  exact sweepEntries_no_td low intentPatterns ([], [])
    (by decide) rfl

theorem getKey_setTarget (m : List (String × PyVal)) (v : String) :
    getKey (setTarget m v) "target_device" = some (.pstr v) :=
  getKey_putKey_self _ _ _

theorem hasKey_setTarget (m : List (String × PyVal)) (v : String) :
    hasKey (setTarget m v) "target_device" = true :=
  hasKey_putKey_self _ _ _

theorem getKey_none_hasKey_false {κ α : Type} [DecidableEq κ]
    (l : List (κ × α)) (k : κ) (h : getKey l k = none) :
    hasKey l k = false := by
  by_contra hc
  obtain ⟨v, hv⟩ := hasKey_getKey_some l k (by simpa using hc)
  rw [h] at hv
  exact Option.noConfusion hv

theorem forStep_keep (low : String) (m : List (String × PyVal))
    (h : hasKey m "target_device" = true) :
    (match forTarget low with
     | some v => if dmem m "target_device" then m else setTarget m v
     | none => m) = m := by
  rcases forTarget low with _ | v
  · rfl
  · dsimp only
    simp [dmem, h]

theorem forStep_none (low : String) (m : List (String × PyVal))
    (h : getKey m "target_device" = none) :
    getKey (match forTarget low with
      | some v => if dmem m "target_device" then m else setTarget m v
      | none => m) "target_device"
      = (forTarget low).map (fun v => PyVal.pstr v) := by
  rcases forTarget low with _ | v
  · exact h
  · dsimp only
    rw [if_neg (by simp [dmem, getKey_none_hasKey_false m _ h])]
    exact getKey_setTarget m v

/-- C7 (amended): for every directive, the parser's final `target_device`
is given by `targetPrecedence` — the cascade in which the LAST matching
device-specific pattern wins (mhz19/env/generic-mhz19 over cam over audio
over node), and the trailing `for X` clause fills the target only when no
other pattern matched; the spec's claimed first-match-wins order is
refuted by `claim_C7_counterexample`. -/
theorem claim_C7_amended (D : String) :
    getKey (parse D).parameters "target_device"
      = (targetPrecedence (strLower D)).map (fun v => PyVal.pstr v) := by
  unfold parse targetPrecedence
  dsimp only
  rcases hsw : sweepPatterns (strLower D) ([], []) with ⟨p0, fl0⟩
  have h0 : getKey p0 "target_device" = none := by
    have h := sweepPatterns_no_td (strLower D)
    rw [hsw] at h
    exact h
  rcases hm : espMhz19Target (strLower D) with _ | vm
  · rcases he : espEnvTarget (strLower D) with _ | ve
    · rcases hg : mhz19Target (strLower D) with _ | vg
      · rcases hc : camTarget (strLower D) with _ | vc
        · rcases ha : audioTarget (strLower D) with _ | va
          · rcases hn : nodeTarget (strLower D) with _ | vn
            · dsimp only
              exact forStep_none (strLower D) p0 h0
            · dsimp only
              rw [forStep_keep _ _ (hasKey_setTarget _ _),
                getKey_setTarget]
              rfl
          · dsimp only
            rw [forStep_keep _ _ (hasKey_setTarget _ _), getKey_setTarget]
            rfl
        · dsimp only
          rw [forStep_keep _ _ (hasKey_setTarget _ _), getKey_setTarget]
          rfl
      · dsimp only
        rw [forStep_keep _ _ (hasKey_setTarget _ _), getKey_setTarget]
        rfl
    · dsimp only
      rw [forStep_keep _ _ (hasKey_setTarget _ _), getKey_setTarget]
      rfl
  · dsimp only
    rw [forStep_keep _ _ (hasKey_setTarget _ _), getKey_setTarget]
    rfl

theorem determine_type_ne_empty (s : String) : determine_type s ≠ "" := by
  unfold determine_type
  by_cases h1 : strIn "resolution" s = true ∨ anyIn ["qvga", "vga", "svga", "xga", "hd", "sxga", "uxga"] s = true
  · rw [if_pos h1]; decide
  rw [if_neg h1]
  by_cases h2 : strIn "brightness" s = true ∧ (strIn "camera" s = true ∨ strIn "cam" s = true)
  · rw [if_pos h2]; decide
  rw [if_neg h2]
  by_cases h3 : anyIn ["frame rate", "fps", "capture interval", "capture every"] s = true
  · rw [if_pos h3]; decide
  rw [if_neg h3]
  by_cases h4 : strIn "quality" s = true ∧ (strIn "camera" s = true ∨ strIn "cam" s = true) ∨ strIn "jpeg quality" s = true ∨ strIn "image quality" s = true
  · rw [if_pos h4]; decide
  rw [if_neg h4]
  by_cases h5 : (strIn "camera" s = true ∨ strIn "cam" s = true) ∧ anyIn ["enable", "disable", "start", "stop", "pause", "resume"] s = true
  · rw [if_pos h5]; decide
  rw [if_neg h5]
  by_cases h6 : anyIn ["mhz19", "co2", "carbon dioxide", "environmental", "esp32-env"] s = true ∧ anyIn ["sampling", "interval", "rate", "every"] s = true
  · rw [if_pos h6]; decide
  rw [if_neg h6]
  by_cases h7 : strIn "seconds" s = true ∧ strIn "sampling" s = true
  · rw [if_pos h7]; decide
  rw [if_neg h7]
  by_cases h8 : anyIn ["sample rate", "sampling", "audio rate", "khz", " hz"] s = true
  · rw [if_pos h8]; decide
  rw [if_neg h8]
  by_cases h9 : anyIn ["gain", "amplify", "boost", "audio volume", "audio level"] s = true
  · rw [if_pos h9]; decide
  rw [if_neg h9]
  by_cases h10 : anyIn ["publish interval", "telemetry rate", "telemetry", "reporting", "send data", "report every", "report telemetry"] s = true
  · rw [if_pos h10]; decide
  rw [if_neg h10]
  by_cases h11 : anyIn ["enable", "disable", "start", "stop", "activate", "deactivate", "reset"] s = true
  · rw [if_pos h11]; decide
  rw [if_neg h11]
  by_cases h12 : anyIn ["priority", "prioritize", "critical"] s = true
  · rw [if_pos h12]; decide
  rw [if_neg h12]
  by_cases h13 : anyIn ["bandwidth", "throttle", "limit"] s = true
  · rw [if_pos h13]; decide
  rw [if_neg h13]
  by_cases h14 : anyIn ["latency", "delay", "response"] s = true
  · rw [if_pos h14]; decide
  rw [if_neg h14]
  by_cases h15 : anyIn ["qos", "quality of service", "reliable delivery"] s = true
  · rw [if_pos h15]; decide
  rw [if_neg h15]
  decide

theorem parse_intentType (D : String) :
    (parse D).intentType = determine_type (strLower D) := by
  unfold parse
  dsimp only

theorem validate_parse (D : String) :
    validate (parse D) =
      (if (parse D).parameters = []
       then (false, "No actionable parameters extracted")
       else (true, "Valid")) := by
  unfold validate
  rw [if_neg]
  rw [parse_intentType]
  exact determine_type_ne_empty (strLower D)

/-! ## Stats-collector lemmas -/

theorem fold_put_not_mem (devs : List String)
    (m : List (String × DevStats)) (v : DevStats) (d : String)
    (hd : d ∉ devs) :
    getKey (devs.foldl (fun m dev => putKey m dev v) m) d = getKey m d := by
  induction devs generalizing m with
  | nil => rfl
  | cons dev t ih =>
      rw [List.foldl_cons]
      rw [ih (putKey m dev v) (fun hc => hd (List.mem_cons_of_mem _ hc))]
      exact getKey_putKey_ne _ _ _ _
        (fun he => hd (he ▸ List.mem_cons_self _ _))

theorem fold_put_mem (devs : List String)
    (m : List (String × DevStats)) (v : DevStats) (d : String)
    (hd : d ∈ devs) :
    getKey (devs.foldl (fun m dev => putKey m dev v) m) d = some v := by
  induction devs generalizing m with
  | nil => exact absurd hd (List.not_mem_nil _)
  | cons dev t ih =>
      rw [List.foldl_cons]
      by_cases hdt : d ∈ t
      · exact ih (putKey m dev v) hdt
      · have hde : dev = d := by
          rcases List.mem_cons.mp hd with h | h
          · exact h.symm
          · exact absurd h hdt
        rw [fold_put_not_mem t _ v d hdt, hde]
        exact getKey_putKey_self _ _ _

theorem fold_rate_not_mem (devs : List String)
    (m : List (String × DevStats)) (r pps d : String)
    (hd : d ∉ devs) :
    getKey (devs.foldl (fun m dev =>
        match getKey m dev with
        | some e => putKey m dev
            { e with current_rate := some r, current_pps := some pps }
        | none => m) m) d = getKey m d := by
  induction devs generalizing m with
  | nil => rfl
  | cons dev t ih =>
      rw [List.foldl_cons]
      have hne : dev ≠ d := fun he => hd (he ▸ List.mem_cons_self _ _)
      rw [ih _ (fun hc => hd (List.mem_cons_of_mem _ hc))]
      rcases hg : getKey m dev with _ | e
      · rfl
      · exact getKey_putKey_ne _ _ _ _ (Ne.symm hne)

theorem fold_rate_mem (devs : List String)
    (m : List (String × DevStats)) (e : DevStats) (r pps d : String)
    (hd : d ∈ devs) (he : getKey m d = some e) :
    getKey (devs.foldl (fun m dev =>
        match getKey m dev with
        | some e => putKey m dev
            { e with current_rate := some r, current_pps := some pps }
        | none => m) m) d
      = some { e with current_rate := some r, current_pps := some pps } := by
  induction devs generalizing m e with
  | nil => exact absurd hd (List.not_mem_nil _)
  | cons dev t ih =>
      rw [List.foldl_cons]
      by_cases hdt : d ∈ t
      · by_cases hde : dev = d
        · rw [hde, he]
          dsimp only
          have h2 := ih (putKey m d
              { e with current_rate := some r, current_pps := some pps })
            { e with current_rate := some r, current_pps := some pps }
            hdt (getKey_putKey_self _ _ _)
          exact h2
        · refine ih _ e hdt ?_
          rcases hg : getKey m dev with _ | e2
          · exact he
          · rw [getKey_putKey_ne _ _ _ _ (Ne.symm hde)]
            exact he
      · have hde : dev = d := by
          rcases List.mem_cons.mp hd with h | h
          · exact h.symm
          · exact absurd h hdt
        rw [hde, he]
        dsimp only
        rw [fold_rate_not_mem t _ r pps d hdt]
        exact getKey_putKey_self _ _ _

theorem statsStep_header (devsOf : Nat → List String)
    (st : Option Nat × List (String × DevStats)) (line : String)
    (cid : Nat) (h : matchClassHeader line = some cid) :
    statsStep devsOf st line = (some cid, st.2) := by
  unfold statsStep
  rw [h]

theorem statsStep_inert (devsOf : Nat → List String)
    (st : Option Nat × List (String × DevStats)) (line : String)
    (h1 : matchClassHeader line = none) (h2 : matchSent line = none)
    (h3 : matchRate line = none) :
    statsStep devsOf st line = st := by
  unfold statsStep
  rw [h1]
  rcases st with ⟨cur, m⟩
  rcases cur with _ | cid
  · rfl
  · dsimp only
    rw [h2, h3]

theorem statsStep_sent (devsOf : Nat → List String) (cid : Nat)
    (m : List (String × DevStats)) (line : String) (b p dr ov : Nat)
    (h1 : matchClassHeader line = none)
    (h2 : matchSent line = some (b, p, dr, ov))
    (h3 : matchRate line = none) :
    statsStep devsOf (some cid, m) line =
      (some cid,
       (devsOf cid).foldl
         (fun m dev => putKey m dev ⟨b, p, dr, ov, cid, none, none⟩) m) := by
  unfold statsStep
  rw [h1]
  dsimp only
  rw [h2, h3]

theorem statsStep_rate (devsOf : Nat → List String) (cid : Nat)
    (m : List (String × DevStats)) (line : String) (r pps : String)
    (h1 : matchClassHeader line = none)
    (h2 : matchSent line = none)
    (h3 : matchRate line = some (r, pps)) :
    statsStep devsOf (some cid, m) line =
      (none,
       (devsOf cid).foldl
         (fun m dev =>
           match getKey m dev with
           | some e => putKey m dev
               { e with current_rate := some r, current_pps := some pps }
           | none => m) m) := by
  unfold statsStep
  rw [h1]
  dsimp only
  rw [h2, h3]

theorem fold_inert (devsOf : Nat → List String) (ls : List String)
    (st : Option Nat × List (String × DevStats))
    (h : ∀ l ∈ ls, matchClassHeader l = none ∧ matchSent l = none ∧
      matchRate l = none) :
    ls.foldl (statsStep devsOf) st = st := by
  induction ls generalizing st with
  | nil => rfl
  | cons l t ih =>
      rw [List.foldl_cons]
      obtain ⟨h1, h2, h3⟩ := h l (List.mem_cons_self _ _)
      rw [statsStep_inert devsOf st l h1 h2 h3]
      exact ih st (fun q hq => h q (List.mem_cons_of_mem _ hq))

theorem statsStep_preserve (devsOf : Nat → List String)
    (st : Option Nat × List (String × DevStats)) (l : String) (d : String)
    (hcur : ∀ c, st.1 = some c → d ∉ devsOf c)
    (hhd : ∀ c, matchClassHeader l = some c → d ∉ devsOf c) :
    getKey (statsStep devsOf st l).2 d = getKey st.2 d ∧
    (∀ c, (statsStep devsOf st l).1 = some c → d ∉ devsOf c) := by
  rcases hh : matchClassHeader l with _ | c0
  · rcases st with ⟨cur, m⟩
    rcases cur with _ | cid
    · have hstep : statsStep devsOf (none, m) l = (none, m) := by
        unfold statsStep
        rw [hh]
      rw [hstep]
      exact ⟨rfl, fun c hc => Option.noConfusion hc⟩
    · have hd : d ∉ devsOf cid := hcur cid rfl
      rcases hrt : matchRate l with _ | rp
      · rcases hsn : matchSent l with _ | q
        · rw [statsStep_inert devsOf _ l hh hsn hrt]
          exact ⟨rfl, hcur⟩
        · rcases q with ⟨b, ⟨p, ⟨dr, ov⟩⟩⟩
          rw [statsStep_sent devsOf cid m l b p dr ov hh hsn hrt]
          refine ⟨fold_put_not_mem _ _ _ _ hd, ?_⟩
          intro c hc
          rw [show c = cid from (Option.some.inj hc).symm]
          exact hd
      · rcases rp with ⟨r, pps⟩
        rcases hsn : matchSent l with _ | q
        · rw [statsStep_rate devsOf cid m l r pps hh hsn hrt]
          exact ⟨fold_rate_not_mem _ _ _ _ _ hd,
            fun c hc => Option.noConfusion hc⟩
        · rcases q with ⟨b, ⟨p, ⟨dr, ov⟩⟩⟩
          have hstep : statsStep devsOf (some cid, m) l =
              (none,
               (devsOf cid).foldl
                 (fun m dev =>
                   match getKey m dev with
                   | some e => putKey m dev
                       { e with current_rate := some r,
                                current_pps := some pps }
                   | none => m)
                 ((devsOf cid).foldl
                   (fun m dev => putKey m dev ⟨b, p, dr, ov, cid, none, none⟩)
                   m)) := by
            unfold statsStep
            rw [hh]
            dsimp only
            rw [hsn, hrt]
          rw [hstep]
          refine ⟨?_, fun c hc => Option.noConfusion hc⟩
          rw [fold_rate_not_mem _ _ _ _ _ hd, fold_put_not_mem _ _ _ _ hd]
  · rw [statsStep_header devsOf st l c0 hh]
    refine ⟨rfl, ?_⟩
    intro c hc
    rw [show c = c0 from (Option.some.inj hc).symm]
    exact hhd c0 hh

theorem fold_post (devsOf : Nat → List String) (ls : List String)
    (st : Option Nat × List (String × DevStats)) (d : String)
    (hcur : ∀ c, st.1 = some c → d ∉ devsOf c)
    (hpost : ∀ l ∈ ls, ∀ c, matchClassHeader l = some c → d ∉ devsOf c) :
    getKey (ls.foldl (statsStep devsOf) st).2 d = getKey st.2 d := by
  induction ls generalizing st with
  | nil => rfl
  | cons l t ih =>
      rw [List.foldl_cons]
      obtain ⟨hkeep, hcur2⟩ := statsStep_preserve devsOf st l d hcur
        (hpost l (List.mem_cons_self _ _))
      rw [ih (statsStep devsOf st l) hcur2
        (fun q hq => hpost q (List.mem_cons_of_mem _ hq))]
      exact hkeep

theorem collect_lines_block (devsOf : Nat → List String) (d : String)
    (cid : Nat) (pre mid1 mid2 post : List String)
    (hline sline rline : String) (b p dr ov : Nat) (r pps : String)
    (stats0 : List (String × DevStats))
    (hdev : d ∈ devsOf cid)
    (hh : matchClassHeader hline = some cid)
    (hs : matchSent sline = some (b, p, dr, ov))
    (hs1 : matchClassHeader sline = none) (hs2 : matchRate sline = none)
    (hr : matchRate rline = some (r, pps))
    (hr1 : matchClassHeader rline = none) (hr2 : matchSent rline = none)
    (hmid1 : ∀ l ∈ mid1, matchClassHeader l = none ∧ matchSent l = none ∧
      matchRate l = none)
    (hmid2 : ∀ l ∈ mid2, matchClassHeader l = none ∧ matchSent l = none ∧
      matchRate l = none)
    (hpost : ∀ l ∈ post, ∀ c, matchClassHeader l = some c →
      d ∉ devsOf c) :
    getKey (collect_lines devsOf
        (pre ++ [hline] ++ mid1 ++ [sline] ++ mid2 ++ [rline] ++ post)
        stats0) d
      = some ⟨b, p, dr, ov, cid, some r, some pps⟩ := by
  unfold collect_lines
  simp only [List.foldl_append, List.foldl_cons, List.foldl_nil]
  rcases hst : List.foldl (statsStep devsOf) (none, stats0) pre
    with ⟨curP, mP⟩
  rw [statsStep_header devsOf (curP, mP) hline cid hh]
  dsimp only
  rw [fold_inert devsOf mid1 (some cid, mP) hmid1]
  rw [statsStep_sent devsOf cid mP sline b p dr ov hs1 hs hs2]
  rw [fold_inert devsOf mid2 _ hmid2]
  rw [statsStep_rate devsOf cid _ rline r pps hr1 hr2 hr]
  rw [fold_post devsOf post _ d (fun c hc => Option.noConfusion hc) hpost]
  exact fold_rate_mem _ _ _ _ _ _ hdev (fold_put_mem _ _ _ _ hdev)

/-- C6: for every well-formed `tc -s class show` listing — a
`class htb 1:<cid>` header, then a `Sent <bytes> bytes <pkt> pkt
(dropped <d>, overlimits <o>` line, then a `rate <r> <pps>` line, with
arbitrary unrelated lines before, between and after (the trailing lines
not re-opening a block of the same device) — `collect_tc_stats` populates
a full stats record (bytes, packets, dropped, overlimits, classid, rate,
pps) for every registered device of that classid. -/
theorem claim_C6 (raw : String → List String)
    (d : String) (cid : Nat) (pre mid1 mid2 post : List String)
    (hline sline rline : String) (b p dr ov : Nat) (r pps : String)
    (hdev : d ∈ cid_to_devs "wlan0" cid)
    (hsplit : raw "wlan0"
      = pre ++ [hline] ++ mid1 ++ [sline] ++ mid2 ++ [rline] ++ post)
    (hh : matchClassHeader hline = some cid)
    (hs : matchSent sline = some (b, p, dr, ov))
    (hs1 : matchClassHeader sline = none) (hs2 : matchRate sline = none)
    (hr : matchRate rline = some (r, pps))
    (hr1 : matchClassHeader rline = none) (hr2 : matchSent rline = none)
    (hmid1 : ∀ l ∈ mid1, matchClassHeader l = none ∧ matchSent l = none ∧
      matchRate l = none)
    (hmid2 : ∀ l ∈ mid2, matchClassHeader l = none ∧ matchSent l = none ∧
      matchRate l = none)
    (hpost : ∀ l ∈ post, ∀ c, matchClassHeader l = some c →
      d ∉ cid_to_devs "wlan0" c) :
    getKey (collect_tc_stats raw) d
      = some ⟨b, p, dr, ov, cid, some r, some pps⟩ := by
  have h0 : collect_tc_stats raw
      = collect_lines (cid_to_devs "wlan0") (raw "wlan0") [] := rfl
  rw [h0, hsplit]
  exact collect_lines_block (cid_to_devs "wlan0") d cid pre mid1 mid2 post
    hline sline rline b p dr ov r pps [] hdev hh hs hs1 hs2 hr hr1 hr2
    hmid1 hmid2 hpost

/-! ## clear_device lemmas -/

theorem del_class_nil (iface : String) (cid : Nat) (s : St)
    (hor : s.oracle = []) :
    del_class iface cid s =
      { s with
          kern := { s.kern with
            classes := delKey s.kern.classes (iface, cid) },
          oracle := [], ran := s.ran + 1 } := by
  unfold del_class
  by_cases h : hasKey s.kern.classes (iface, cid) = true
  · rw [tcStep_nil_pos _ _ _ _ hor h]
    simp [effClassDel]
  · rw [tcStep_nil_negok _ _ _ hor (by simpa using h)]
    rw [delKey_of_hasKey_false _ _ (by simpa using h)]

theorem del_filter_go_nil (iface ip : String) (s : St) :
    del_filter.go iface ip [] s = (some (), s) := rfl

theorem del_filter_go_cons (iface ip dev_id : String) (info : DevInfo)
    (rest : List (String × DevInfo)) (s : St) :
    del_filter.go iface ip ((dev_id, info) :: rest) s =
      (if info.ip = ip then del_filter.go iface ip rest s
       else if info.iface ≠ iface then del_filter.go iface ip rest s
       else if hasKey s.aps dev_id = true then
         match ensure_filter iface info.ip info.classid s with
         | (none, s) => (none, s)
         | (some _, s) => del_filter.go iface ip rest s
       else del_filter.go iface ip rest s) := rfl

theorem ensure_filter_add_shape (ip2 : String) (cid : Nat) (u : St)
    (hor : u.oracle = []) (hroot : "wlan0" ∈ u.kern.roots)
    (habs : hasKey u.kern.filters ("wlan0", ip2) = false) :
    ensure_filter "wlan0" ip2 cid u =
      (some (),
       { u with
           kern := { u.kern with
             filters := u.kern.filters ++ [(("wlan0", ip2), cid)] },
           oracle := [], ran := u.ran + 1 }) := by
  unfold ensure_filter
  rw [if_neg (by simp [habs])]
  rw [tcStep_nil_pos _ _ _ _ hor (by simpa using hroot)]
  dsimp only
  rfl

theorem del_filter_cam (t : St) (hor : t.oracle = [])
    (hroot : "wlan0" ∈ t.kern.roots) :
    ∃ t', del_filter "wlan0" "10.218.189.80" t = (some (), t') ∧
      t'.aps = t.aps ∧ t'.oracle = [] ∧
      t'.kern.roots = t.kern.roots ∧
      t'.kern.classes = t.kern.classes ∧
      t'.kern.netems = t.kern.netems ∧
      hasKey t'.kern.filters ("wlan0", "10.218.189.80") = false ∧
      (hasKey t.kern.filters ("wlan0", "10.218.189.80") = false →
        t'.kern.filters = t.kern.filters) ∧
      (hasKey t.kern.filters ("wlan0", "10.218.189.80") = true →
        hasKey t'.kern.filters ("wlan0", "10.218.189.218")
          = (hasKey t.aps "esp32-mhz19-1" || hasKey t.aps "esp32-audio-1")) := by
  unfold del_filter
  by_cases hf : hasKey t.kern.filters ("wlan0", "10.218.189.80") = true
  · rw [if_neg (by simp [hf])]
    dsimp only
    rw [tcStep_nil_pos _ _ _ _ hor (by simpa using hroot)]
    dsimp only
    rw [show DEVICE_REGISTRY =
        [("esp32-cam-1", (⟨"10.218.189.80", 10, "wlan0"⟩ : DevInfo)),
         ("esp32-mhz19-1", ⟨"10.218.189.218", 20, "wlan0"⟩),
         ("esp32-audio-1", ⟨"10.218.189.218", 20, "wlan0"⟩)] from rfl]
    rw [del_filter_go_cons]
    rw [if_pos rfl]
    rw [del_filter_go_cons]
    rw [if_neg (by decide), if_neg (by decide)]
    dsimp only
    set tfl : St :=
      { t with
          kern := effFilterFlush "wlan0" t.kern,
          oracle := [], ran := t.ran + 1 } with htfl
    have hwipe80 : hasKey tfl.kern.filters ("wlan0", "10.218.189.80")
        = false := by
      simp [htfl, effFilterFlush, hasKey_wipe, hasKey_wipe']
    have hwipe218 : hasKey tfl.kern.filters ("wlan0", "10.218.189.218")
        = false := by
      simp [htfl, effFilterFlush, hasKey_wipe, hasKey_wipe']
    by_cases hm : hasKey t.aps "esp32-mhz19-1" = true
    · rw [if_pos hm]
      rw [ensure_filter_add_shape "10.218.189.218" 20 tfl rfl hroot hwipe218]
      dsimp only
      set tadd : St :=
        { tfl with
            kern := { tfl.kern with
              filters := tfl.kern.filters ++ [(("wlan0", "10.218.189.218"), 20)] },
            oracle := [], ran := tfl.ran + 1 } with htadd
      have hadd218 : hasKey tadd.kern.filters ("wlan0", "10.218.189.218")
          = true := by
        simp [htadd, hasKey, List.any_append]
      have hadd80 : hasKey tadd.kern.filters ("wlan0", "10.218.189.80")
          = false := by
        simp [htadd, hasKey, List.any_append]
        simpa [hasKey] using hwipe80
      rw [del_filter_go_cons]
      rw [if_neg (by decide), if_neg (by decide)]
      by_cases ha : hasKey t.aps "esp32-audio-1" = true
      · rw [if_pos ha]
        rw [ensure_filter_present "wlan0" "10.218.189.218" 20 tadd hadd218]
        dsimp only
        rw [del_filter_go_nil]
        exact ⟨tadd, rfl, rfl, rfl, rfl, rfl, rfl, hadd80,
          fun hc => absurd hf (by simp [hc]),
          fun _ => by simp [hadd218, hm, ha]⟩
      · rw [if_neg ha]
        rw [del_filter_go_nil]
        exact ⟨tadd, rfl, rfl, rfl, rfl, rfl, rfl, hadd80,
          fun hc => absurd hf (by simp [hc]),
          fun _ => by simp [hadd218, hm]⟩
    · rw [if_neg hm]
      rw [del_filter_go_cons]
      rw [if_neg (by decide), if_neg (by decide)]
      by_cases ha : hasKey t.aps "esp32-audio-1" = true
      · rw [if_pos ha]
        rw [ensure_filter_add_shape "10.218.189.218" 20 tfl rfl hroot hwipe218]
        dsimp only
        set tadd : St :=
          { tfl with
              kern := { tfl.kern with
                filters := tfl.kern.filters ++ [(("wlan0", "10.218.189.218"), 20)] },
              oracle := [], ran := tfl.ran + 1 } with htadd
        have hadd218 : hasKey tadd.kern.filters ("wlan0", "10.218.189.218")
            = true := by
          simp [htadd, hasKey, List.any_append]
        have hadd80 : hasKey tadd.kern.filters ("wlan0", "10.218.189.80")
            = false := by
          simp [htadd, hasKey, List.any_append]
          simpa [hasKey] using hwipe80
        rw [del_filter_go_nil]
        exact ⟨tadd, rfl, rfl, rfl, rfl, rfl, rfl, hadd80,
          fun hc => absurd hf (by simp [hc]),
          fun _ => by simp [hadd218, ha]⟩
      · rw [if_neg ha]
        rw [del_filter_go_nil]
        refine ⟨tfl, rfl, rfl, rfl, rfl, rfl, rfl, hwipe80,
          fun hc => absurd hf (by simp [hc]),
          fun _ => ?_⟩
        simp [hwipe218, Bool.eq_false_iff.mpr hm, Bool.eq_false_iff.mpr ha]
  · rw [if_pos hf]
    refine ⟨t, rfl, rfl, hor, rfl, rfl, rfl, by simpa using hf,
      fun _ => rfl, fun hc => absurd hc hf⟩

/-! ## Claim theorems, witnesses and counterexamples -/

set_option maxRecDepth 100000 in
/-- C1 (amended): composing the bandwidth and priority directives for
`esp32-cam-1` leaves HTB class `1:10` with `rate 100mbit ceil 200mbit
prio 1` — the `traffic_shaping` policy generated for a priority intent
carries explicit `rate 100mbit`/`ceil 200mbit` parameters, which take
precedence over the device's recorded `2mbit`; the filter for the cam's
IP is installed.  The record-preserving behaviour the spec describes does
hold for the companion `routing_priority` policy, which carries no
rate/ceil: applied alone on top of the bandwidth directive it re-shapes
the class to `rate 2mbit ceil 2mbit prio 1`. -/
theorem claim_C1_amended :
    getKey c1_after_both.net.kern.classes ("wlan0", 10)
      = some ⟨.pstr "100mbit", .pstr "200mbit", .pstr "32k", 1⟩ ∧
    hasKey c1_after_both.net.kern.filters ("wlan0", "10.218.189.80")
      = true ∧
    getKey c1_rp_only.kern.classes ("wlan0", 10)
      = some ⟨.pstr "2mbit", .pstr "2mbit", .pstr "32k", 1⟩ := by
  decide

set_option maxRecDepth 100000 in
/-- C1 counterexample: after the two directives the class is NOT
`rate 2mbit ceil 2mbit` as the spec claims. -/
theorem claim_C1_counterexample :
    ¬ getKey c1_after_both.net.kern.classes ("wlan0", 10)
      = some ⟨.pstr "2mbit", .pstr "2mbit", .pstr "32k", 1⟩ := by
  decide

set_option maxRecDepth 100000 in
/-- C2: the mode split the spec describes is not implemented — the engine
keys injection mode on a `latency_inject` parameter the parser never
produces, so even a directive whose parse captures a specific delay
(`latency_target`) yields the fallback `traffic_shaping` policy, and the
spec's own scenario `add latency of 50ms for esp32-mhz19-1` leaves no
netem qdisc at `1:20`. -/
theorem claim_C2_bug :
    dmem (parse "reduce latency to 50ms").parameters "latency_target"
      = true ∧
    (generate_policies (parse "reduce latency to 50ms") 0).1.map
      (fun p => p.policy_type.val) = ["traffic_shaping"] ∧
    (generate_policies
        (parse "add latency of 50ms for esp32-mhz19-1") 0).1.map
      (fun p => p.policy_type.val) = ["traffic_shaping"] ∧
    getKey c2_after.net.kern.netems ("wlan0", 20) = none := by
  decide

set_option maxRecDepth 100000 in
/-- C3: for `set qos level 2 for node-1` the parse type is `qos` and one
`qos_control` policy is produced, but `reliable_delivery` is `false`, not
`true` — the captured level is the string "2" and Python's `"2" in [1, 2]`
is false — `mqtt_qos` is the string "2" rather than an int in \x7b0,1,2\x7d,
and the publish goes to `iot/1/control` (the parser's node fallback
captures only "1"), not `iot/node-1/control`. -/
theorem claim_C3_bug :
    c3_parse.intentType = "qos" ∧
    c3_policies.map (fun p => (p.policy_type.val, p.target))
      = [("qos_control", "1")] ∧
    c3_policies.map (fun p => p.parameters)
      = [[("mqtt_qos", PyVal.pstr "2"),
          ("reliable_delivery", PyVal.pbool false),
          ("retain", PyVal.pbool true)]] ∧
    c3_sys.dev.published
      = [("iot/1/control",
          "\x7b\"type\": \"qos_update\", \"qos\": \"2\", \"reliable_delivery\": false\x7d")] := by
  decide

set_option maxRecDepth 100000 in
/-- C4 witness: the idempotence theorem instantiated with a concrete
bandwidth policy for `esp32-cam-1` on the freshly initialised enforcer. -/
theorem claim_C4_witness :
    initSt.oracle = [] ∧
    resolve_device "esp32-cam-1" ≠ none ∧
    ((apply_policy
        ⟨"bandwidth_limit", "esp32-cam-1", [("rate", PyVal.pstr "2mbit")]⟩
        (apply_policy
          ⟨"bandwidth_limit", "esp32-cam-1", [("rate", PyVal.pstr "2mbit")]⟩
          initSt).2).1
      = (apply_policy
          ⟨"bandwidth_limit", "esp32-cam-1", [("rate", PyVal.pstr "2mbit")]⟩
          initSt).1 ∧
     (apply_policy
        ⟨"bandwidth_limit", "esp32-cam-1", [("rate", PyVal.pstr "2mbit")]⟩
        (apply_policy
          ⟨"bandwidth_limit", "esp32-cam-1", [("rate", PyVal.pstr "2mbit")]⟩
          initSt).2).2.kern
      = (apply_policy
          ⟨"bandwidth_limit", "esp32-cam-1", [("rate", PyVal.pstr "2mbit")]⟩
          initSt).2.kern ∧
     (apply_policy
        ⟨"bandwidth_limit", "esp32-cam-1", [("rate", PyVal.pstr "2mbit")]⟩
        (apply_policy
          ⟨"bandwidth_limit", "esp32-cam-1", [("rate", PyVal.pstr "2mbit")]⟩
          initSt).2).2.aps
      = (apply_policy
          ⟨"bandwidth_limit", "esp32-cam-1", [("rate", PyVal.pstr "2mbit")]⟩
          initSt).2.aps) :=
  ⟨by decide, by decide,
   claim_C4
     ⟨"bandwidth_limit", "esp32-cam-1", [("rate", PyVal.pstr "2mbit")]⟩
     initSt (by decide) (by decide)⟩

/-- C5: `apply_policy` is total (never raises): an unknown `policy_type`
returns `false` with the state unchanged, a target absent from the device
registry returns `false` with the state unchanged, and whenever the call
reports `false` the in-memory active-policy map is exactly as before the
call (the record is written only after every tc command of the handler
succeeded). -/
theorem claim_C5 (pol : PolicyDict) (s : St) :
    (¬ pol.policy_type ∈ networkPolicyTypes →
      apply_policy pol s = (false, s)) ∧
    (resolve_device pol.target = none → apply_policy pol s = (false, s)) ∧
    ((apply_policy pol s).1 = false → (apply_policy pol s).2.aps = s.aps) :=
  ⟨apply_policy_unknown_type pol s,
   apply_policy_unregistered pol s,
   apply_policy_false_aps pol s⟩

/-- C5 witness: an unknown policy type on an unregistered target at the
fresh enforcer state. -/
theorem claim_C5_witness :
    (¬ "nonsense" ∈ networkPolicyTypes) ∧
    resolve_device "esp32-nope-9" = none ∧
    apply_policy ⟨"nonsense", "esp32-nope-9", []⟩ initSt
      = (false, initSt) :=
  ⟨by decide, by decide,
   (claim_C5 ⟨"nonsense", "esp32-nope-9", []⟩ initSt).1 (by decide)⟩

set_option maxRecDepth 100000 in
/-- C6 witness: the stats theorem instantiated on a concrete listing with
junk lines around and inside the `1:20` block and an unrelated trailing
`1:99` block. -/
theorem claim_C6_witness :
    c6_raw "wlan0"
      = ["junk line"] ++ ["class htb 1:20 root prio 0 rate 10Mbit"]
        ++ ["noise here"]
        ++ [" Sent 1234 bytes 10 pkt (dropped 2, overlimits 3 requeues 0)"]
        ++ [" lended: 5 borrowed: 0"]
        ++ [" rate 56bit 7pps backlog 0b 0p"]
        ++ ["class htb 1:99 prio 0"] ∧
    "esp32-mhz19-1" ∈ cid_to_devs "wlan0" 20 ∧
    matchClassHeader "class htb 1:20 root prio 0 rate 10Mbit" = some 20 ∧
    matchSent " Sent 1234 bytes 10 pkt (dropped 2, overlimits 3 requeues 0)"
      = some (1234, 10, 2, 3) ∧
    matchRate " rate 56bit 7pps backlog 0b 0p" = some ("56bit", "7pps") ∧
    getKey (collect_tc_stats c6_raw) "esp32-mhz19-1"
      = some ⟨1234, 10, 2, 3, 20, some "56bit", some "7pps"⟩ := by
  refine ⟨by decide, by decide, by decide, by decide, by decide, ?_⟩
  refine claim_C6 c6_raw "esp32-mhz19-1" 20
    ["junk line"] ["noise here"] [" lended: 5 borrowed: 0"]
    ["class htb 1:99 prio 0"]
    "class htb 1:20 root prio 0 rate 10Mbit"
    " Sent 1234 bytes 10 pkt (dropped 2, overlimits 3 requeues 0)"
    " rate 56bit 7pps backlog 0b 0p"
    1234 10 2 3 "56bit" "7pps"
    (by decide) (by decide) (by decide) (by decide) (by decide) (by decide)
    (by decide) (by decide) (by decide) (by decide) (by decide) ?_
  intro l hl c hc
  rw [List.mem_singleton] at hl
  rw [hl] at hc
  have hc99 : matchClassHeader "class htb 1:99 prio 0" = some 99 := by
    decide
  rw [hc99] at hc
  rw [← Option.some.inj hc]
  decide

set_option maxRecDepth 100000 in
/-- C7 counterexample: in
`set gain to 2 for esp32-audio-1 and esp32-cam-2` both the audio pattern
(earlier in the spec's claimed cascade) and the cam pattern match, yet the
final `target_device` is the cam's — the later assignment overwrote the
earlier one, refuting "the earliest pattern in the cascade wins". -/
theorem claim_C7_counterexample :
    audioTarget (strLower c7_directive) = some "esp32-audio-1" ∧
    camTarget (strLower c7_directive) = some "esp32-cam-2" ∧
    dget (parse c7_directive).parameters "target_device"
      = some (PyVal.pstr "esp32-cam-2") := by
  decide

/-- C8 (amended): `parse` is a pure function (two runs on the same string
are equal), the determined type is never the empty string, and `validate`
accepts exactly the parses with a non-empty parameter dict — but a
non-`general` type does NOT imply non-empty parameters
(see `claim_C8_counterexample`). -/
theorem claim_C8_amended (D : String) :
    parse D = parse D ∧
    (parse D).intentType ≠ "" ∧
    validate (parse D)
      = (if (parse D).parameters = []
         then (false, "No actionable parameters extracted")
         else (true, "Valid")) :=
  ⟨rfl,
   by rw [parse_intentType]; exact determine_type_ne_empty _,
   validate_parse D⟩

set_option maxRecDepth 100000 in
/-- C8 counterexample: the directive `critical` is typed `priority`
(not `general`) yet extracts no parameters at all. -/
theorem claim_C8_counterexample :
    (parse "critical").intentType = "priority" ∧
    (parse "critical").parameters = [] := by
  decide

set_option maxRecDepth 100000 in
/-- C9 (amended): for every fault-free enforcer state with an HTB root on
`wlan0`, `clear_device("esp32-cam-1")` returns success and removes exactly
the cam's netem, class, filter and active-policy record — the resulting
netem, class and record tables are literally `delKey` of the originals at
the cam's keys, so every other device's classes and netems (in particular
the shared `1:20` endpoint of the CO₂ sensor and the audio node) are
untouched, and the root list is unchanged.  For the filters, `_del_filter`
flushes the interface and re-adds only devices that currently have an
active-policy record: if the cam's filter was absent the filter table is
wholly unchanged, and if it was present the neighbour endpoint's u32
filter (`10.218.189.218`) survives the clear if and only if the CO₂
sensor or the audio node has an active-policy record. -/
theorem claim_C9_amended (s : St) (hor : s.oracle = [])
    (hroot : "wlan0" ∈ s.kern.roots) :
    (clear_device "esp32-cam-1" s).1 = some true ∧
    (clear_device "esp32-cam-1" s).2.kern.netems
      = delKey s.kern.netems ("wlan0", 10) ∧
    (clear_device "esp32-cam-1" s).2.kern.classes
      = delKey s.kern.classes ("wlan0", 10) ∧
    (clear_device "esp32-cam-1" s).2.aps = delKey s.aps "esp32-cam-1" ∧
    hasKey (clear_device "esp32-cam-1" s).2.kern.filters
      ("wlan0", "10.218.189.80") = false ∧
    (clear_device "esp32-cam-1" s).2.kern.roots = s.kern.roots ∧
    hasKey (clear_device "esp32-cam-1" s).2.kern.classes ("wlan0", 20)
      = hasKey s.kern.classes ("wlan0", 20) ∧
    hasKey (clear_device "esp32-cam-1" s).2.kern.netems ("wlan0", 20)
      = hasKey s.kern.netems ("wlan0", 20) ∧
    (hasKey s.kern.filters ("wlan0", "10.218.189.80") = false →
      (clear_device "esp32-cam-1" s).2.kern.filters = s.kern.filters) ∧
    (hasKey s.kern.filters ("wlan0", "10.218.189.80") = true →
      hasKey (clear_device "esp32-cam-1" s).2.kern.filters
          ("wlan0", "10.218.189.218")
        = (hasKey s.aps "esp32-mhz19-1" || hasKey s.aps "esp32-audio-1")) := by
  unfold clear_device
  rw [show getKey DEVICE_REGISTRY "esp32-cam-1"
      = some ⟨"10.218.189.80", 10, "wlan0"⟩ from rfl]
  dsimp only
  rw [del_netem_nil "wlan0" 10 s hor]
  obtain ⟨t', edf, haps, hto, hroots, hcls, hnet, h80, hskip, hiff⟩ :=
    del_filter_cam
      { s with
          kern := { s.kern with
            netems := delKey s.kern.netems ("wlan0", 10) },
          oracle := [], ran := s.ran + 1 }
      rfl hroot
  rw [edf]
  dsimp only
  rw [del_class_nil "wlan0" 10 t' hto]
  refine ⟨rfl, ?_, ?_, ?_, h80, hroots, ?_, ?_, ?_, ?_⟩
  · rw [hnet]
  · rw [hcls]
  · rw [haps]
  · rw [hasKey_delKey_ne _ _ _ (by decide), hcls]
  · rw [hnet, hasKey_delKey_ne _ _ _ (by decide)]
  · intro hc
    rw [hskip hc]
  · intro hc
    rw [hiff hc]

set_option maxRecDepth 100000 in
/-- C9 witness: the amended theorem applied at the concrete scenario state
(the cam has an active bandwidth policy, the CO₂ sensor a kernel filter
but no record). -/
theorem claim_C9_witness :
    (c9_pre.oracle = [] ∧ "wlan0" ∈ c9_pre.kern.roots) ∧
    ((clear_device "esp32-cam-1" c9_pre).1 = some true ∧
     (clear_device "esp32-cam-1" c9_pre).2.kern.netems
       = delKey c9_pre.kern.netems ("wlan0", 10) ∧
     (clear_device "esp32-cam-1" c9_pre).2.kern.classes
       = delKey c9_pre.kern.classes ("wlan0", 10) ∧
     (clear_device "esp32-cam-1" c9_pre).2.aps
       = delKey c9_pre.aps "esp32-cam-1" ∧
     hasKey (clear_device "esp32-cam-1" c9_pre).2.kern.filters
       ("wlan0", "10.218.189.80") = false ∧
     (clear_device "esp32-cam-1" c9_pre).2.kern.roots
       = c9_pre.kern.roots ∧
     hasKey (clear_device "esp32-cam-1" c9_pre).2.kern.classes
         ("wlan0", 20)
       = hasKey c9_pre.kern.classes ("wlan0", 20) ∧
     hasKey (clear_device "esp32-cam-1" c9_pre).2.kern.netems
         ("wlan0", 20)
       = hasKey c9_pre.kern.netems ("wlan0", 20) ∧
     (hasKey c9_pre.kern.filters ("wlan0", "10.218.189.80") = false →
       (clear_device "esp32-cam-1" c9_pre).2.kern.filters
         = c9_pre.kern.filters) ∧
     (hasKey c9_pre.kern.filters ("wlan0", "10.218.189.80") = true →
       hasKey (clear_device "esp32-cam-1" c9_pre).2.kern.filters
           ("wlan0", "10.218.189.218")
         = (hasKey c9_pre.aps "esp32-mhz19-1"
            || hasKey c9_pre.aps "esp32-audio-1"))) :=
  ⟨⟨by decide, by decide⟩, claim_C9_amended c9_pre (by decide) (by decide)⟩

/-- C9 counterexample: the CO₂ sensor's filter is present before the cam
is cleared and absent afterwards — the spec's "remains in place unchanged,
regardless of whether those other devices currently have an active-policy
record" is false. -/
theorem claim_C9_counterexample :
    ¬ (hasKey c9_pre.kern.filters ("wlan0", "10.218.189.218") = true →
       hasKey c9_cleared.kern.filters ("wlan0", "10.218.189.218")
         = true) := by
  decide

/-- C10: a parsed intent of type `bandwidth` whose parameters carry
neither a `bandwidth_limit` nor a `throttle` capture generates the empty
policy list, while `validate` still accepts it whenever any parameter
(such as a bare `target_device`) was extracted. -/
theorem claim_C10 (p : ParsedIntent) (n : Nat)
    (ht : p.intentType = "bandwidth")
    (h1 : dmem p.parameters "bandwidth_limit" = false)
    (h2 : dmem p.parameters "throttle" = false) :
    (generate_policies p n).1 = [] ∧
    validate p
      = (if p.parameters = []
         then (false, "No actionable parameters extracted")
         else (true, "Valid")) := by
  constructor
  · unfold generate_policies
    rw [if_neg (by rw [ht]; decide), if_pos ht]
    unfold generate_bandwidth_policies
    dsimp only
    rw [if_neg (by simp [h1]), if_neg (by simp [h2])]
  · unfold validate
    rw [if_neg (by rw [ht]; decide)]

set_option maxRecDepth 100000 in
/-- C10 witness: `limit esp32-cam-1` parses to type `bandwidth` with only
a target (no limit/throttle capture), is accepted as valid, and produces
zero policies. -/
theorem claim_C10_witness :
    (parse "limit esp32-cam-1").intentType = "bandwidth" ∧
    dmem (parse "limit esp32-cam-1").parameters "bandwidth_limit"
      = false ∧
    dmem (parse "limit esp32-cam-1").parameters "throttle" = false ∧
    (generate_policies (parse "limit esp32-cam-1") 0).1 = [] ∧
    validate (parse "limit esp32-cam-1") = (true, "Valid") :=
  ⟨by decide, by decide, by decide,
   (claim_C10 (parse "limit esp32-cam-1") 0 (by decide) (by decide)
     (by decide)).1,
   by decide⟩

end Imperium
